import Mathlib

/-!
# Edge streams of tor 0.0.9.9 (`src/or/connection_edge.c`)

A shallow embedding of the edge-stream module and theorems about it.

Conventions of the embedding:

* A C string is the list of its characters up to, not including, the
  terminating NUL (`CStr`).
* `uint32_t`, `uint16_t` values are natural numbers; where the C code wraps,
  the embedding reduces modulo `2^32` or `2^16` explicitly.
* `time_t` and `int` values are integers.  Clock values and the cache size
  counter stay far away from the limits of their C types, so they are not
  reduced.
* Global variables (`client_dns_map`, `client_dns_size`) become a state record
  that every operation takes and returns.
* `time(NULL)` becomes an explicit argument `now`.
* Functions, constants and macros that `connection_edge.c` uses but that live
  in other files of the repository are explicit parameters of the functions
  that use them (`tor_inet_aton`, `MAX_DNS_ENTRY_AGE`, the host byte order, ...).
-/

namespace Tor

/-! ## Strings and byte order -/

/-- A C string: its characters before the terminating NUL. -/
abbrev CStr := List Char

/-- The libc `tolower` in the C locale: `A`..`Z` go to `a`..`z`, every other
character is left alone. -/
def tolower (c : Char) : Char :=
  if 65 ≤ c.toNat ∧ c.toNat ≤ 90 then Char.ofNat (c.toNat + 32) else c

/-- The function `tor_strlower` of util.c: `for (; *s; ++s) *s = tolower(*s);`. -/
def tor_strlower (s : CStr) : CStr := s.map tolower

/-- The libc `strcasecmp`, as far as the module uses it: only the test
`strcasecmp(a, b) == 0`, which holds when the two strings are equal after
`tolower` on every character. -/
def strcasecmp_eq (a b : CStr) : Bool := decide (a.map tolower = b.map tolower)

/-- Exchange the four bytes of a 32-bit value. -/
def bswap32 (x : Nat) : Nat :=
  (x % 256) * 2 ^ 24 + (x / 2 ^ 8 % 256) * 2 ^ 16 + (x / 2 ^ 16 % 256) * 2 ^ 8 + (x / 2 ^ 24 % 256)

/-- The libc `htonl`: the identity on a big-endian host, a byte swap on a
little-endian one. -/
def htonl (big_endian : Bool) (x : Nat) : Nat :=
  if big_endian then x % 2 ^ 32 else bswap32 x

/-- The libc `ntohl`; the same permutation of bytes as `htonl`. -/
def ntohl (big_endian : Bool) (x : Nat) : Nat :=
  if big_endian then x % 2 ^ 32 else bswap32 x

/-- The four bytes that a `uint32_t` occupies in memory, lowest address first. -/
def uint32_bytes (big_endian : Bool) (x : Nat) : List Nat :=
  if big_endian then [x / 2 ^ 24 % 256, x / 2 ^ 16 % 256, x / 2 ^ 8 % 256, x % 256]
  else [x % 256, x / 2 ^ 8 % 256, x / 2 ^ 16 % 256, x / 2 ^ 24 % 256]

/-! ## A dotted-quad reader, used to instantiate `tor_inet_aton` -/

/-- Split a string at every `'.'`. -/
def split_dots : CStr → List CStr
  | [] => [[]]
  | c :: cs =>
    if c = '.' then [] :: split_dots cs
    else
      match split_dots cs with
      | [] => [[c]]
      | p :: ps => (c :: p) :: ps

/-- The libc `isdigit` in the C locale. -/
def isdigit (c : Char) : Bool := decide (48 ≤ c.toNat ∧ c.toNat ≤ 57)

/-- One decimal field of a dotted quad: one to three digits, value at most 255. -/
def parse_octet (s : CStr) : Option Nat :=
  if s = [] ∨ 3 < s.length ∨ ¬ (s.all isdigit = true) then none
  else
    let n := s.foldl (fun acc c => acc * 10 + (c.toNat - 48)) 0
    if n ≤ 255 then some n else none

/-- Modelled from the spec: `tor_inet_aton` (util.c, a wrapper of the libc
`inet_aton`) is not part of connection_edge.c.  The spec speaks of an address
that "parses as a literal IPv4"; this reader accepts exactly the dotted quads
`a.b.c.d` with four decimal fields in `0..255` and yields `in.s_addr`, the
address in network byte order. -/
def inet_aton_dotted (big_endian : Bool) (s : CStr) : Option Nat :=
  match (split_dots s).map parse_octet with
  | [some a, some b, some c, some d] =>
    some (htonl big_endian (a * 2 ^ 24 + b * 2 ^ 16 + c * 2 ^ 8 + d))
  | _ => none

/-- A character that a dotted quad may contain: a digit or the dot. -/
def quad_char (c : Char) : Prop := isdigit c = true ∨ c = '.'

/-! ## The string map of container.c -/

/-- Modelled from the spec: `strmap_t` (container.c) is not part of
connection_edge.c.  A map from strings to values, held as an association list
with at most one pair per key. -/
abbrev strmap_t (α : Type) := List (CStr × α)

/-- Modelled from the spec: `strmap_get`, the value stored under `key`, if any. -/
def strmap_get {α : Type} (m : strmap_t α) (key : CStr) : Option α :=
  match m with
  | [] => none
  | (k, v) :: rest => if k = key then some v else strmap_get rest key

/-- Modelled from the spec: `strmap_remove`, drop the pair stored under `key`. -/
def strmap_remove {α : Type} (m : strmap_t α) (key : CStr) : strmap_t α :=
  match m with
  | [] => []
  | (k, v) :: rest => if k = key then strmap_remove rest key else (k, v) :: strmap_remove rest key

/-- Modelled from the spec: `strmap_set`, store `val` under `key`, replacing
the value that was there. -/
def strmap_set {α : Type} (m : strmap_t α) (key : CStr) (val : α) : strmap_t α :=
  match m with
  | [] => [(key, val)]
  | (k, v) :: rest => if k = key then (k, val) :: rest else (k, v) :: strmap_set rest key val

/-- Modelled from the spec: `strmap_get_lc` ("keyed by lowercase address"):
lower-case a copy of the key, then `strmap_get`. -/
def strmap_get_lc {α : Type} (m : strmap_t α) (key : CStr) : Option α :=
  strmap_get m (tor_strlower key)

/-- Modelled from the spec: `strmap_set_lc`: lower-case a copy of the key, then
`strmap_set`. -/
def strmap_set_lc {α : Type} (m : strmap_t α) (key : CStr) (val : α) : strmap_t α :=
  strmap_set m (tor_strlower key) val

/-- Modelled from the spec: `strmap_remove_lc`: lower-case a copy of the key,
then `strmap_remove`. -/
def strmap_remove_lc {α : Type} (m : strmap_t α) (key : CStr) : strmap_t α :=
  strmap_remove m (tor_strlower key)

/-! ## Client DNS cache (connection_edge.c, "Client DNS code") -/

/-- The record `struct client_dns_entry`. -/
structure client_dns_entry where
  /-- The resolved IP of this entry. -/
  addr : Nat
  /-- At what second does addr expire? -/
  expires : Int
  /-- How many times has this entry failed to resolve so far? -/
  n_failures : Int
deriving DecidableEq, Repr

/-- The two globals of the client DNS code: `client_dns_size` and
`client_dns_map`. -/
structure client_dns where
  client_dns_size : Int
  client_dns_map : strmap_t client_dns_entry
deriving DecidableEq, Repr

/-- The function `client_dns_init`. -/
def client_dns_init : client_dns :=
  { client_dns_size := 0, client_dns_map := [] }

/-- The function `_get_or_create_ent`: the entry of `address`, created (zeroed,
with `expires = now + MAX_DNS_ENTRY_AGE`) and counted when there is none. -/
def _get_or_create_ent (MAX_DNS_ENTRY_AGE : Int) (st : client_dns) (address : CStr) (now : Int) :
    client_dns_entry × client_dns :=
  match strmap_get_lc st.client_dns_map address with
  | some ent => (ent, st)
  | none =>
    let ent : client_dns_entry := { addr := 0, expires := now + MAX_DNS_ENTRY_AGE, n_failures := 0 }
    (ent, { client_dns_size := st.client_dns_size + 1,
            client_dns_map := strmap_set_lc st.client_dns_map address ent })

/-- The function `client_dns_lookup_entry`: the returned `uint32_t` and the
cache after the call. -/
def client_dns_lookup_entry (big_endian : Bool) (tor_inet_aton : CStr → Option Nat)
    (st : client_dns) (address : CStr) (now : Int) : Nat × client_dns :=
  match tor_inet_aton address with
  | some s_addr => (ntohl big_endian s_addr, st)
  | none =>
    match strmap_get_lc st.client_dns_map address with
    | none => (0, st)
    | some ent =>
      if ent.addr = 0 then (0, st)
      else if ent.expires < now then
        (0, { client_dns_size := st.client_dns_size - 1,
              client_dns_map := strmap_remove_lc st.client_dns_map address })
      else (ent.addr, st)

/-- The function `client_dns_set_entry` (its caller guarantees `val ≠ 0`, the
`tor_assert(val)`).  The entry is a heap record that the map points to, so the
three assignments through `ent` are written back under the same key. -/
def client_dns_set_entry (tor_inet_aton : CStr → Option Nat) (MAX_DNS_ENTRY_AGE : Int)
    (st : client_dns) (address : CStr) (val : Nat) (now : Int) : client_dns :=
  match tor_inet_aton address with
  | some _ => st
  | none =>
    let (ent, st1) := _get_or_create_ent MAX_DNS_ENTRY_AGE st address now
    let ent1 : client_dns_entry :=
      { ent with addr := val, expires := now + MAX_DNS_ENTRY_AGE, n_failures := 0 }
    { st1 with client_dns_map := strmap_set_lc st1.client_dns_map address ent1 }

/-! ## Hostname classifier (connection_edge.c, `parse_extended_hostname`) -/

/-- The enumeration `hostname_type_t` of or.h.  `NORMAL_HOSTNAME` is its first
enumerator, the value 0 that `parse_extended_hostname` returns for an address
without a dot ("no dot, thus normal"). -/
inductive hostname_type_t where
  | NORMAL_HOSTNAME
  | ONION_HOSTNAME
  | EXIT_HOSTNAME
deriving DecidableEq, Repr

/-- The libc `strrchr(s, c)` for `c` other than NUL: `none` when `c` does not
occur in `s`; otherwise the text before the last occurrence of `c` (what the
string becomes when a NUL is written over that occurrence) and the text after
it (the string at `s+1`). -/
def strrchr_split (c : Char) : CStr → Option (CStr × CStr)
  | [] => none
  | x :: xs =>
    match strrchr_split c xs with
    | some (pre, suf) => some (x :: pre, suf)
    | none => if x = c then some ([], xs) else none

/-- The function `parse_extended_hostname`: the returned type and the address
buffer after the call.  `REND_SERVICE_ID_LEN` (or.h) and
`rend_valid_service_id` (rendcommon.c) are parameters.  `strlcpy` returns the
length of its source, here the text before the dot. -/
def parse_extended_hostname (REND_SERVICE_ID_LEN : Nat) (rend_valid_service_id : CStr → Bool)
    (address : CStr) : hostname_type_t × CStr :=
  match strrchr_split '.' address with
  | none => (hostname_type_t.NORMAL_HOSTNAME, address)
  | some (pre, suf) =>
    if strcasecmp_eq suf "exit".toList then (hostname_type_t.EXIT_HOSTNAME, pre)
    else if ¬ strcasecmp_eq suf "onion".toList then (hostname_type_t.NORMAL_HOSTNAME, address)
    else if REND_SERVICE_ID_LEN + 1 ≤ pre.length then
      (hostname_type_t.NORMAL_HOSTNAME, pre ++ '.' :: suf)
    else if rend_valid_service_id (tor_strlower (pre.take REND_SERVICE_ID_LEN)) then
      (hostname_type_t.ONION_HOSTNAME, tor_strlower pre)
    else (hostname_type_t.NORMAL_HOSTNAME, pre ++ '.' :: suf)

/-! ## Edge streams and circuits -/

/-- The connection types of or.h that the module tells apart. -/
inductive conn_type where
  | CONN_TYPE_EXIT
  | CONN_TYPE_AP
  /-- Any other connection type (OR, directory, listener, ...). -/
  | CONN_TYPE_OTHER
deriving DecidableEq, Repr

/-- The states of exit and AP connections (or.h). -/
inductive conn_state where
  | EXIT_CONN_STATE_RESOLVING
  | EXIT_CONN_STATE_CONNECTING
  | EXIT_CONN_STATE_OPEN
  | EXIT_CONN_STATE_RESOLVEFAILED
  | AP_CONN_STATE_SOCKS_WAIT
  | AP_CONN_STATE_RENDDESC_WAIT
  | AP_CONN_STATE_CIRCUIT_WAIT
  | AP_CONN_STATE_CONNECT_WAIT
  | AP_CONN_STATE_RESOLVE_WAIT
  | AP_CONN_STATE_OPEN
deriving DecidableEq, Repr

/-- The circuit purposes of or.h that the module tells apart. -/
inductive circuit_purpose where
  | CIRCUIT_PURPOSE_C_GENERAL
  | CIRCUIT_PURPOSE_C_REND_JOINED
  | CIRCUIT_PURPOSE_S_REND_JOINED
  /-- Any other purpose. -/
  | CIRCUIT_PURPOSE_OTHER
deriving DecidableEq, Repr

/-- The relay commands of or.h that the module sends. -/
inductive relay_command where
  | RELAY_COMMAND_BEGIN
  | RELAY_COMMAND_DATA
  | RELAY_COMMAND_END
  | RELAY_COMMAND_CONNECTED
  | RELAY_COMMAND_SENDME
  | RELAY_COMMAND_RESOLVE
  | RELAY_COMMAND_RESOLVED
deriving DecidableEq, Repr

/-- Reasons of an END cell (or.h). -/
def END_STREAM_REASON_MISC : Nat := 1
/-- Reason of an END cell (or.h). -/
def END_STREAM_REASON_RESOLVEFAILED : Nat := 2
/-- Reason of an END cell (or.h). -/
def END_STREAM_REASON_CONNECTREFUSED : Nat := 3
/-- Modelled from the spec: the constant of or.h; the spec gives its value in
the payload "[reason=4, 0x0A, 0x00, 0x00, 0x01]" of `END(EXITPOLICY)`. -/
def END_STREAM_REASON_EXITPOLICY : Nat := 4
/-- Reason of an END cell (or.h). -/
def END_STREAM_REASON_DESTROY : Nat := 5
/-- Reason of an END cell (or.h). -/
def END_STREAM_REASON_DONE : Nat := 6
/-- Reason of an END cell (or.h). -/
def END_STREAM_REASON_TIMEOUT : Nat := 7

/-- Modelled from the spec: SOCKS command "CONNECT (0x01)". -/
def SOCKS_COMMAND_CONNECT : Nat := 0x01
/-- Modelled from the spec: SOCKS command "RESOLVE (0xF0)". -/
def SOCKS_COMMAND_RESOLVE : Nat := 0xF0

/-- The record `socks_request_t` (or.h); `replylen` is the length of `reply`. -/
structure socks_request_t where
  socks_version : Nat := 0
  command : Nat := SOCKS_COMMAND_CONNECT
  address : CStr := []
  port : Nat := 0
  has_finished : Bool := false
  reply : List Nat := []
deriving DecidableEq, Repr

/-- The fields of `connection_t` (or.h) that edge streams use.  Buffers are the
lists of bytes they hold; `marked_for_close` is a flag; `cpath_layer` names a
hop of the circuit, `none` being the NULL pointer. -/
structure connection_t where
  type : conn_type := conn_type.CONN_TYPE_AP
  state : conn_state := conn_state.AP_CONN_STATE_SOCKS_WAIT
  marked_for_close : Bool := false
  hold_open_until_flushed : Bool := false
  has_sent_end : Bool := false
  timestamp_lastread : Int := 0
  stream_id : Nat := 0
  addr : Nat := 0
  port : Nat := 0
  address : CStr := []
  package_window : Int := 0
  deliver_window : Int := 0
  cpath_layer : Option Nat := none
  chosen_exit_name : Option CStr := none
  rend_query : CStr := []
  socks_request : socks_request_t := {}
  inbuf : List Nat := []
  outbuf : List Nat := []
deriving DecidableEq, Repr

/-- The fields of `circuit_t` (or.h) that edge streams use.  The three stream
lists are the linked lists threaded through `next_stream`, head first. -/
structure circuit_t where
  n_circ_id : Nat := 0
  purpose : circuit_purpose := circuit_purpose.CIRCUIT_PURPOSE_C_GENERAL
  marked_for_close : Bool := false
  timestamp_dirty : Int := 0
  next_stream_id : Nat := 0
  p_streams : List connection_t := []
  n_streams : List connection_t := []
  resolving_streams : List connection_t := []
  rend_query : CStr := []
deriving DecidableEq, Repr

/-- One call of `connection_edge_send_command` with a circuit at hand: the relay
cell that the module gives to the circuit layer. -/
structure relay_cell where
  /-- The circuit the cell is sent on (its `n_circ_id`). -/
  circ_id : Nat
  /-- The `stream_id` of the sending stream. -/
  stream_id : Nat
  relay_command : relay_command
  /-- The first `payload_len` bytes of the payload. -/
  payload : List Nat
  cpath_layer : Option Nat
deriving DecidableEq, Repr

/-- Modelled from the spec: `connection_edge_send_command` (relay.c) is the
circuit layer's "send relay command".  With a circuit, the cell is handed over
and the call returns `send_ret`, the verdict of the circuit layer (0, or a
negative value when the circuit turns out to be closed); with the NULL circuit
nothing is sent and the call fails. -/
def connection_edge_send_command (fromconn : connection_t) (circ : Option circuit_t)
    (cmd : relay_command) (payload : List Nat) (cpath_layer : Option Nat) (send_ret : Int) :
    Int × List relay_cell :=
  match circ with
  | none => (-1, [])
  | some c =>
    (send_ret, [{ circ_id := c.n_circ_id, stream_id := fromconn.stream_id, relay_command := cmd,
                  payload := payload, cpath_layer := cpath_layer }])

/-- Modelled from the spec: `connection_mark_for_close` (connection.c), "mark
for close": sets the flag. -/
def connection_mark_for_close (conn : connection_t) : connection_t :=
  { conn with marked_for_close := true }

/-- Modelled from the spec: `circuit_mark_for_close` (circuitlist.c), "tear
down the circuit": sets the flag of the circuit. -/
def circuit_mark_for_close (circ : circuit_t) : circuit_t :=
  { circ with marked_for_close := true }

/-- The function `connection_edge_end`: return value, the stream after the
call, and the cells sent.  `circ` is what `circuit_get_by_conn(conn)` finds.
The value that `connection_edge_send_command` returns is not looked at. -/
def connection_edge_end (big_endian : Bool) (conn : connection_t) (reason : Nat)
    (cpath_layer : Option Nat) (circ : Option circuit_t) :
    Int × connection_t × List relay_cell :=
  if conn.has_sent_end then (-1, conn, [])
  else
    let payload : List Nat :=
      if reason = END_STREAM_REASON_EXITPOLICY then
        reason :: uint32_bytes big_endian (htonl big_endian conn.addr)
      else [reason]
    let cells : List relay_cell :=
      match circ with
      | some c =>
        if ¬ c.marked_for_close then
          (connection_edge_send_command conn (some c) relay_command.RELAY_COMMAND_END payload
            cpath_layer 0).2
        else []
      | none => []
    (0, { conn with has_sent_end := true }, cells)

/-- The loop of `get_unique_stream_id_by_circ` from the label `again`: the
returned id and the final `next_stream_id`.  `next_stream_id` is a `uint16_t`
and wraps; `attempts` counts the passes.  The first argument bounds the number
of passes; the counter `attempts` ends the loop within `2^16 + 1` passes, so
with that many the bound is never met (`get_unique_stream_id_again_fuel`). -/
def get_unique_stream_id_again (p_streams : List connection_t) :
    Nat → Nat → Nat → Nat × Nat
  | 0, next_stream_id, _ => (0, next_stream_id)
  | passes + 1, next_stream_id, attempts =>
    let test_stream_id := next_stream_id
    let next_stream_id := (next_stream_id + 1) % 2 ^ 16
    let attempts := attempts + 1
    if 2 ^ 16 < attempts then (0, next_stream_id)
    else if test_stream_id = 0 then
      get_unique_stream_id_again p_streams passes next_stream_id attempts
    else if p_streams.any (fun tmpconn => decide (tmpconn.stream_id = test_stream_id)) then
      get_unique_stream_id_again p_streams passes next_stream_id attempts
    else (test_stream_id, next_stream_id)

/-- The function `get_unique_stream_id_by_circ`: the returned id (0 when none
is free) and the circuit with its advanced `next_stream_id`. -/
def get_unique_stream_id_by_circ (circ : circuit_t) : Nat × circuit_t :=
  let r := get_unique_stream_id_again circ.p_streams (2 ^ 16 + 1) circ.next_stream_id 0
  (r.1, { circ with next_stream_id := r.2 })

/-- Decimal text of a number, what `"%d"` prints for a non-negative `int`. -/
def decimal (n : Nat) : CStr := Nat.toDigits 10 n

/-- The libc `inet_ntoa`: the dotted-quad text of `in.s_addr`, whose bytes in
memory are the four fields in order. -/
def inet_ntoa (big_endian : Bool) (s_addr : Nat) : CStr :=
  ".".toList.intercalate ((uint32_bytes big_endian s_addr).map decimal)

/-- The function `tor_snprintf(str, size, ...)` of util.c, as far as the buffer
goes: the formatted text, cut to `size - 1` characters. -/
def tor_snprintf (size : Nat) (text : CStr) : CStr := text.take (size - 1)

/-- The bytes of a C string. -/
def cstr_bytes (s : CStr) : List Nat := s.map Char.toNat

/-- The function `connection_ap_handshake_send_begin`: return value, stream,
circuit, client DNS cache and cells sent.  `send_ret` is the value that
`connection_edge_send_command` returns; `RELAY_PAYLOAD_SIZE` and
`STREAMWINDOW_START` (or.h) are parameters. -/
def connection_ap_handshake_send_begin (big_endian : Bool) (tor_inet_aton : CStr → Option Nat)
    (RELAY_PAYLOAD_SIZE : Nat) (STREAMWINDOW_START : Int) (dns : client_dns) (now : Int)
    (ap_conn : connection_t) (circ : circuit_t) (send_ret : Int) :
    Int × connection_t × circuit_t × client_dns × List relay_cell :=
  let r := get_unique_stream_id_by_circ circ
  let ap_conn := { ap_conn with stream_id := r.1 }
  let circ := r.2
  if ap_conn.stream_id = 0 then
    (-1, connection_mark_for_close { ap_conn with has_sent_end := true },
      circuit_mark_for_close circ, dns, [])
  else
    let built : CStr × client_dns :=
      if circ.purpose = circuit_purpose.CIRCUIT_PURPOSE_C_GENERAL then
        let l := client_dns_lookup_entry big_endian tor_inet_aton dns
          ap_conn.socks_request.address now
        let s_addr := htonl big_endian l.1
        let string_addr : CStr :=
          if s_addr ≠ 0 then inet_ntoa big_endian s_addr else ap_conn.socks_request.address
        (tor_snprintf RELAY_PAYLOAD_SIZE
          (string_addr ++ ':' :: decimal ap_conn.socks_request.port), l.2)
      else
        (tor_snprintf RELAY_PAYLOAD_SIZE (':' :: decimal ap_conn.socks_request.port), dns)
    let payload := cstr_bytes built.1 ++ [0]
    let sent := connection_edge_send_command ap_conn (some circ)
      relay_command.RELAY_COMMAND_BEGIN payload ap_conn.cpath_layer send_ret
    let cells := sent.2
    if sent.1 < 0 then (-1, ap_conn, circ, built.2, cells)
    else
      (0, { ap_conn with package_window := STREAMWINDOW_START,
                         deliver_window := STREAMWINDOW_START,
                         state := conn_state.AP_CONN_STATE_CONNECT_WAIT },
        circ, built.2, cells)

/-- The function `connection_ap_handshake_send_resolve`: return value, stream,
circuit and cells sent.  `send_ret` is the value that
`connection_edge_send_command` returns. -/
def connection_ap_handshake_send_resolve (ap_conn : connection_t) (circ : circuit_t)
    (send_ret : Int) : Int × connection_t × circuit_t × List relay_cell :=
  let r := get_unique_stream_id_by_circ circ
  let ap_conn := { ap_conn with stream_id := r.1 }
  let circ := r.2
  if ap_conn.stream_id = 0 then
    (-1, connection_mark_for_close { ap_conn with has_sent_end := true },
      circuit_mark_for_close circ, [])
  else
    let string_addr := ap_conn.socks_request.address
    let sent := connection_edge_send_command ap_conn (some circ)
      relay_command.RELAY_COMMAND_RESOLVE (cstr_bytes string_addr) ap_conn.cpath_layer send_ret
    let cells := sent.2
    if sent.1 < 0 then (-1, ap_conn, circ, cells)
    else (0, { ap_conn with state := conn_state.AP_CONN_STATE_RESOLVE_WAIT }, circ, cells)

/-- An id that `get_unique_stream_id_by_circ` skips: 0, or the `stream_id` of a
stream on the list. -/
def stream_id_skipped (p_streams : List connection_t) (id : Nat) : Prop :=
  id = 0 ∨ ∃ c ∈ p_streams, c.stream_id = id

/-- Streams with the stream ids 1 to 65535. -/
@[irreducible] def full_p_streams : List connection_t :=
  (List.range (2 ^ 16 - 1)).map (fun i => { stream_id := i + 1 })

/-- A circuit on which every non-zero 16-bit stream id is taken: its
`p_streams` hold streams with the ids 1 to 65535. -/
def full_circuit : circuit_t :=
  { next_stream_id := 17, p_streams := full_p_streams }

/-! ## The stream in its surroundings -/

/-- One rule of the exit redirect list (`exit_redirect_t`, or.h). -/
structure exit_redirect_t where
  mask : Nat
  addr : Nat
  port_min : Nat
  port_max : Nat
  addr_dest : Nat
  port_dest : Nat
  is_redirect : Bool
deriving DecidableEq, Repr

/-- What connection_edge.c takes from the rest of the build: the byte order
of the host, constants of or.h, the configuration, and functions of other
files that only report on their argument. -/
structure edge_env where
  big_endian : Bool
  tor_inet_aton : CStr → Option Nat
  MAX_DNS_ENTRY_AGE : Int
  RELAY_PAYLOAD_SIZE : Nat
  STREAMWINDOW_START : Int
  REND_SERVICE_ID_LEN : Nat
  rend_valid_service_id : CStr → Bool
  /-- The function `connection_state_is_open` of connection.c. -/
  connection_state_is_open : connection_t → Bool
  /-- The option `NewCircuitPeriod`. -/
  NewCircuitPeriod : Int
  /-- The static `redirect_exit_list`; `none` is the NULL pointer. -/
  redirect_exit_list : Option (List exit_redirect_t)

/-- The state that the functions of the module work on when they handle one
stream: the stream, the circuit that `circuit_get_by_conn` finds for it (`none`
when it is on no circuit), the client DNS cache, and what has been handed to
other modules so far, oldest first: relay cells, descriptor refetches, outbound
connects.  `freed` is set by `connection_free`. -/
structure edge_world where
  conn : connection_t
  circ : Option circuit_t := none
  dns : client_dns := client_dns_init
  sent : List relay_cell := []
  refetched : List CStr := []
  connects : List (CStr × Nat × Nat) := []
  freed : Bool := false

/-- Modelled from the spec: `connection_ap_handshake_attach_circuit`
(circuituse.c) is not part of connection_edge.c.  What it finds: no circuit
can ever work; none is ready yet; or a suitable circuit, given with the verdict
of the circuit layer on the cell that is then sent. -/
inductive attach_outcome where
  | never
  | not_yet
  | found (circ : circuit_t) (send_ret : Int)

/-- Modelled from the spec: `connection_ap_handshake_attach_circuit`
(circuituse.c), "Attach": a permanent failure returns -1; with no circuit yet it
returns 0; with a suitable circuit the stream is put at the head of its
`p_streams`, BEGIN or RESOLVE is sent by `connection_ap_handshake_send_begin` or
`connection_ap_handshake_send_resolve`, and it returns 1.  The spec does not
say what the attach does to `timestamp_lastread`; here the field is left as it
is. -/
def connection_ap_handshake_attach_circuit (env : edge_env) (o : attach_outcome) (now : Int)
    (w : edge_world) : Int × edge_world :=
  match o with
  | attach_outcome.never => (-1, w)
  | attach_outcome.not_yet => (0, w)
  | attach_outcome.found circ send_ret =>
    let linked : circuit_t := { circ with p_streams := w.conn :: circ.p_streams }
    if w.conn.socks_request.command = SOCKS_COMMAND_CONNECT then
      let r := connection_ap_handshake_send_begin env.big_endian env.tor_inet_aton
        env.RELAY_PAYLOAD_SIZE env.STREAMWINDOW_START w.dns now w.conn linked send_ret
      (1, { w with conn := r.2.1, circ := some r.2.2.1, dns := r.2.2.2.1,
                   sent := w.sent ++ r.2.2.2.2 })
    else
      let r := connection_ap_handshake_send_resolve w.conn linked send_ret
      (1, { w with conn := r.2.1, circ := some r.2.2.1, sent := w.sent ++ r.2.2.2 })

/-- Modelled from the spec: `circuit_detach_stream` (circuitlist.c), "detach
stream": afterwards `circuit_get_by_conn` finds no circuit for the stream. -/
def circuit_detach_stream (w : edge_world) : edge_world :=
  { w with circ := none }

/-- Modelled from the spec: `connection_free` (connection.c): the stream is
gone. -/
def connection_free (w : edge_world) : edge_world :=
  { w with freed := true }

/-- The call `connection_edge_end(conn, reason, conn->cpath_layer)` on the
stream of `w`, with the circuit of `w` as the one that `circuit_get_by_conn`
finds. -/
def connection_edge_end_w (env : edge_env) (reason : Nat) (w : edge_world) : Int × edge_world :=
  let r := connection_edge_end env.big_endian w.conn reason w.conn.cpath_layer w.circ
  (r.1, { w with conn := r.2.1, sent := w.sent ++ r.2.2 })

/-- Modelled from the spec: `connection_write_to_buf` (connection.c), the
"write buffer": the bytes are appended to the outbuf. -/
def connection_write_to_buf (bytes : List Nat) (conn : connection_t) : connection_t :=
  { conn with outbuf := conn.outbuf ++ bytes }

/-- The constant `SOCKS4_NETWORK_LEN` (or.h): the spec's SOCKS4 reply has
1 + 1 + 2 + 4 bytes. -/
def SOCKS4_NETWORK_LEN : Nat := 8
/-- Modelled from the spec: answer type "IPv4(0x04)" of a RESOLVED cell. -/
def RESOLVED_TYPE_IPV4 : Nat := 4
/-- Modelled from the spec: answer type "IPv6(0x06)" of a RESOLVED cell. -/
def RESOLVED_TYPE_IPV6 : Nat := 6
/-- Modelled from the spec: answer type "ERROR(0xF0)" of a RESOLVED cell. -/
def RESOLVED_TYPE_ERROR : Nat := 0xF0

/-- The function `connection_ap_handshake_socks_reply`; `reply` stands for the
pair `reply`, `replylen`.  The event for the controller is left out. -/
def connection_ap_handshake_socks_reply (conn : connection_t) (reply : List Nat) (status : Int) :
    connection_t :=
  if reply.length ≠ 0 then connection_write_to_buf reply conn
  else
    let conn1 :=
      if conn.socks_request.socks_version = 4 then
        connection_write_to_buf
          ([0, if status = 1 then 90 else 91] ++ List.replicate (SOCKS4_NETWORK_LEN - 2) 0) conn
      else conn
    if conn1.socks_request.socks_version = 5 then
      connection_write_to_buf ([5, if status = 1 then 0 else 1, 0, 1] ++ List.replicate 6 0) conn1
    else conn1

/-- The macro `get_uint32`: the `uint32_t` whose bytes in memory are the first
four of `bytes`. -/
def get_uint32 (big_endian : Bool) (bytes : List Nat) : Nat :=
  let b := fun i => bytes.getD i 0
  if big_endian then b 0 * 2 ^ 24 + b 1 * 2 ^ 16 + b 2 * 2 ^ 8 + b 3
  else b 0 + b 1 * 2 ^ 8 + b 2 * 2 ^ 16 + b 3 * 2 ^ 24

/-- The function `connection_ap_handshake_socks_resolved`; `answer` stands for
the pair `answer`, `answer_len`.  Returns the stream and the client DNS cache. -/
def connection_ap_handshake_socks_resolved (env : edge_env) (now : Int) (dns : client_dns)
    (conn : connection_t) (answer_type : Nat) (answer : List Nat) : connection_t × client_dns :=
  let dns1 :=
    if answer_type = RESOLVED_TYPE_IPV4 then
      let a := get_uint32 env.big_endian answer
      if a ≠ 0 then
        client_dns_set_entry env.tor_inet_aton env.MAX_DNS_ENTRY_AGE dns
          conn.socks_request.address (ntohl env.big_endian a) now
      else dns
    else dns
  let buf : List Nat :=
    if conn.socks_request.socks_version = 4 then
      if answer_type = RESOLVED_TYPE_IPV4 ∧ answer.length = 4 then
        [0x00, 90, 0, 0] ++ answer.take 4
      else [0x00, 91] ++ List.replicate 6 0
    else
      if answer_type = RESOLVED_TYPE_IPV4 ∧ answer.length = 4 then
        [0x05, 0, 0, 0x01] ++ answer.take 4 ++ [0, 0]
      else if answer_type = RESOLVED_TYPE_IPV6 ∧ answer.length = 16 then
        [0x05, 0, 0, 0x04] ++ answer.take 16 ++ [0, 0]
      else [0x05, 0x04] ++ List.replicate 8 0
  let conn1 := connection_ap_handshake_socks_reply conn buf
    (if answer_type = RESOLVED_TYPE_IPV4 ∨ answer_type = RESOLVED_TYPE_IPV6 then 1 else -1)
  ({ conn1 with socks_request := { conn1.socks_request with has_finished := true } }, dns1)

/-- What the functions of other files report to
`connection_ap_handshake_process_socks`. -/
structure socks_oracle where
  /-- The value that `fetch_from_buf_socks` returns. -/
  sockshere : Int
  /-- The request as `fetch_from_buf_socks` leaves it. -/
  socks : socks_request_t
  /-- The inbuf as `fetch_from_buf_socks` leaves it. -/
  inbuf : List Nat
  /-- The value that `rend_cache_lookup_entry` returns. -/
  rend_r : Int
  /-- The field `received` of the descriptor that it finds. -/
  rend_received : Int
  /-- What `connection_ap_handshake_attach_circuit` finds. -/
  attach : attach_outcome

/-- Modelled from the spec: `rend_client_refetch_renddesc` (rendclient.c),
"refetch descriptor": the request is handed over. -/
def rend_client_refetch_renddesc (query : CStr) (w : edge_world) : edge_world :=
  { w with refetched := w.refetched ++ [query] }

/-- The part of `connection_ap_handshake_process_socks` for an address that is
not a hidden service (`addresstype != ONION_HOSTNAME`). -/
def connection_ap_handshake_process_socks_normal (env : edge_env) (o : socks_oracle) (now : Int)
    (w : edge_world) : Int × edge_world :=
  let socks := w.conn.socks_request
  let too_large : Bool :=
    decide (socks.command = SOCKS_COMMAND_RESOLVE ∧ env.RELAY_PAYLOAD_SIZE < socks.address.length)
  if too_large then
    let r := connection_ap_handshake_socks_resolved env now w.dns w.conn RESOLVED_TYPE_ERROR []
    (-1, { w with conn := r.1, dns := r.2 })
  else
    let answer0 : Nat :=
      match env.tor_inet_aton socks.address with
      | some s_addr => s_addr
      | none => 0
    let looked : Nat × client_dns :=
      if answer0 = 0 ∧ w.conn.chosen_exit_name = none then
        let l := client_dns_lookup_entry env.big_endian env.tor_inet_aton w.dns socks.address now
        (htonl env.big_endian l.1, l.2)
      else (answer0, w.dns)
    if socks.command = SOCKS_COMMAND_RESOLVE ∧ looked.1 ≠ 0 then
      let r := connection_ap_handshake_socks_resolved env now looked.2 w.conn RESOLVED_TYPE_IPV4
        (uint32_bytes env.big_endian looked.1)
      (0, { w with
              conn := { connection_mark_for_close { r.1 with has_sent_end := true } with
                          hold_open_until_flushed := true },
              dns := r.2 })
    else
      let w1 : edge_world :=
        if socks.command = SOCKS_COMMAND_RESOLVE then { w with dns := looked.2 } else w
      if socks.command = SOCKS_COMMAND_CONNECT ∧ socks.port = 0 then (-1, w1)
      else
        connection_ap_handshake_attach_circuit env o.attach now
          { w1 with conn := { w1.conn with state := conn_state.AP_CONN_STATE_CIRCUIT_WAIT } }

/-- The part of `connection_ap_handshake_process_socks` for a hidden-service
request (`addresstype == ONION_HOSTNAME`).  `NUM_SECONDS_BEFORE_REFETCH` is
`60*15`; `rend_query` has room for `REND_SERVICE_ID_LEN` characters. -/
def connection_ap_handshake_process_socks_onion (env : edge_env) (o : socks_oracle) (now : Int)
    (w : edge_world) : Int × edge_world :=
  let socks := w.conn.socks_request
  if socks.command = SOCKS_COMMAND_RESOLVE then
    let r := connection_ap_handshake_socks_resolved env now w.dns w.conn RESOLVED_TYPE_ERROR []
    (-1, { w with conn := r.1, dns := r.2 })
  else
    let conn1 := { w.conn with rend_query := socks.address.take env.REND_SERVICE_ID_LEN }
    let w1 := { w with conn := conn1 }
    if o.rend_r < 0 then (-1, w1)
    else if o.rend_r = 0 then
      (0, rend_client_refetch_renddesc conn1.rend_query
        { w1 with conn := { conn1 with state := conn_state.AP_CONN_STATE_RENDDESC_WAIT } })
    else if now - o.rend_received < 60 * 15 then
      connection_ap_handshake_attach_circuit env o.attach now
        { w1 with conn := { conn1 with state := conn_state.AP_CONN_STATE_CIRCUIT_WAIT } }
    else
      (0, rend_client_refetch_renddesc conn1.rend_query
        { w1 with conn := { conn1 with state := conn_state.AP_CONN_STATE_RENDDESC_WAIT } })

/-- The function `connection_ap_handshake_process_socks`. -/
def connection_ap_handshake_process_socks (env : edge_env) (o : socks_oracle) (now : Int)
    (w : edge_world) : Int × edge_world :=
  let conn0 := { w.conn with socks_request := o.socks, inbuf := o.inbuf }
  if o.sockshere = -1 ∨ o.sockshere = 0 then
    let conn1 :=
      if o.socks.reply.length ≠ 0 then
        let c := connection_ap_handshake_socks_reply conn0 o.socks.reply 0
        { c with socks_request := { c.socks_request with reply := [] } }
      else if o.sockshere = -1 then connection_ap_handshake_socks_reply conn0 [] (-1)
      else conn0
    let conn2 :=
      if o.sockshere = -1 then
        { conn1 with socks_request := { conn1.socks_request with has_finished := true } }
      else conn1
    (o.sockshere, { w with conn := conn2 })
  else
    let parsed := parse_extended_hostname env.REND_SERVICE_ID_LEN env.rend_valid_service_id
      o.socks.address
    let addresstype := parsed.1
    let conn1 := { conn0 with socks_request := { conn0.socks_request with address := parsed.2 } }
    if addresstype = hostname_type_t.EXIT_HOSTNAME then
      match strrchr_split '.' parsed.2 with
      | none => (-1, { w with conn := conn1 })
      | some (host, name) =>
        if name = [] then (-1, { w with conn := conn1 })
        else
          connection_ap_handshake_process_socks_normal env o now
            { w with conn :=
                { conn1 with chosen_exit_name := some name,
                             socks_request := { conn1.socks_request with address := host } } }
    else if addresstype ≠ hostname_type_t.ONION_HOSTNAME then
      connection_ap_handshake_process_socks_normal env o now { w with conn := conn1 }
    else
      connection_ap_handshake_process_socks_onion env o now { w with conn := conn1 }

/-- The function `connection_edge_reached_eof` (the build without `HALF_OPEN`). -/
def connection_edge_reached_eof (env : edge_env) (w : edge_world) : Int × edge_world :=
  if w.conn.inbuf.length ≠ 0 ∧ env.connection_state_is_open w.conn = true then (0, w)
  else if ¬ w.conn.marked_for_close then
    let r := connection_edge_end_w env END_STREAM_REASON_DONE w
    (0, { r.2 with conn := connection_mark_for_close r.2.conn })
  else (0, w)

/-- The function `connection_edge_destroy`. -/
def connection_edge_destroy (_circ_id : Nat) (conn : connection_t) : Int × connection_t :=
  if conn.marked_for_close then (0, conn)
  else
    (0, { connection_mark_for_close { conn with has_sent_end := true } with
            hold_open_until_flushed := true, cpath_layer := none })

/-- Modelled from the spec: what `connection_edge_package_raw_inbuf` (relay.c)
does with the inbuf: the payloads of the DATA cells it packages, the bytes it
leaves on the inbuf, the verdict of the circuit layer on the cells, and the
value it returns. -/
structure package_outcome where
  data : List (List Nat)
  inbuf : List Nat
  send_ret : Int
  ret : Int

/-- Modelled from the spec: `connection_edge_package_raw_inbuf` (relay.c):
inbound bytes are packaged into DATA cells, each taking one unit of
`package_window`. -/
def connection_edge_package_raw_inbuf (o : package_outcome) (w : edge_world) : Int × edge_world :=
  let cells := o.data.map (fun payload =>
    (connection_edge_send_command w.conn w.circ relay_command.RELAY_COMMAND_DATA payload
      w.conn.cpath_layer o.send_ret).2)
  (o.ret, { w with conn := { w.conn with inbuf := o.inbuf,
                                          package_window := w.conn.package_window - o.data.length },
                   sent := w.sent ++ cells.flatten })

/-- The function `connection_edge_process_inbuf`.  Its argument
`package_partial` only goes on to `connection_edge_package_raw_inbuf`, whose
outcome is `po`. -/
def connection_edge_process_inbuf (env : edge_env) (so : socks_oracle) (po : package_outcome)
    (now : Int) (w : edge_world) : Int × edge_world :=
  match w.conn.state with
  | conn_state.AP_CONN_STATE_SOCKS_WAIT =>
    let r := connection_ap_handshake_process_socks env so now w
    if r.1 < 0 then
      (-1, { r.2 with conn :=
               { connection_mark_for_close { r.2.conn with has_sent_end := true } with
                   hold_open_until_flushed := true } })
    else (0, r.2)
  | conn_state.AP_CONN_STATE_OPEN | conn_state.EXIT_CONN_STATE_OPEN =>
    let r := connection_edge_package_raw_inbuf po w
    if r.1 < 0 then
      let e := connection_edge_end_w env END_STREAM_REASON_MISC r.2
      (-1, { e.2 with conn := connection_mark_for_close e.2.conn })
    else (0, r.2)
  | conn_state.EXIT_CONN_STATE_CONNECTING
  | conn_state.AP_CONN_STATE_RENDDESC_WAIT
  | conn_state.AP_CONN_STATE_CIRCUIT_WAIT
  | conn_state.AP_CONN_STATE_CONNECT_WAIT
  | conn_state.AP_CONN_STATE_RESOLVE_WAIT => (0, w)
  | conn_state.EXIT_CONN_STATE_RESOLVING | conn_state.EXIT_CONN_STATE_RESOLVEFAILED =>
    let e := connection_edge_end_w env END_STREAM_REASON_MISC w
    (-1, { e.2 with conn := connection_mark_for_close e.2.conn })

/-- The function `connection_edge_is_rendezvous_stream`. -/
def connection_edge_is_rendezvous_stream (conn : connection_t) : Bool :=
  decide (conn.rend_query ≠ [])

/-- The function `connection_edge_finished_connecting`; `send_ret` is the
verdict of the circuit layer on the CONNECTED cell. -/
def connection_edge_finished_connecting (env : edge_env) (send_ret : Int) (so : socks_oracle)
    (po : package_outcome) (now : Int) (w : edge_world) : Int × edge_world :=
  let conn := { w.conn with state := conn_state.EXIT_CONN_STATE_OPEN }
  let payload : List Nat :=
    if connection_edge_is_rendezvous_stream conn then []
    else uint32_bytes env.big_endian (htonl env.big_endian conn.addr)
  let s := connection_edge_send_command conn w.circ relay_command.RELAY_COMMAND_CONNECTED payload
    conn.cpath_layer send_ret
  let w1 := { w with conn := conn, sent := w.sent ++ s.2 }
  if s.1 < 0 then (0, w1)
  else connection_edge_process_inbuf env so po now w1

/-- The loop over `redirect_exit_list` in `connection_exit_connect`: the first
rule that matches decides, and ends the loop. -/
def exit_redirect_target (addr port : Nat) : List exit_redirect_t → Nat × Nat
  | [] => (addr, port)
  | r :: rest =>
    if (addr &&& r.mask) = (r.addr &&& r.mask) ∧ r.port_min ≤ port ∧ port ≤ r.port_max then
      if r.is_redirect then (r.addr_dest, r.port_dest) else (addr, port)
    else exit_redirect_target addr port rest

/-- The function `connection_exit_connect`.  `policy_rejected` says whether
`router_compare_to_my_exit_policy` answers `ADDR_POLICY_REJECTED`,
`connect_ret` is what `connection_connect` returns, `send_ret` the verdict of
the circuit layer on the CONNECTED cell. -/
def connection_exit_connect (env : edge_env) (policy_rejected : Bool) (connect_ret : Int)
    (send_ret : Int) (w : edge_world) : edge_world :=
  if ¬ connection_edge_is_rendezvous_stream w.conn ∧ policy_rejected then
    connection_free (circuit_detach_stream (connection_edge_end_w env END_STREAM_REASON_EXITPOLICY w).2)
  else
    let target : Nat × Nat :=
      match env.redirect_exit_list with
      | some l => exit_redirect_target w.conn.addr w.conn.port l
      | none => (w.conn.addr, w.conn.port)
    let w1 := { w with connects := w.connects ++ [(w.conn.address, target.1, target.2)] }
    if connect_ret = -1 then
      connection_free
        (circuit_detach_stream (connection_edge_end_w env END_STREAM_REASON_CONNECTREFUSED w1).2)
    else if connect_ret = 0 then
      { w1 with conn := { w1.conn with state := conn_state.EXIT_CONN_STATE_CONNECTING } }
    else
      let conn := { w1.conn with state := conn_state.EXIT_CONN_STATE_OPEN }
      let payload : List Nat :=
        if connection_edge_is_rendezvous_stream conn then []
        else uint32_bytes env.big_endian (htonl env.big_endian conn.addr)
      let s := connection_edge_send_command conn w1.circ relay_command.RELAY_COMMAND_CONNECTED
        payload conn.cpath_layer send_ret
      { w1 with conn := conn, sent := w1.sent ++ s.2 }

/-- The end of the loop body of `connection_ap_expire_beginning`, from
`tor_assert(circ->purpose == CIRCUIT_PURPOSE_C_GENERAL)` on: the timeout retry
of a stream that is on the circuit `circ`. -/
def connection_ap_expire_beginning_retry (env : edge_env) (attach : attach_outcome) (now : Int)
    (w : edge_world) (circ : circuit_t) : edge_world × Option circuit_t :=
  let e := connection_edge_end_w env END_STREAM_REASON_TIMEOUT w
  let conn1 := { e.2.conn with has_sent_end := false,
                               state := conn_state.AP_CONN_STATE_CIRCUIT_WAIT }
  let w1 := circuit_detach_stream { e.2 with conn := conn1 }
  let circ1 := { circ with timestamp_dirty := circ.timestamp_dirty - env.NewCircuitPeriod }
  let conn2 := { conn1 with timestamp_lastread := conn1.timestamp_lastread + 15 }
  let a := connection_ap_handshake_attach_circuit env attach now { w1 with conn := conn2 }
  if a.1 < 0 then
    ({ a.2 with conn := connection_mark_for_close { a.2.conn with has_sent_end := true } },
      some circ1)
  else (a.2, some circ1)

/-- One pass of the loop of `connection_ap_expire_beginning`, for the stream of
`w`; `attach` is what `connection_ap_handshake_attach_circuit` finds on the
retry.  The second component is the circuit that the stream was on, as the pass
leaves it. -/
def connection_ap_expire_beginning (env : edge_env) (attach : attach_outcome) (now : Int)
    (w : edge_world) : edge_world × Option circuit_t :=
  let conn := w.conn
  if conn.type ≠ conn_type.CONN_TYPE_AP then (w, w.circ)
  else if conn.state ≠ conn_state.AP_CONN_STATE_RESOLVE_WAIT ∧
      conn.state ≠ conn_state.AP_CONN_STATE_CONNECT_WAIT then (w, w.circ)
  else if now - conn.timestamp_lastread < 15 then (w, w.circ)
  else
    match w.circ with
    | none => ({ w with conn := connection_mark_for_close conn }, none)
    | some circ =>
      if circ.purpose = circuit_purpose.CIRCUIT_PURPOSE_C_REND_JOINED then
        if now - conn.timestamp_lastread > 45 then
          let e := connection_edge_end_w env END_STREAM_REASON_TIMEOUT w
          ({ e.2 with conn := connection_mark_for_close e.2.conn }, some circ)
        else (w, some circ)
      else connection_ap_expire_beginning_retry env attach now w circ

/-- One pass of the loop of `connection_ap_attach_pending`, for the stream of
`w`. -/
def connection_ap_attach_pending (env : edge_env) (attach : attach_outcome) (now : Int)
    (w : edge_world) : edge_world :=
  if w.conn.marked_for_close = true ∨ w.conn.type ≠ conn_type.CONN_TYPE_AP ∨
      w.conn.state ≠ conn_state.AP_CONN_STATE_CIRCUIT_WAIT then w
  else
    let a := connection_ap_handshake_attach_circuit env attach now w
    if a.1 < 0 then
      { a.2 with conn := connection_mark_for_close { a.2.conn with has_sent_end := true } }
    else a.2

/-! ## Histories of one stream -/

/-- What can happen to a stream: a call of one of the functions of the module
on it, with what the other modules report during the call, or an act of
another module on the stream or its circuit. -/
inductive edge_op where
  /-- `connection_edge_end(conn, reason, conn->cpath_layer)`, called by this
  module or by relay.c, dns.c. -/
  | edge_end (reason : Nat)
  | reached_eof
  | process_inbuf (so : socks_oracle) (po : package_outcome) (now : Int)
  | destroy (circ_id : Nat)
  | finished_connecting (send_ret : Int) (so : socks_oracle) (po : package_outcome) (now : Int)
  | exit_connect (policy_rejected : Bool) (connect_ret : Int) (send_ret : Int)
  | expire_beginning (attach : attach_outcome) (now : Int)
  | attach_pending (attach : attach_outcome) (now : Int)
  /-- `connection_ap_handshake_send_begin` on the circuit of the stream. -/
  | send_begin (send_ret : Int) (now : Int)
  /-- `connection_ap_handshake_send_resolve` on the circuit of the stream. -/
  | send_resolve (send_ret : Int)
  /-- Another module marks the stream for close, possibly setting
  `has_sent_end` as `connection_edge_send_command` does without a circuit. -/
  | other_marks_conn (sets_has_sent_end : Bool)
  /-- Another module marks the circuit of the stream for close. -/
  | other_marks_circ
  /-- Another module takes the stream off its circuit. -/
  | other_detaches
  /-- The stream reads from its socket. -/
  | other_reads (bytes : List Nat) (now : Int)

/-- The effect of one `edge_op`.  Nothing happens to a stream that has been
freed. -/
def edge_step (env : edge_env) (w : edge_world) (op : edge_op) : edge_world :=
  if w.freed then w
  else
    match op with
    | edge_op.edge_end reason => (connection_edge_end_w env reason w).2
    | edge_op.reached_eof => (connection_edge_reached_eof env w).2
    | edge_op.process_inbuf so po now => (connection_edge_process_inbuf env so po now w).2
    | edge_op.destroy circ_id =>
      { w with conn := (connection_edge_destroy circ_id w.conn).2 }
    | edge_op.finished_connecting send_ret so po now =>
      (connection_edge_finished_connecting env send_ret so po now w).2
    | edge_op.exit_connect policy_rejected connect_ret send_ret =>
      connection_exit_connect env policy_rejected connect_ret send_ret w
    | edge_op.expire_beginning attach now => (connection_ap_expire_beginning env attach now w).1
    | edge_op.attach_pending attach now => connection_ap_attach_pending env attach now w
    | edge_op.send_begin send_ret now =>
      match w.circ with
      | none => w
      | some circ =>
        let r := connection_ap_handshake_send_begin env.big_endian env.tor_inet_aton
          env.RELAY_PAYLOAD_SIZE env.STREAMWINDOW_START w.dns now w.conn circ send_ret
        { w with conn := r.2.1, circ := some r.2.2.1, dns := r.2.2.2.1,
                 sent := w.sent ++ r.2.2.2.2 }
    | edge_op.send_resolve send_ret =>
      match w.circ with
      | none => w
      | some circ =>
        let r := connection_ap_handshake_send_resolve w.conn circ send_ret
        { w with conn := r.2.1, circ := some r.2.2.1, sent := w.sent ++ r.2.2.2 }
    | edge_op.other_marks_conn sets =>
      let conn := { w.conn with has_sent_end := w.conn.has_sent_end || sets }
      { w with conn := connection_mark_for_close conn }
    | edge_op.other_marks_circ => { w with circ := w.circ.map circuit_mark_for_close }
    | edge_op.other_detaches => circuit_detach_stream w
    | edge_op.other_reads bytes now =>
      { w with conn := { w.conn with inbuf := w.conn.inbuf ++ bytes, timestamp_lastread := now } }

/-- The state after a history. -/
def edge_run (env : edge_env) (w : edge_world) : List edge_op → edge_world
  | [] => w
  | op :: ops => edge_run env (edge_step env w op) ops

/-- The number of END cells among the cells sent. -/
def count_end (cells : List relay_cell) : Nat :=
  (cells.filter (fun c => decide (c.relay_command = relay_command.RELAY_COMMAND_END))).length

/-- Whether `op`, applied in `w`, is a timeout retry: a pass of
`connection_ap_expire_beginning` that reaches the code after
`tor_assert(circ->purpose == CIRCUIT_PURPOSE_C_GENERAL)`, where `has_sent_end`
is cleared and the stream goes back to `AP_CONN_STATE_CIRCUIT_WAIT`. -/
def is_timeout_retry (w : edge_world) (op : edge_op) : Bool :=
  match op with
  | edge_op.expire_beginning _ now =>
    match w.circ with
    | none => false
    | some circ =>
      decide (w.freed = false ∧ w.conn.type = conn_type.CONN_TYPE_AP ∧
        (w.conn.state = conn_state.AP_CONN_STATE_RESOLVE_WAIT ∨
          w.conn.state = conn_state.AP_CONN_STATE_CONNECT_WAIT) ∧
        ¬ (now - w.conn.timestamp_lastread < 15) ∧
        circ.purpose ≠ circuit_purpose.CIRCUIT_PURPOSE_C_REND_JOINED)
  | _ => false

/-- The number of timeout retries in a history that starts in `w`. -/
def timeout_retries (env : edge_env) (w : edge_world) : List edge_op → Nat
  | [] => 0
  | op :: ops =>
    (if is_timeout_retry w op then 1 else 0) + timeout_retries env (edge_step env w op) ops

/-- The END cells sent so far, plus one while `has_sent_end` is clear: a bound
on the END cells that the stream can have sent by the time `has_sent_end` is
set. -/
def end_potential (w : edge_world) : Nat :=
  count_end w.sent + (if w.conn.has_sent_end then 0 else 1)

/-- A change of state that sends no END cell and does not clear
`has_sent_end`. -/
def quiet (w w' : edge_world) : Prop :=
  count_end w'.sent = count_end w.sent ∧
    (w.conn.has_sent_end = true → w'.conn.has_sent_end = true)

/-! ## A history with two timeout retries -/

/-- A little-endian build with the usual constants, `NewCircuitPeriod` of 30
seconds and no exit redirects. -/
def retry_env : edge_env :=
  { big_endian := false,
    tor_inet_aton := inet_aton_dotted false,
    MAX_DNS_ENTRY_AGE := 900,
    RELAY_PAYLOAD_SIZE := 498,
    STREAMWINDOW_START := 500,
    REND_SERVICE_ID_LEN := 16,
    rend_valid_service_id := fun _ => true,
    connection_state_is_open := fun conn =>
      decide (conn.marked_for_close = false ∧
        (conn.state = conn_state.AP_CONN_STATE_OPEN ∨
          conn.state = conn_state.EXIT_CONN_STATE_OPEN)),
    NewCircuitPeriod := 30,
    redirect_exit_list := none }

/-- An AP stream with stream id 5 that has been waiting for CONNECTED on the
general-purpose circuit 1 since second 100, and has sent nothing yet. -/
def retry_world : edge_world :=
  { conn :=
      { type := conn_type.CONN_TYPE_AP,
        state := conn_state.AP_CONN_STATE_CONNECT_WAIT,
        stream_id := 5,
        timestamp_lastread := 100,
        socks_request :=
          { socks_version := 5, command := SOCKS_COMMAND_CONNECT,
            address := "example.com".toList, port := 80 } },
    circ := some { n_circ_id := 1, timestamp_dirty := 90, next_stream_id := 6 } }

/-- The sweep of second 115 retries the stream and attaches it to circuit 2;
the sweep of second 130 retries it again and finds that no circuit will do. -/
def retry_history : List edge_op :=
  [edge_op.expire_beginning
      (attach_outcome.found { n_circ_id := 2, timestamp_dirty := 95, next_stream_id := 1 } 0) 115,
   edge_op.expire_beginning attach_outcome.never 130]

/-! ## The timeout retry, step by step -/

/-- The state in which a timeout retry calls
`connection_ap_handshake_attach_circuit`: `connection_edge_end` has been called
with reason TIMEOUT, `has_sent_end` is clear again, the stream is in
`AP_CONN_STATE_CIRCUIT_WAIT`, off its circuit, and has 15 more seconds. -/
def timeout_retry_world (env : edge_env) (w : edge_world) : edge_world :=
  { w with
      conn := { w.conn with has_sent_end := false,
                            state := conn_state.AP_CONN_STATE_CIRCUIT_WAIT,
                            timestamp_lastread := w.conn.timestamp_lastread + 15 },
      circ := none,
      sent := w.sent ++
        (connection_edge_end env.big_endian w.conn END_STREAM_REASON_TIMEOUT w.conn.cpath_layer
          w.circ).2.2 }

/-- The END cell of a stream on a circuit, with the payload `[reason]`. -/
def end_cell (conn : connection_t) (circ : circuit_t) (reason : Nat) : relay_cell :=
  { circ_id := circ.n_circ_id, stream_id := conn.stream_id,
    relay_command := relay_command.RELAY_COMMAND_END, payload := [reason],
    cpath_layer := conn.cpath_layer }

/-- The dotted-quad text of an IPv4 address given as a number: its four bytes
in decimal, most significant first. -/
def dotted_quad (a : Nat) : CStr :=
  ".".toList.intercalate
    ([a / 2 ^ 24 % 256, a / 2 ^ 16 % 256, a / 2 ^ 8 % 256, a % 256].map decimal)

/-- The test of one rule in the loop over `redirect_exit_list`:
`(addr&r->mask)==(r->addr&r->mask) && r->port_min <= port && port <= r->port_max`. -/
def exit_redirect_matches (addr port : Nat) (r : exit_redirect_t) : Prop :=
  (addr &&& r.mask) = (r.addr &&& r.mask) ∧ r.port_min ≤ port ∧ port ≤ r.port_max

/-! ## BEGIN cells at the exit -/

/-- A relay cell as `connection_exit_begin_conn` gets it: the fields `stream_id`
and `length` of the unpacked relay header, and the bytes from
`cell->payload + RELAY_HEADER_SIZE` on. -/
structure cell_t where
  stream_id : Nat
  length : Nat
  payload : List Nat
deriving DecidableEq, Repr

/-- The C string that starts at the first byte of a buffer: the bytes before
the first NUL. -/
def cstr_at (bytes : List Nat) : CStr :=
  (bytes.takeWhile (fun b => decide (b ≠ 0))).map Char.ofNat

/-- What the functions of other files report to `connection_exit_begin_conn`
and to the `connection_exit_connect` that it calls. -/
structure begin_oracle where
  /-- The function `parse_addr_port` (util.c) on a text: `none` for a negative
  return value, else the address and the port that it stores. -/
  parse_addr_port : CStr → Option (CStr × Nat)
  /-- The value that `rend_service_set_connection_addr_port` returns. -/
  rend_ret : Int
  /-- The `addr` that it gives the stream. -/
  rend_addr : Nat
  /-- The `port` that it gives the stream. -/
  rend_port : Nat
  /-- The pointer `circ->cpath->prev`. -/
  cpath_prev : Option Nat
  /-- The value that `we_are_hibernating` returns. -/
  we_are_hibernating : Bool
  /-- The value that `dns_resolve` returns. -/
  dns_ret : Int
  /-- The `addr` that `dns_resolve` gives the stream when it returns 1. -/
  dns_addr : Nat
  /-- The cells that `dns_resolve` sends itself when it returns -1. -/
  dns_sent : List relay_cell
  /-- Whether `router_compare_to_my_exit_policy` answers `ADDR_POLICY_REJECTED`. -/
  policy_rejected : Bool
  /-- The value that `connection_connect` returns. -/
  connect_ret : Int
  /-- The verdict of the circuit layer on the CONNECTED cell. -/
  send_ret : Int

/-- What one call of `connection_exit_begin_conn` leaves behind: the value
returned; the circuit; the stream made by `connection_new`, if any, as the call
leaves it, and whether it has been freed; and what has been handed to other
modules, oldest first: relay cells, streams given to `dns_resolve`, outbound
connects. -/
structure begin_result where
  ret : Int
  circ : circuit_t
  n_stream : Option connection_t := none
  freed : Bool := false
  sent : List relay_cell := []
  resolves : List connection_t := []
  connects : List (CStr × Nat × Nat) := []

/-- The end of `connection_exit_begin_conn` on the two paths that link the
stream into `circ->n_streams` and call `connection_exit_connect`: the stream is
on the circuit when `connection_exit_connect` runs, and off it again if that
call detached it. -/
def connection_exit_begin_conn_connect (env : edge_env) (o : begin_oracle)
    (n_stream : connection_t) (circ : circuit_t) : begin_result :=
  let linked : circuit_t := { circ with n_streams := n_stream :: circ.n_streams }
  let w := connection_exit_connect env o.policy_rejected o.connect_ret o.send_ret
    { conn := n_stream, circ := some linked }
  { ret := 0,
    circ := (match w.circ with
      | some _ => { circ with n_streams := w.conn :: circ.n_streams }
      | none => circ),
    n_stream := some w.conn,
    freed := w.freed,
    sent := w.sent,
    connects := w.connects }

/-- The function `connection_exit_begin_conn`.  The stream made by
`connection_new(CONN_TYPE_EXIT)` is on no circuit until it is linked into
`circ->n_streams` or `circ->resolving_streams`, so before that
`circuit_get_by_conn` finds no circuit for it.  The field `purpose` of the
stream is read by dns.c only and is left out. -/
def connection_exit_begin_conn (env : edge_env) (o : begin_oracle) (cell : cell_t)
    (circ : circuit_t) : begin_result :=
  if ¬ (0 ∈ cell.payload.take cell.length) then { ret := 0, circ := circ }
  else
    match o.parse_addr_port (cstr_at cell.payload) with
    | none => { ret := 0, circ := circ }
    | some (address, port) =>
      if port = 0 then { ret := 0, circ := circ }
      else
        let n_stream : connection_t :=
          { type := conn_type.CONN_TYPE_EXIT,
            stream_id := cell.stream_id,
            port := port,
            package_window := env.STREAMWINDOW_START,
            deliver_window := env.STREAMWINDOW_START }
        if circ.purpose = circuit_purpose.CIRCUIT_PURPOSE_S_REND_JOINED then
          let n_stream := { n_stream with address := "(rendezvous)".toList,
                                          state := conn_state.EXIT_CONN_STATE_CONNECTING,
                                          rend_query := circ.rend_query }
          if o.rend_ret < 0 then
            let e := connection_edge_end env.big_endian n_stream END_STREAM_REASON_EXITPOLICY
              n_stream.cpath_layer none
            { ret := 0, circ := circuit_mark_for_close circ, n_stream := some e.2.1,
              freed := true, sent := e.2.2 }
          else
            let n_stream := { n_stream with addr := o.rend_addr, port := o.rend_port,
                                            cpath_layer := o.cpath_prev }
            connection_exit_begin_conn_connect env o n_stream circ
        else
          let n_stream := { n_stream with address := address,
                                          state := conn_state.EXIT_CONN_STATE_RESOLVEFAILED }
          if o.we_are_hibernating then
            let e := connection_edge_end env.big_endian n_stream END_STREAM_REASON_EXITPOLICY
              n_stream.cpath_layer none
            { ret := 0, circ := circ, n_stream := some e.2.1, freed := true, sent := e.2.2 }
          else if o.dns_ret = 1 then
            let resolved := { n_stream with addr := o.dns_addr }
            { connection_exit_begin_conn_connect env o resolved circ with
                resolves := [n_stream] }
          else if o.dns_ret = -1 then
            { ret := 0, circ := circ, n_stream := some n_stream, freed := true,
              sent := o.dns_sent, resolves := [n_stream] }
          else if o.dns_ret = 0 then
            { ret := 0,
              circ := { circ with resolving_streams := n_stream :: circ.resolving_streams },
              n_stream := some n_stream, resolves := [n_stream] }
          else { ret := 0, circ := circ, n_stream := some n_stream, resolves := [n_stream] }

/-! ## An exit stream and a redirect table -/

/-- A redirect table of three rules: ports 1 to 22 of every address go to
0.0.0.1:1; port 80 of 1.2.3.0/24 goes to 10.0.0.2:8080; every port of every
address goes to 0.0.0.2:2. -/
def exit_redirects : List exit_redirect_t :=
  [{ mask := 0, addr := 0, port_min := 1, port_max := 22, addr_dest := 1, port_dest := 1,
     is_redirect := true },
   { mask := 4294967040, addr := 16909056, port_min := 80, port_max := 80,
     addr_dest := 167772162, port_dest := 8080, is_redirect := true },
   { mask := 0, addr := 0, port_min := 1, port_max := 65535, addr_dest := 2, port_dest := 2,
     is_redirect := true }]

/-- An exit stream with stream id 9 for 1.2.3.4:80, resolved, on circuit 7. -/
def exit_world : edge_world :=
  { conn :=
      { type := conn_type.CONN_TYPE_EXIT,
        state := conn_state.EXIT_CONN_STATE_CONNECTING,
        stream_id := 9,
        addr := 16909060,
        port := 80,
        address := "example.com".toList },
    circ := some { n_circ_id := 7, purpose := circuit_purpose.CIRCUIT_PURPOSE_OTHER } }

/-! ## Client DNS cache: failures, cleaning, histories -/

/-- The function `client_dns_incr_failures`: the returned count and the cache
after the call.  The entry is a heap record that the map points to, so the
increment through `ent` is written back under the same key.  `n_failures` is an
`int`; a count that would pass `INT_MAX` is outside the model. -/
def client_dns_incr_failures (MAX_DNS_ENTRY_AGE : Int) (st : client_dns) (address : CStr)
    (now : Int) : Int × client_dns :=
  let (ent, st1) := _get_or_create_ent MAX_DNS_ENTRY_AGE st address now
  let ent1 : client_dns_entry := { ent with n_failures := ent.n_failures + 1 }
  (ent1.n_failures, { st1 with client_dns_map := strmap_set_lc st1.client_dns_map address ent1 })

/-- Modelled from the spec: `strmap_foreach` (container.c) is not part of
connection_edge.c.  It calls `fn` on every pair of the map in turn; a pair for
which `fn` returns NULL (`none`) is removed, any other pair gets the returned
value ("remove all entries with `expires < now`").  The state `σ` stands for
what `fn` reads and writes besides the pair. -/
def strmap_foreach {α σ : Type} (fn : CStr → α → σ → Option α × σ) :
    strmap_t α → σ → strmap_t α × σ
  | [], s => ([], s)
  | (k, v) :: rest, s =>
    match fn k v s with
    | (none, s1) => strmap_foreach fn rest s1
    | (some v1, s1) =>
      let r := strmap_foreach fn rest s1
      ((k, v1) :: r.1, r.2)

/-- The function `_remove_if_expired`: what it returns (`none` is NULL) and the
global `client_dns_size` after the call. -/
def _remove_if_expired (_addr : CStr) (ent : client_dns_entry) (now : Int)
    (client_dns_size : Int) : Option client_dns_entry × Int :=
  if ent.expires < now then (none, client_dns_size - 1)
  else (some ent, client_dns_size)

/-- The function `client_dns_clean`. -/
def client_dns_clean (st : client_dns) (now : Int) : client_dns :=
  if st.client_dns_size = 0 then st
  else
    let r := strmap_foreach (fun addr ent size => _remove_if_expired addr ent now size)
      st.client_dns_map st.client_dns_size
    { client_dns_size := r.2, client_dns_map := r.1 }

/-- One call of a function of the client DNS code, at the time `now`. -/
inductive client_dns_op where
  | lookup_entry (address : CStr) (now : Int)
  | set_entry (address : CStr) (val : Nat) (now : Int)
  | incr_failures (address : CStr) (now : Int)
  | clean (now : Int)

/-- The cache after one call. -/
def client_dns_step (big_endian : Bool) (tor_inet_aton : CStr → Option Nat)
    (MAX_DNS_ENTRY_AGE : Int) (st : client_dns) : client_dns_op → client_dns
  | client_dns_op.lookup_entry address now =>
    (client_dns_lookup_entry big_endian tor_inet_aton st address now).2
  | client_dns_op.set_entry address val now =>
    client_dns_set_entry tor_inet_aton MAX_DNS_ENTRY_AGE st address val now
  | client_dns_op.incr_failures address now =>
    (client_dns_incr_failures MAX_DNS_ENTRY_AGE st address now).2
  | client_dns_op.clean now => client_dns_clean st now

/-- The cache after `client_dns_init` and a sequence of calls, first call
first. -/
def client_dns_run (big_endian : Bool) (tor_inet_aton : CStr → Option Nat)
    (MAX_DNS_ENTRY_AGE : Int) (ops : List client_dns_op) : client_dns :=
  ops.foldl (client_dns_step big_endian tor_inet_aton MAX_DNS_ENTRY_AGE) client_dns_init

/-- The invariant of the client DNS cache: `client_dns_size` counts the pairs of
`client_dns_map`, and no key occurs twice. -/
def client_dns_wf (st : client_dns) : Prop :=
  st.client_dns_size = st.client_dns_map.length ∧ (st.client_dns_map.map Prod.fst).Nodup

/-! ## Flushing -/

/-- What one call of `connection_edge_finished_flushing` leaves behind: the
value returned, the stream, and whether `connection_stop_writing`
(connection.c) and `connection_edge_consider_sending_sendme` (relay.c) were
called on it.  What those two do to the stream is outside the module and is not
modelled. -/
structure flushing_result where
  ret : Int
  conn : connection_t
  stop_writing : Bool := false
  consider_sending_sendme : Bool := false

/-- The function `connection_edge_finished_flushing`.  The last four states are
the ones that fall to `default:`. -/
def connection_edge_finished_flushing (conn : connection_t) : flushing_result :=
  match conn.state with
  | conn_state.AP_CONN_STATE_OPEN | conn_state.EXIT_CONN_STATE_OPEN =>
    { ret := 0, conn := conn, stop_writing := true, consider_sending_sendme := true }
  | conn_state.AP_CONN_STATE_SOCKS_WAIT
  | conn_state.AP_CONN_STATE_RENDDESC_WAIT
  | conn_state.AP_CONN_STATE_CIRCUIT_WAIT
  | conn_state.AP_CONN_STATE_CONNECT_WAIT =>
    { ret := 0, conn := conn, stop_writing := true }
  | conn_state.AP_CONN_STATE_RESOLVE_WAIT
  | conn_state.EXIT_CONN_STATE_RESOLVING
  | conn_state.EXIT_CONN_STATE_CONNECTING
  | conn_state.EXIT_CONN_STATE_RESOLVEFAILED =>
    { ret := -1, conn := conn }

/-! # Lemmas and theorems -/

/-! ## Letter case and the dotted-quad reader -/

theorem tolower_of_not_upper (c : Char) (h : ¬ (65 ≤ c.toNat ∧ c.toNat ≤ 90)) : tolower c = c := by
  unfold tolower; rw [if_neg h]

theorem quad_char_not_upper (c : Char) (h : quad_char c) : ¬ (65 ≤ c.toNat ∧ c.toNat ≤ 90) := by
  rcases h with h | h
  · simp only [isdigit, decide_eq_true_eq] at h; omega
  · subst h; decide

theorem tolower_upper_not_quad_char (c : Char) (h : 65 ≤ c.toNat ∧ c.toNat ≤ 90) :
    ¬ quad_char (tolower c) := by
  have hc : c = Char.ofNat c.toNat := (Char.ofNat_toNat c).symm
  obtain ⟨h1, h2⟩ := h
  generalize c.toNat = n at hc h1 h2
  subst hc
  unfold quad_char
  interval_cases n <;> decide

theorem tolower_eq_quad_char (c d : Char) (hd : quad_char d) (h : tolower c = tolower d) : c = d := by
  have hd' : tolower d = d := tolower_of_not_upper d (quad_char_not_upper d hd)
  rw [hd'] at h
  by_cases hu : 65 ≤ c.toNat ∧ c.toNat ≤ 90
  · exact absurd (h ▸ hd) (tolower_upper_not_quad_char c hu)
  · rw [tolower_of_not_upper c hu] at h; exact h

theorem strlower_eq_quad (x y : CStr) (hy : ∀ c ∈ y, quad_char c)
    (h : tor_strlower x = tor_strlower y) : x = y := by
  induction x generalizing y with
  | nil => cases y with
    | nil => rfl
    | cons b y => simp [tor_strlower] at h
  | cons a x ih => cases y with
    | nil => simp [tor_strlower] at h
    | cons b y =>
      simp only [tor_strlower, List.map_cons, List.cons.injEq] at h
      have hab := tolower_eq_quad_char a b (hy b (List.mem_cons_self _ _)) h.1
      have := ih y (fun c hc => hy c (List.mem_cons_of_mem _ hc)) h.2
      rw [hab, this]

theorem parse_octet_digits (p : CStr) (n : Nat) (h : parse_octet p = some n) :
    ∀ c ∈ p, isdigit c = true := by
  unfold parse_octet at h
  split at h
  · cases h
  · rename_i hh
    push_neg at hh
    intro c hc
    exact List.all_eq_true.mp hh.2.2 c hc

theorem mem_split_dots (s : CStr) (c : Char) (hc : c ∈ s) :
    c = '.' ∨ ∃ p ∈ split_dots s, c ∈ p := by
  induction s with
  | nil => cases hc
  | cons a s ih =>
    unfold split_dots
    by_cases ha : a = '.'
    · rw [if_pos ha]
      rcases List.mem_cons.mp hc with h | h
      · left; rw [h, ha]
      · rcases ih h with h' | ⟨p, hp, hcp⟩
        · left; exact h'
        · right; exact ⟨p, List.mem_cons_of_mem _ hp, hcp⟩
    · rw [if_neg ha]
      rcases List.mem_cons.mp hc with h | h
      · right
        cases hsp : split_dots s with
        | nil => exact ⟨[a], by simp, by simp [h]⟩
        | cons p ps => exact ⟨a :: p, by simp, by simp [h]⟩
      · rcases ih h with h' | ⟨p, hp, hcp⟩
        · left; exact h'
        · right
          cases hsp : split_dots s with
          | nil => rw [hsp] at hp; cases hp
          | cons q qs =>
            rw [hsp] at hp
            rcases List.mem_cons.mp hp with hq | hq
            · exact ⟨a :: q, by simp, by simp [← hq, hcp]⟩
            · exact ⟨p, by simp [hq], hcp⟩

theorem inet_aton_dotted_quad_chars (be : Bool) (s : CStr) (r : Nat)
    (h : inet_aton_dotted be s = some r) : ∀ c ∈ s, quad_char c := by
  intro c hc
  rcases mem_split_dots s c hc with h' | ⟨p, hp, hcp⟩
  · right; exact h'
  · left
    have hall : ∀ o ∈ (split_dots s).map parse_octet, ∃ n, o = some n := by
      unfold inet_aton_dotted at h
      split at h
      · rename_i a b c d heq
        rw [heq]; intro o ho; simp at ho
        rcases ho with rfl | rfl | rfl | rfl <;> exact ⟨_, rfl⟩
      · cases h
    obtain ⟨n, hn⟩ := hall (parse_octet p) (List.mem_map_of_mem _ hp)
    exact parse_octet_digits p n hn c hcp

/-- Whether the dotted-quad reader accepts a string does not depend on letter
case: an accepted string has no letters at all. -/
theorem inet_aton_dotted_case (be : Bool) (x y : CStr)
    (h : tor_strlower x = tor_strlower y) (hx : inet_aton_dotted be x = none) :
    inet_aton_dotted be y = none := by
  cases hy : inet_aton_dotted be y with
  | none => rfl
  | some r =>
    have := strlower_eq_quad x y (inet_aton_dotted_quad_chars be y r hy) h
    rw [this, hy] at hx; cases hx


/-! ## The string map -/

theorem strmap_get_set_same {α : Type} (m : strmap_t α) (k : CStr) (v : α) :
    strmap_get (strmap_set m k v) k = some v := by
  induction m with
  | nil => simp [strmap_set, strmap_get]
  | cons p rest ih =>
    obtain ⟨k0, v0⟩ := p
    unfold strmap_set
    by_cases h : k0 = k
    · simp [h, strmap_get]
    · simp [h, strmap_get, ih]

theorem strmap_get_set_other {α : Type} (m : strmap_t α) (k k' : CStr) (v : α) (hk : k' ≠ k) :
    strmap_get (strmap_set m k v) k' = strmap_get m k' := by
  induction m with
  | nil => simp [strmap_set, strmap_get, Ne.symm hk]
  | cons p rest ih =>
    obtain ⟨k0, v0⟩ := p
    unfold strmap_set
    by_cases h : k0 = k
    · subst h; simp [strmap_get, Ne.symm hk]
    · by_cases h' : k0 = k'
      · subst h'; simp [h, strmap_get]
      · simp [h, h', strmap_get, ih]

theorem strmap_get_remove_same {α : Type} (m : strmap_t α) (k : CStr) :
    strmap_get (strmap_remove m k) k = none := by
  induction m with
  | nil => simp [strmap_remove, strmap_get]
  | cons p rest ih =>
    obtain ⟨k0, v0⟩ := p
    unfold strmap_remove
    by_cases h : k0 = k
    · simp [h, ih]
    · simp [h, strmap_get, ih]

theorem strmap_get_remove_other {α : Type} (m : strmap_t α) (k k' : CStr) (hk : k' ≠ k) :
    strmap_get (strmap_remove m k) k' = strmap_get m k' := by
  induction m with
  | nil => simp [strmap_remove, strmap_get]
  | cons p rest ih =>
    obtain ⟨k0, v0⟩ := p
    unfold strmap_remove
    by_cases h : k0 = k
    · subst h; simp [strmap_get, Ne.symm hk, ih]
    · by_cases h' : k0 = k'
      · subst h'; simp [h, strmap_get]
      · simp [h, h', strmap_get, ih]

/-! ## Client DNS cache -/

/-- After `client_dns_set_entry` on an address that is not a literal, the map
holds under the lower-cased address the entry `(val, now + MAX_DNS_ENTRY_AGE, 0)`. -/
theorem client_dns_set_entry_get (aton : CStr → Option Nat) (maxAge : Int) (st : client_dns)
    (a : CStr) (v : Nat) (t : Int) (ha : aton a = none) :
    strmap_get_lc (client_dns_set_entry aton maxAge st a v t).client_dns_map a
      = some { addr := v, expires := t + maxAge, n_failures := 0 } := by
  unfold client_dns_set_entry _get_or_create_ent
  rw [ha]
  cases hg : strmap_get_lc st.client_dns_map a with
  | none => simp [strmap_get_lc, strmap_set_lc, strmap_get_set_same]
  | some ent => simp [strmap_get_lc, strmap_set_lc, strmap_get_set_same]

/-- C1. Round trip of the client DNS cache: after `client_dns_set_entry(a, v)`
at time `t`, for an address `a` that is not a literal IPv4 and a non-zero `v`,
`client_dns_lookup_entry(a')` at any time `t'` with
`t ≤ t' ≤ t + MAX_DNS_ENTRY_AGE` returns `v` (and leaves the cache as it is),
for every `a'` equal to `a` up to ASCII letter case.  The reader of literals
`tor_inet_aton` is any function whose verdict does not depend on letter case. -/
theorem C1_client_dns_round_trip (big_endian : Bool) (tor_inet_aton : CStr → Option Nat)
    (MAX_DNS_ENTRY_AGE : Int) (st : client_dns) (a a' : CStr) (v : Nat) (t t' : Int)
    (haton : ∀ x y : CStr, tor_strlower x = tor_strlower y →
      tor_inet_aton x = none → tor_inet_aton y = none)
    (ha : tor_inet_aton a = none) (hv : v ≠ 0)
    (hcase : tor_strlower a' = tor_strlower a)
    (_ht : t ≤ t') (ht' : t' ≤ t + MAX_DNS_ENTRY_AGE) :
    client_dns_lookup_entry big_endian tor_inet_aton
        (client_dns_set_entry tor_inet_aton MAX_DNS_ENTRY_AGE st a v t) a' t'
      = (v, client_dns_set_entry tor_inet_aton MAX_DNS_ENTRY_AGE st a v t) := by
  have ha' : tor_inet_aton a' = none := haton a a' hcase.symm ha
  have hget := client_dns_set_entry_get tor_inet_aton MAX_DNS_ENTRY_AGE st a v t ha
  unfold client_dns_lookup_entry
  rw [ha']
  have hget' : strmap_get_lc (client_dns_set_entry tor_inet_aton MAX_DNS_ENTRY_AGE st a v t).client_dns_map a'
      = some { addr := v, expires := t + MAX_DNS_ENTRY_AGE, n_failures := 0 } := by
    unfold strmap_get_lc at hget ⊢
    rw [hcase]; exact hget
  simp only [hget']
  rw [if_neg hv, if_neg (not_lt.mpr ht')]

/-- C1, a concrete run: "Example.COM" is set to 1.2.3.4 at second 1000 with a
maximum age of 900 seconds and looked up as "example.com" at second 1900. -/
theorem C1_client_dns_round_trip_witness :
    client_dns_lookup_entry false (inet_aton_dotted false)
        (client_dns_set_entry (inet_aton_dotted false) 900 client_dns_init
          "Example.COM".toList 16909060 1000) "example.com".toList 1900
      = (16909060, client_dns_set_entry (inet_aton_dotted false) 900 client_dns_init
          "Example.COM".toList 16909060 1000) :=
  C1_client_dns_round_trip false (inet_aton_dotted false) 900 client_dns_init
    "Example.COM".toList "example.com".toList 16909060 1000 1900
    (inet_aton_dotted_case false) (by decide) (by decide) (by decide) (by decide) (by decide)


/-- C2. The client DNS cache never returns an expired entry.  For an address
that is not a literal IPv4: (1) a non-zero result `v` of
`client_dns_lookup_entry` is the `addr` of the entry that the map holds for the
address, and that entry has `expires ≥ now`; (2) when the entry has
`addr ≠ 0` and `expires < now`, the lookup returns 0, the map no longer holds
an entry for the address (every other key keeps its value) and
`client_dns_size` is one less. -/
theorem C2_client_dns_never_expired (big_endian : Bool) (tor_inet_aton : CStr → Option Nat)
    (st : client_dns) (address : CStr) (now : Int) (haton : tor_inet_aton address = none) :
    (∀ v : Nat, v ≠ 0 →
        (client_dns_lookup_entry big_endian tor_inet_aton st address now).1 = v →
        ∃ ent, strmap_get_lc st.client_dns_map address = some ent ∧ ent.addr = v ∧
          now ≤ ent.expires) ∧
    (∀ ent, strmap_get_lc st.client_dns_map address = some ent → ent.addr ≠ 0 →
        ent.expires < now →
        (client_dns_lookup_entry big_endian tor_inet_aton st address now).1 = 0 ∧
        strmap_get_lc (client_dns_lookup_entry big_endian tor_inet_aton st address now).2.client_dns_map
          address = none ∧
        (∀ k : CStr, k ≠ tor_strlower address →
          strmap_get (client_dns_lookup_entry big_endian tor_inet_aton st address now).2.client_dns_map k
            = strmap_get st.client_dns_map k) ∧
        (client_dns_lookup_entry big_endian tor_inet_aton st address now).2.client_dns_size
          = st.client_dns_size - 1) := by
  constructor
  · intro v hv hres
    unfold client_dns_lookup_entry at hres
    rw [haton] at hres
    cases hg : strmap_get_lc st.client_dns_map address with
    | none => rw [hg] at hres; exact absurd hres.symm hv
    | some ent =>
      rw [hg] at hres
      simp only at hres
      by_cases h0 : ent.addr = 0
      · rw [if_pos h0] at hres; exact absurd hres.symm hv
      · rw [if_neg h0] at hres
        by_cases hexp : ent.expires < now
        · rw [if_pos hexp] at hres; exact absurd hres.symm hv
        · rw [if_neg hexp] at hres
          exact ⟨ent, rfl, hres, not_lt.mp hexp⟩
  · intro ent hg h0 hexp
    unfold client_dns_lookup_entry
    rw [haton]
    simp only [hg]
    rw [if_neg h0, if_pos hexp]
    refine ⟨rfl, ?_, ?_, rfl⟩
    · exact strmap_get_remove_same _ _
    · intro k hk
      exact strmap_get_remove_other _ _ _ hk

/-- C2, a concrete run: the entry of "example.com" expired at second 1900 and
is looked up at second 1901; the lookup returns 0 and the cache is empty. -/
theorem C2_client_dns_never_expired_witness :
    (client_dns_lookup_entry false (inet_aton_dotted false)
        { client_dns_size := 1,
          client_dns_map := [("example.com".toList,
            { addr := 16909060, expires := 1900, n_failures := 0 })] }
        "Example.com".toList 1901).1 = 0 ∧
    (client_dns_lookup_entry false (inet_aton_dotted false)
        { client_dns_size := 1,
          client_dns_map := [("example.com".toList,
            { addr := 16909060, expires := 1900, n_failures := 0 })] }
        "Example.com".toList 1901).2.client_dns_size = 1 - 1 :=
  have h := (C2_client_dns_never_expired false (inet_aton_dotted false)
    { client_dns_size := 1,
      client_dns_map := [("example.com".toList,
        { addr := 16909060, expires := 1900, n_failures := 0 })] }
    "Example.com".toList 1901 (by decide)).2
    { addr := 16909060, expires := 1900, n_failures := 0 } (by decide) (by decide) (by decide)
  ⟨h.1, h.2.2.2⟩

/-- C3. Literal IPv4 bypass: when `tor_inet_aton` accepts the address and
stores `s_addr` (network order), `client_dns_lookup_entry` returns
`ntohl(s_addr)`, the literal in host byte order, whatever the cache holds, and
the map and `client_dns_size` are what they were. -/
theorem C3_literal_bypass (big_endian : Bool) (tor_inet_aton : CStr → Option Nat)
    (st : client_dns) (address : CStr) (now : Int) (s_addr : Nat)
    (haton : tor_inet_aton address = some s_addr) :
    client_dns_lookup_entry big_endian tor_inet_aton st address now
      = (ntohl big_endian s_addr, st) := by
  unfold client_dns_lookup_entry
  rw [haton]

/-- C3, a concrete run on a little-endian host: the cache holds an expired
entry under the very string "10.0.0.1"; the lookup of "10.0.0.1" returns
0x0A000001 and the cache is untouched. -/
theorem C3_literal_bypass_witness :
    inet_aton_dotted false "10.0.0.1".toList = some 16777226 ∧
    ntohl false 16777226 = 167772161 ∧
    client_dns_lookup_entry false (inet_aton_dotted false)
        { client_dns_size := 1,
          client_dns_map := [("10.0.0.1".toList, { addr := 5, expires := 0, n_failures := 1 })] }
        "10.0.0.1".toList 1000
      = (ntohl false 16777226,
        { client_dns_size := 1,
          client_dns_map := [("10.0.0.1".toList, { addr := 5, expires := 0, n_failures := 1 })] }) :=
  ⟨by decide, by decide,
    C3_literal_bypass false (inet_aton_dotted false) _ "10.0.0.1".toList 1000 16777226 (by decide)⟩


/-! ## Hostname classifier -/

theorem strrchr_split_none (c : Char) (s : CStr) : strrchr_split c s = none ↔ c ∉ s := by
  induction s with
  | nil => simp [strrchr_split]
  | cons x xs ih =>
    unfold strrchr_split
    cases h : strrchr_split c xs with
    | some p =>
      have : ¬ (c ∉ xs) := fun hn => by rw [ih.mpr hn] at h; cases h
      simp only [reduceCtorEq, false_iff, not_not]
      exact List.mem_cons_of_mem _ (not_not.mp this)
    | none =>
      have hn := ih.mp h
      by_cases hx : x = c
      · simp [hx]
      · simp [hx, hn, Ne.symm hx]

theorem strrchr_split_append (c : Char) (pre suf : CStr) (hsuf : c ∉ suf) :
    strrchr_split c (pre ++ c :: suf) = some (pre, suf) := by
  induction pre with
  | nil =>
    simp only [List.nil_append]
    unfold strrchr_split
    rw [(strrchr_split_none c suf).mpr hsuf]
    simp
  | cons x pre ih =>
    simp only [List.cons_append]
    unfold strrchr_split
    rw [ih]

theorem strrchr_split_some (c : Char) (s pre suf : CStr) (h : strrchr_split c s = some (pre, suf)) :
    s = pre ++ c :: suf ∧ c ∉ suf := by
  induction s generalizing pre with
  | nil => simp [strrchr_split] at h
  | cons x xs ih =>
    unfold strrchr_split at h
    cases hr : strrchr_split c xs with
    | some p =>
      obtain ⟨p1, p2⟩ := p
      rw [hr] at h
      simp only [Option.some.injEq, Prod.mk.injEq] at h
      obtain ⟨h1, h2⟩ := h
      subst h1; subst h2
      obtain ⟨e, hn⟩ := ih p1 hr
      exact ⟨by rw [e]; simp, hn⟩
    | none =>
      rw [hr] at h
      by_cases hx : x = c
      · simp only [hx, if_true, Option.some.injEq, Prod.mk.injEq] at h
        obtain ⟨h1, h2⟩ := h
        subst h1; subst h2
        exact ⟨by simp [hx], (strrchr_split_none c xs).mp hr⟩
      · simp [hx] at h


/-- Classifying `pre ++ "." ++ suf`, where `suf` has no dot and reads "exit" up
to letter case, gives `EXIT_HOSTNAME` and leaves `pre`. -/
theorem exit_suffix_classified (REND_SERVICE_ID_LEN : Nat) (rend_valid_service_id : CStr → Bool)
    (pre suf : CStr) (hsuf : '.' ∉ suf) (hexit : tor_strlower suf = "exit".toList) :
    parse_extended_hostname REND_SERVICE_ID_LEN rend_valid_service_id (pre ++ '.' :: suf)
      = (hostname_type_t.EXIT_HOSTNAME, pre) := by
  unfold parse_extended_hostname
  rw [strrchr_split_append '.' pre suf hsuf]
  have : strcasecmp_eq suf "exit".toList = true := by
    unfold strcasecmp_eq
    have h : suf.map tolower = "exit".toList := hexit
    rw [h]; decide
  simp only [this, if_true]

/-- C9. Hostname classifier, ".exit": if the text after the last '.' of the
address equals "exit" up to letter case, `parse_extended_hostname` returns
`EXIT_HOSTNAME` and the address becomes exactly the text before that last '.',
unchanged; and whenever it returns `EXIT_HOSTNAME` the address had that form. -/
theorem C9_exit_hostname (REND_SERVICE_ID_LEN : Nat) (rend_valid_service_id : CStr → Bool)
    (address : CStr) :
    (∀ pre suf : CStr, address = pre ++ '.' :: suf → '.' ∉ suf →
        tor_strlower suf = "exit".toList →
        parse_extended_hostname REND_SERVICE_ID_LEN rend_valid_service_id address
          = (hostname_type_t.EXIT_HOSTNAME, pre)) ∧
    ((parse_extended_hostname REND_SERVICE_ID_LEN rend_valid_service_id address).1
        = hostname_type_t.EXIT_HOSTNAME →
      ∃ pre suf : CStr, address = pre ++ '.' :: suf ∧ '.' ∉ suf ∧
        tor_strlower suf = "exit".toList) := by
  constructor
  · intro pre suf haddr hsuf hexit
    subst haddr
    exact exit_suffix_classified REND_SERVICE_ID_LEN rend_valid_service_id pre suf hsuf hexit
  · intro h
    unfold parse_extended_hostname at h
    cases hs : strrchr_split '.' address with
    | none => rw [hs] at h; cases h
    | some p =>
      obtain ⟨pre, suf⟩ := p
      rw [hs] at h
      simp only at h
      obtain ⟨haddr, hsuf⟩ := strrchr_split_some '.' address pre suf hs
      by_cases he : strcasecmp_eq suf "exit".toList = true
      · refine ⟨pre, suf, haddr, hsuf, ?_⟩
        unfold strcasecmp_eq at he
        have h' := of_decide_eq_true he
        unfold tor_strlower
        rw [h']; decide
      · rw [if_neg he] at h
        split at h
        · cases h
        · split at h
          · cases h
          · split at h <;> cases h

/-- C9, a concrete run: "www.example.com.myexit.EXIT" is classified
`EXIT_HOSTNAME` and becomes "www.example.com.myexit", letter case kept. -/
theorem C9_exit_hostname_witness :
    parse_extended_hostname 16 (fun _ => true) "Www.Example.com.myexit.EXIT".toList
      = (hostname_type_t.EXIT_HOSTNAME, "Www.Example.com.myexit".toList) :=
  (C9_exit_hostname 16 (fun _ => true) "Www.Example.com.myexit.EXIT".toList).1
    "Www.Example.com.myexit".toList "EXIT".toList (by decide) (by decide) (by decide)

/-- C10. Re-application law of the classifier: for every `h`,
`parse_extended_hostname(h ++ ".exit")` returns `EXIT_HOSTNAME` and leaves `h`;
and when the text after the last '.' of `h` (if `h` has a dot) is neither
"exit" nor "onion" up to letter case, classifying `h` again returns
`NORMAL_HOSTNAME` and leaves `h` unchanged. -/
theorem C10_reapplication (REND_SERVICE_ID_LEN : Nat) (rend_valid_service_id : CStr → Bool)
    (h : CStr)
    (hseg : ∀ pre suf : CStr, h = pre ++ '.' :: suf → '.' ∉ suf →
      tor_strlower suf ≠ "exit".toList ∧ tor_strlower suf ≠ "onion".toList) :
    parse_extended_hostname REND_SERVICE_ID_LEN rend_valid_service_id (h ++ ".exit".toList)
      = (hostname_type_t.EXIT_HOSTNAME, h) ∧
    parse_extended_hostname REND_SERVICE_ID_LEN rend_valid_service_id
        (parse_extended_hostname REND_SERVICE_ID_LEN rend_valid_service_id
          (h ++ ".exit".toList)).2
      = (hostname_type_t.NORMAL_HOSTNAME, h) := by
  have h1 : parse_extended_hostname REND_SERVICE_ID_LEN rend_valid_service_id (h ++ ".exit".toList)
      = (hostname_type_t.EXIT_HOSTNAME, h) :=
    (exit_suffix_classified REND_SERVICE_ID_LEN rend_valid_service_id h "exit".toList
      (by decide) (by decide))
  refine ⟨h1, ?_⟩
  rw [h1]
  simp only
  unfold parse_extended_hostname
  cases hs : strrchr_split '.' h with
  | none => rfl
  | some p =>
    obtain ⟨pre, suf⟩ := p
    obtain ⟨haddr, hsuf⟩ := strrchr_split_some '.' h pre suf hs
    obtain ⟨hne, hno⟩ := hseg pre suf haddr hsuf
    have he : ¬ (strcasecmp_eq suf "exit".toList = true) := by
      intro he
      apply hne
      unfold strcasecmp_eq at he
      have h' := of_decide_eq_true he
      unfold tor_strlower
      rw [h']; decide
    have ho : ¬ (strcasecmp_eq suf "onion".toList = true) := by
      intro ho
      apply hno
      unfold strcasecmp_eq at ho
      have h' := of_decide_eq_true ho
      unfold tor_strlower
      rw [h']; decide
    simp only
    rw [if_neg he, if_pos ho]

/-- C10, the run of the spec: "foo.bar.exit" gives `EXIT_HOSTNAME` with
"foo.bar", and "foo.bar" gives `NORMAL_HOSTNAME` with "foo.bar". -/
theorem C10_reapplication_witness :
    parse_extended_hostname 16 (fun _ => true) "foo.bar.exit".toList
      = (hostname_type_t.EXIT_HOSTNAME, "foo.bar".toList) ∧
    parse_extended_hostname 16 (fun _ => true)
        (parse_extended_hostname 16 (fun _ => true) "foo.bar.exit".toList).2
      = (hostname_type_t.NORMAL_HOSTNAME, "foo.bar".toList) :=
  C10_reapplication 16 (fun _ => true) "foo.bar".toList (by
    intro pre suf hh hsuf
    have hs := strrchr_split_append '.' pre suf hsuf
    rw [← hh] at hs
    have hd : strrchr_split '.' "foo.bar".toList = some ("foo".toList, "bar".toList) := by decide
    rw [hd] at hs
    simp only [Option.some.injEq, Prod.mk.injEq] at hs
    rw [← hs.2]
    decide)


/-! ## END cells -/

theorem bswap_bytes (a b c d : Nat) (ha : a < 256) (hb : b < 256) (hc : c < 256) (hd : d < 256) :
    (a * 16777216 + b * 65536 + c * 256 + d) % 256 = d ∧
    (a * 16777216 + b * 65536 + c * 256 + d) / 256 % 256 = c ∧
    (a * 16777216 + b * 65536 + c * 256 + d) / 65536 % 256 = b ∧
    (a * 16777216 + b * 65536 + c * 256 + d) / 16777216 % 256 = a := by
  refine ⟨?_, ?_, ?_, ?_⟩ <;> omega

theorem bswap32_bytes (x : Nat) :
    bswap32 x % 256 = x / 2 ^ 24 % 256 ∧ bswap32 x / 2 ^ 8 % 256 = x / 2 ^ 16 % 256 ∧
    bswap32 x / 2 ^ 16 % 256 = x / 2 ^ 8 % 256 ∧ bswap32 x / 2 ^ 24 % 256 = x % 256 := by
  have h := bswap_bytes (x % 256) (x / 2 ^ 8 % 256) (x / 2 ^ 16 % 256) (x / 2 ^ 24 % 256)
    (Nat.mod_lt _ (by norm_num)) (Nat.mod_lt _ (by norm_num)) (Nat.mod_lt _ (by norm_num))
    (Nat.mod_lt _ (by norm_num))
  unfold bswap32
  norm_num at h ⊢
  exact ⟨h.1, h.2.1, h.2.2.1, h.2.2.2⟩

/-- The bytes that `set_uint32(p, htonl(x))` stores at `p` are the big-endian
bytes of `x`, whatever the byte order of the host. -/
theorem uint32_bytes_htonl (big_endian : Bool) (x : Nat) :
    uint32_bytes big_endian (htonl big_endian x)
      = [x / 2 ^ 24 % 256, x / 2 ^ 16 % 256, x / 2 ^ 8 % 256, x % 256] := by
  cases big_endian
  · have h := bswap32_bytes x
    simp only [uint32_bytes, htonl, Bool.false_eq_true, if_false, h.1, h.2.1, h.2.2.1, h.2.2.2]
  · simp only [uint32_bytes, htonl, if_true, List.cons.injEq, and_true]
    norm_num
    refine ⟨?_, ?_, ?_⟩ <;> omega

/-- On a 32-bit value `ntohl` undoes `htonl`. -/
theorem ntohl_htonl (big_endian : Bool) (x : Nat) (hx : x < 2 ^ 32) :
    ntohl big_endian (htonl big_endian x) = x := by
  cases big_endian
  · have h := bswap32_bytes x
    simp only [ntohl, htonl, Bool.false_eq_true, if_false]
    rw [show bswap32 (bswap32 x) = (bswap32 x % 256) * 2 ^ 24 + (bswap32 x / 2 ^ 8 % 256) * 2 ^ 16
      + (bswap32 x / 2 ^ 16 % 256) * 2 ^ 8 + (bswap32 x / 2 ^ 24 % 256) from rfl,
      h.1, h.2.1, h.2.2.1, h.2.2.2]
    norm_num at hx ⊢
    omega
  · simp only [ntohl, htonl, if_true]
    norm_num at hx ⊢
    omega

/-- C5. `connection_edge_end` is effective once.  With `has_sent_end` set it
returns -1, sends no cell and leaves the stream as it is.  Otherwise it returns
0 and the stream differs only in `has_sent_end`, now set; exactly one cell, an
END of this stream on its circuit, is sent when the circuit exists and is not
marked for close, and no cell is sent when there is no circuit or the circuit
is marked for close. -/
theorem C5_connection_edge_end_once (big_endian : Bool) (conn : connection_t) (reason : Nat)
    (cpath_layer : Option Nat) (circ : Option circuit_t) :
    (conn.has_sent_end = true →
      connection_edge_end big_endian conn reason cpath_layer circ = (-1, conn, [])) ∧
    (conn.has_sent_end = false →
      (connection_edge_end big_endian conn reason cpath_layer circ).1 = 0 ∧
      (connection_edge_end big_endian conn reason cpath_layer circ).2.1
        = { conn with has_sent_end := true } ∧
      (∀ c : circuit_t, circ = some c → c.marked_for_close = false →
        ∃ cell : relay_cell,
          (connection_edge_end big_endian conn reason cpath_layer circ).2.2 = [cell] ∧
          cell.relay_command = relay_command.RELAY_COMMAND_END ∧
          cell.stream_id = conn.stream_id ∧ cell.circ_id = c.n_circ_id) ∧
      ((circ = none ∨ ∃ c : circuit_t, circ = some c ∧ c.marked_for_close = true) →
        (connection_edge_end big_endian conn reason cpath_layer circ).2.2 = [])) := by
  constructor
  · intro h
    unfold connection_edge_end
    rw [if_pos h]
  · intro h
    have hn : ¬ (conn.has_sent_end = true) := by rw [h]; decide
    unfold connection_edge_end
    rw [if_neg hn]
    refine ⟨rfl, rfl, ?_, ?_⟩
    · intro c hc hm
      subst hc
      simp only [hm, Bool.false_eq_true, not_false_eq_true, if_true,
        connection_edge_send_command]
      exact ⟨_, rfl, rfl, rfl, rfl⟩
    · intro hc
      rcases hc with hc | ⟨c, hc, hm⟩
      · subst hc; rfl
      · subst hc
        simp only [hm, not_true_eq_false, if_false]

/-- C5, concrete runs: a stream that has sent its END gets -1 and no cell; a
stream with stream id 7 on the live circuit 3 gets 0 and one END cell. -/
theorem C5_connection_edge_end_once_witness :
    connection_edge_end false { has_sent_end := true, stream_id := 7 } END_STREAM_REASON_DONE none
        (some { n_circ_id := 3 })
      = (-1, { has_sent_end := true, stream_id := 7 }, []) ∧
    (connection_edge_end false { has_sent_end := false, stream_id := 7 } END_STREAM_REASON_DONE none
        (some { n_circ_id := 3 })).1 = 0 :=
  ⟨(C5_connection_edge_end_once false { has_sent_end := true, stream_id := 7 }
      END_STREAM_REASON_DONE none (some { n_circ_id := 3 })).1 rfl,
   ((C5_connection_edge_end_once false { has_sent_end := false, stream_id := 7 }
      END_STREAM_REASON_DONE none (some { n_circ_id := 3 })).2 rfl).1⟩

/-- C6. Payload of the END cell that `connection_edge_end` builds, on a host of
either byte order: the single byte `reason`, except for
`END_STREAM_REASON_EXITPOLICY`, where the reason byte is followed by the four
bytes of the stream's `addr`, most significant first. -/
theorem C6_end_payload (big_endian : Bool) (conn : connection_t) (reason : Nat)
    (cpath_layer : Option Nat) (c : circuit_t)
    (hsent : conn.has_sent_end = false) (hmark : c.marked_for_close = false) :
    (connection_edge_end big_endian conn reason cpath_layer (some c)).2.2
      = [{ circ_id := c.n_circ_id, stream_id := conn.stream_id,
           relay_command := relay_command.RELAY_COMMAND_END,
           payload :=
             if reason = END_STREAM_REASON_EXITPOLICY then
               [reason, conn.addr / 2 ^ 24 % 256, conn.addr / 2 ^ 16 % 256,
                 conn.addr / 2 ^ 8 % 256, conn.addr % 256]
             else [reason],
           cpath_layer := cpath_layer }] := by
  have hn : ¬ (conn.has_sent_end = true) := by rw [hsent]; decide
  unfold connection_edge_end
  rw [if_neg hn]
  simp only [hmark, Bool.false_eq_true, not_false_eq_true, if_true, connection_edge_send_command,
    uint32_bytes_htonl]

/-- C6, the run of the spec on a little-endian host: reason EXITPOLICY and
`addr` 10.0.0.1 give the payload `[4, 0x0A, 0x00, 0x00, 0x01]`. -/
theorem C6_end_payload_witness :
    (connection_edge_end false { addr := 167772161, stream_id := 9 } END_STREAM_REASON_EXITPOLICY
        none (some { n_circ_id := 3 })).2.2
      = [{ circ_id := 3, stream_id := 9, relay_command := relay_command.RELAY_COMMAND_END,
           payload := [4, 10, 0, 0, 1], cpath_layer := none }] :=
  C6_end_payload false { addr := 167772161, stream_id := 9 } END_STREAM_REASON_EXITPOLICY
    none { n_circ_id := 3 } rfl rfl


/-! ## Stream-id allocation -/

theorem any_stream_id_iff (p : List connection_t) (id : Nat) :
    p.any (fun tmpconn => decide (tmpconn.stream_id = id)) = true ↔ ∃ c ∈ p, c.stream_id = id := by
  simp [List.any_eq_true]

/-- The loop returns the first id that is not skipped, when one comes up before
the attempts run out. -/
theorem get_unique_stream_id_again_found (p : List connection_t) (k : Nat) :
    ∀ passes next attempts : Nat, k < passes → next < 2 ^ 16 → attempts + k < 2 ^ 16 →
      (∀ j < k, stream_id_skipped p ((next + j) % 2 ^ 16)) →
      ¬ stream_id_skipped p ((next + k) % 2 ^ 16) →
      get_unique_stream_id_again p passes next attempts
        = ((next + k) % 2 ^ 16, (next + k + 1) % 2 ^ 16) := by
  induction k with
  | zero =>
    intro passes next attempts hp hnext hatt _ hgood
    obtain ⟨f, rfl⟩ : ∃ f, passes = f + 1 := ⟨passes - 1, by omega⟩
    rw [get_unique_stream_id_again]
    simp only [Nat.add_zero] at hgood hatt ⊢
    rw [Nat.mod_eq_of_lt hnext] at hgood ⊢
    have h1 : ¬ (2 ^ 16 < attempts + 1) := by omega
    have h2 : ¬ (next = 0) := fun h => hgood (Or.inl h)
    have h3 : ¬ (p.any (fun tmpconn => decide (tmpconn.stream_id = next)) = true) :=
      fun h => hgood (Or.inr ((any_stream_id_iff p next).mp h))
    rw [if_neg h1, if_neg h2, if_neg h3]
  | succ k ih =>
    intro passes next attempts hp hnext hatt hbad hgood
    obtain ⟨f, rfl⟩ : ∃ f, passes = f + 1 := ⟨passes - 1, by omega⟩
    rw [get_unique_stream_id_again]
    have h1 : ¬ (2 ^ 16 < attempts + 1) := by omega
    have hlt : (next + 1) % 2 ^ 16 < 2 ^ 16 := Nat.mod_lt _ (by norm_num)
    have hshift : ∀ j, ((next + 1) % 2 ^ 16 + j) % 2 ^ 16 = (next + (j + 1)) % 2 ^ 16 := by
      intro j; omega
    have hrec := ih f ((next + 1) % 2 ^ 16) (attempts + 1) (by omega) hlt (by omega)
      (fun j hj => by rw [hshift]; exact hbad (j + 1) (by omega))
      (by rw [hshift]; exact hgood)
    have hres : (((next + 1) % 2 ^ 16 + k) % 2 ^ 16, ((next + 1) % 2 ^ 16 + k + 1) % 2 ^ 16)
        = ((next + (k + 1)) % 2 ^ 16, (next + (k + 1) + 1) % 2 ^ 16) := by
      refine Prod.ext ?_ ?_ <;> simp only <;> omega
    rw [hres] at hrec
    have h0 := hbad 0 (by omega)
    simp only [Nat.add_zero, Nat.mod_eq_of_lt hnext] at h0
    rw [if_neg h1]
    by_cases hz : next = 0
    · rw [if_pos hz]; exact hrec
    · rw [if_neg hz]
      have hany : p.any (fun tmpconn => decide (tmpconn.stream_id = next)) = true := by
        rcases h0 with h0 | h0
        · exact absurd h0 hz
        · exact (any_stream_id_iff p next).mpr h0
      rw [if_pos hany]; exact hrec

/-- When every id that comes up is skipped, the loop gives up in pass number
`2^16 + 1` and returns 0. -/
theorem get_unique_stream_id_again_exhausted (p : List connection_t)
    (hall : ∀ id : Nat, id < 2 ^ 16 → stream_id_skipped p id) (n : Nat) :
    ∀ passes next attempts : Nat, n < passes → next < 2 ^ 16 → attempts + n = 2 ^ 16 →
      get_unique_stream_id_again p passes next attempts = (0, (next + n + 1) % 2 ^ 16) := by
  induction n with
  | zero =>
    intro passes next attempts hp _ hatt
    obtain ⟨f, rfl⟩ : ∃ f, passes = f + 1 := ⟨passes - 1, by omega⟩
    rw [get_unique_stream_id_again]
    have h1 : 2 ^ 16 < attempts + 1 := by omega
    rw [if_pos h1]
  | succ n ih =>
    intro passes next attempts hp hnext hatt
    obtain ⟨f, rfl⟩ : ∃ f, passes = f + 1 := ⟨passes - 1, by omega⟩
    rw [get_unique_stream_id_again]
    have h1 : ¬ (2 ^ 16 < attempts + 1) := by omega
    have hlt : (next + 1) % 2 ^ 16 < 2 ^ 16 := Nat.mod_lt _ (by norm_num)
    have hrec := ih f ((next + 1) % 2 ^ 16) (attempts + 1) (by omega) hlt (by omega)
    have hres : ((next + 1) % 2 ^ 16 + n + 1) % 2 ^ 16 = (next + (n + 1) + 1) % 2 ^ 16 := by omega
    rw [hres] at hrec
    rw [if_neg h1]
    by_cases hz : next = 0
    · rw [if_pos hz]; exact hrec
    · rw [if_neg hz]
      have hany : p.any (fun tmpconn => decide (tmpconn.stream_id = next)) = true := by
        rcases hall next hnext with h0 | h0
        · exact absurd h0 hz
        · exact (any_stream_id_iff p next).mpr h0
      rw [if_pos hany]; exact hrec

/-- The bound on the passes is never what ends the loop: with at least
`2^16 + 1 - attempts` passes allowed, allowing more changes nothing. -/
theorem get_unique_stream_id_again_fuel (p : List connection_t) (passes : Nat) :
    ∀ more next attempts : Nat, attempts ≤ 2 ^ 16 → 2 ^ 16 + 1 ≤ attempts + passes →
      get_unique_stream_id_again p (passes + more) next attempts
        = get_unique_stream_id_again p passes next attempts := by
  induction passes with
  | zero => intro more next attempts h1 h2; omega
  | succ f ih =>
    intro more next attempts hle h
    have hadd : f + 1 + more = (f + more) + 1 := by omega
    rw [hadd, get_unique_stream_id_again, get_unique_stream_id_again]
    by_cases h1 : 2 ^ 16 < attempts + 1
    · rw [if_pos h1, if_pos h1]
    · rw [if_neg h1, if_neg h1, ih more _ (attempts + 1) (by omega) (by omega)]

/-- C7. Stream-id allocation finds a free id.  When some non-zero 16-bit id is
not the `stream_id` of any stream on `p_streams`, `get_unique_stream_id_by_circ`
returns a non-zero 16-bit id that differs from the `stream_id` of every stream
on `p_streams`; it is `(next_stream_id + k) mod 2^16` for the least `k`, and
every id probed before it is 0 or in use. -/
theorem C7_stream_id_found (circ : circuit_t) (hnext : circ.next_stream_id < 2 ^ 16)
    (hfree : ∃ id : Nat, 0 < id ∧ id < 2 ^ 16 ∧ ∀ c ∈ circ.p_streams, c.stream_id ≠ id) :
    (get_unique_stream_id_by_circ circ).1 ≠ 0 ∧
    (get_unique_stream_id_by_circ circ).1 < 2 ^ 16 ∧
    (∀ c ∈ circ.p_streams, c.stream_id ≠ (get_unique_stream_id_by_circ circ).1) ∧
    ∃ k : Nat, k < 2 ^ 16 ∧
      (get_unique_stream_id_by_circ circ).1 = (circ.next_stream_id + k) % 2 ^ 16 ∧
      (get_unique_stream_id_by_circ circ).2.next_stream_id
        = (circ.next_stream_id + k + 1) % 2 ^ 16 ∧
      ∀ j < k, (circ.next_stream_id + j) % 2 ^ 16 = 0 ∨
        ∃ c ∈ circ.p_streams, c.stream_id = (circ.next_stream_id + j) % 2 ^ 16 := by
  classical
  obtain ⟨f, hf0, hf16, hfun⟩ := hfree
  have hex : ∃ k, ¬ stream_id_skipped circ.p_streams ((circ.next_stream_id + k) % 2 ^ 16) := by
    refine ⟨(f + 2 ^ 16 - circ.next_stream_id) % 2 ^ 16, ?_⟩
    have : (circ.next_stream_id + (f + 2 ^ 16 - circ.next_stream_id) % 2 ^ 16) % 2 ^ 16 = f := by
      omega
    rw [this]
    rintro (h | ⟨c, hc, hcf⟩)
    · omega
    · exact hfun c hc hcf
  have hk := Nat.find_spec hex
  have hmin : ∀ j < Nat.find hex,
      stream_id_skipped circ.p_streams ((circ.next_stream_id + j) % 2 ^ 16) :=
    fun j hj => not_not.mp (Nat.find_min hex hj)
  have hklt : Nat.find hex < 2 ^ 16 := by
    have hle : Nat.find hex ≤ (f + 2 ^ 16 - circ.next_stream_id) % 2 ^ 16 := by
      apply Nat.find_min'
      have : (circ.next_stream_id + (f + 2 ^ 16 - circ.next_stream_id) % 2 ^ 16) % 2 ^ 16 = f := by
        omega
      rw [this]
      rintro (h | ⟨c, hc, hcf⟩)
      · omega
      · exact hfun c hc hcf
    have : (f + 2 ^ 16 - circ.next_stream_id) % 2 ^ 16 < 2 ^ 16 := Nat.mod_lt _ (by norm_num)
    omega
  have hrun := get_unique_stream_id_again_found circ.p_streams (Nat.find hex) (2 ^ 16 + 1)
    circ.next_stream_id 0 (by omega) hnext (by omega) hmin hk
  have h1 : (get_unique_stream_id_by_circ circ).1
      = (circ.next_stream_id + Nat.find hex) % 2 ^ 16 := by
    unfold get_unique_stream_id_by_circ; rw [hrun]
  have h2 : (get_unique_stream_id_by_circ circ).2.next_stream_id
      = (circ.next_stream_id + Nat.find hex + 1) % 2 ^ 16 := by
    unfold get_unique_stream_id_by_circ; rw [hrun]
  rw [h1, h2]
  refine ⟨fun h => hk (Or.inl h), Nat.mod_lt _ (by norm_num),
    fun c hc hcf => hk (Or.inr ⟨c, hc, hcf⟩), Nat.find hex, hklt, rfl, rfl, hmin⟩

/-- C7, a concrete run: ids 1 and 2 are in use and `next_stream_id` is 0; the
probe skips 0, 1 and 2 and returns 3. -/
theorem C7_stream_id_found_witness :
    (get_unique_stream_id_by_circ
        { next_stream_id := 0, p_streams := [{ stream_id := 1 }, { stream_id := 2 }] }).1 ≠ 0 ∧
    (get_unique_stream_id_by_circ
        { next_stream_id := 0, p_streams := [{ stream_id := 1 }, { stream_id := 2 }] }).1
      < 2 ^ 16 ∧
    (get_unique_stream_id_by_circ
        { next_stream_id := 0, p_streams := [{ stream_id := 1 }, { stream_id := 2 }] }).1 = 3 :=
  have h := C7_stream_id_found
    { next_stream_id := 0, p_streams := [{ stream_id := 1 }, { stream_id := 2 }] }
    (by decide) ⟨3, by decide, by decide, by decide⟩
  ⟨h.1, h.2.1, by simp [get_unique_stream_id_by_circ, get_unique_stream_id_again]⟩


/-- C8. Stream-id exhaustion fails cleanly.  When every non-zero 16-bit id is
the `stream_id` of a stream on `p_streams`, `get_unique_stream_id_by_circ`
returns 0, having advanced `next_stream_id` `2^16 + 1` times;
`connection_ap_handshake_send_begin` and `connection_ap_handshake_send_resolve`
then return -1, send no cell, leave the stream with `has_sent_end` set and
marked for close, and leave the circuit marked for close. -/
theorem C8_stream_id_exhausted (big_endian : Bool) (tor_inet_aton : CStr → Option Nat)
    (RELAY_PAYLOAD_SIZE : Nat) (STREAMWINDOW_START : Int) (dns : client_dns) (now : Int)
    (ap_conn : connection_t) (circ : circuit_t) (send_ret : Int)
    (hnext : circ.next_stream_id < 2 ^ 16)
    (hall : ∀ id : Nat, 0 < id → id < 2 ^ 16 → ∃ c ∈ circ.p_streams, c.stream_id = id) :
    (get_unique_stream_id_by_circ circ).1 = 0 ∧
    (get_unique_stream_id_by_circ circ).2.next_stream_id
      = (circ.next_stream_id + 2 ^ 16 + 1) % 2 ^ 16 ∧
    (connection_ap_handshake_send_begin big_endian tor_inet_aton RELAY_PAYLOAD_SIZE
        STREAMWINDOW_START dns now ap_conn circ send_ret).1 = -1 ∧
    (connection_ap_handshake_send_begin big_endian tor_inet_aton RELAY_PAYLOAD_SIZE
        STREAMWINDOW_START dns now ap_conn circ send_ret).2.2.2.2 = [] ∧
    (connection_ap_handshake_send_begin big_endian tor_inet_aton RELAY_PAYLOAD_SIZE
        STREAMWINDOW_START dns now ap_conn circ send_ret).2.1.has_sent_end = true ∧
    (connection_ap_handshake_send_begin big_endian tor_inet_aton RELAY_PAYLOAD_SIZE
        STREAMWINDOW_START dns now ap_conn circ send_ret).2.1.marked_for_close = true ∧
    (connection_ap_handshake_send_begin big_endian tor_inet_aton RELAY_PAYLOAD_SIZE
        STREAMWINDOW_START dns now ap_conn circ send_ret).2.2.1.marked_for_close = true ∧
    (connection_ap_handshake_send_resolve ap_conn circ send_ret).1 = -1 ∧
    (connection_ap_handshake_send_resolve ap_conn circ send_ret).2.2.2 = [] ∧
    (connection_ap_handshake_send_resolve ap_conn circ send_ret).2.1.has_sent_end = true ∧
    (connection_ap_handshake_send_resolve ap_conn circ send_ret).2.1.marked_for_close = true ∧
    (connection_ap_handshake_send_resolve ap_conn circ send_ret).2.2.1.marked_for_close
      = true := by
  have hskip : ∀ id : Nat, id < 2 ^ 16 → stream_id_skipped circ.p_streams id := by
    intro id hid
    by_cases h0 : id = 0
    · exact Or.inl h0
    · exact Or.inr (hall id (Nat.pos_of_ne_zero h0) hid)
  have hrun := get_unique_stream_id_again_exhausted circ.p_streams hskip (2 ^ 16) (2 ^ 16 + 1)
    circ.next_stream_id 0 (by omega) hnext (by omega)
  have hid : (get_unique_stream_id_by_circ circ).1 = 0 := by
    unfold get_unique_stream_id_by_circ; rw [hrun]
  have hnx : (get_unique_stream_id_by_circ circ).2.next_stream_id
      = (circ.next_stream_id + 2 ^ 16 + 1) % 2 ^ 16 := by
    unfold get_unique_stream_id_by_circ; rw [hrun]
  refine ⟨hid, hnx, ?_, ?_, ?_, ?_, ?_, ?_, ?_, ?_, ?_, ?_⟩ <;>
    simp [connection_ap_handshake_send_begin, connection_ap_handshake_send_resolve, hid,
      connection_mark_for_close, circuit_mark_for_close]

/-- Every non-zero 16-bit id is in use on `full_circuit`. -/
theorem full_circuit_all_used (id : Nat) (h0 : 0 < id) (h16 : id < 2 ^ 16) :
    ∃ c ∈ full_circuit.p_streams, c.stream_id = id := by
  have hp : full_circuit.p_streams = full_p_streams := rfl
  rw [hp]
  unfold full_p_streams
  refine ⟨{ stream_id := id - 1 + 1 }, ?_, ?_⟩
  · rw [List.mem_map]
    have hlt : id - 1 < 2 ^ 16 - 1 := by omega
    exact ⟨id - 1, List.mem_range.mpr hlt, rfl⟩
  · show id - 1 + 1 = id
    omega

/-- C8, a concrete run: a circuit whose `p_streams` hold the ids 1 to 65535,
and a stream that asks for one more. -/
theorem C8_stream_id_exhausted_witness :
    (get_unique_stream_id_by_circ full_circuit).1 = 0 ∧
    (connection_ap_handshake_send_begin false (inet_aton_dotted false) 498 500 client_dns_init 0
        { state := conn_state.AP_CONN_STATE_CIRCUIT_WAIT } full_circuit 0).1 = -1 ∧
    (connection_ap_handshake_send_resolve
        { state := conn_state.AP_CONN_STATE_CIRCUIT_WAIT } full_circuit 0).1 = -1 :=
  have h := C8_stream_id_exhausted false (inet_aton_dotted false) 498 500 client_dns_init 0
    { state := conn_state.AP_CONN_STATE_CIRCUIT_WAIT } full_circuit 0
    (by show (17 : Nat) < 2 ^ 16; norm_num) full_circuit_all_used
  ⟨h.1, h.2.2.1, h.2.2.2.2.2.2.2.1⟩


/-! ## END cells in the history of a stream -/

theorem count_end_append (a b : List relay_cell) :
    count_end (a ++ b) = count_end a + count_end b := by
  simp [count_end, List.filter_append]

theorem count_end_nil : count_end [] = 0 := rfl

theorem quiet_refl (w : edge_world) : quiet w w := ⟨rfl, fun h => h⟩

theorem quiet_trans {a b c : edge_world} (h1 : quiet a b) (h2 : quiet b c) : quiet a c :=
  ⟨h2.1.trans h1.1, fun h => h2.2 (h1.2 h)⟩

theorem quiet_potential {w w' : edge_world} (h : quiet w w') :
    end_potential w' ≤ end_potential w := by
  unfold end_potential
  rw [h.1]
  cases hw : w.conn.has_sent_end
  · cases w'.conn.has_sent_end <;> simp
  · rw [h.2 hw]

/-- A change that keeps the cells sent and the flag `has_sent_end`, or sets the
flag, is quiet. -/
theorem quiet_of_eq {w w' : edge_world} (hs : w'.sent = w.sent)
    (hf : w.conn.has_sent_end = true → w'.conn.has_sent_end = true) : quiet w w' :=
  ⟨by rw [hs], hf⟩

/-- The END cell count and the flag after `connection_edge_end`. -/
theorem connection_edge_end_potential (be : Bool) (conn : connection_t) (reason : Nat)
    (cpath : Option Nat) (circ : Option circuit_t) :
    (connection_edge_end be conn reason cpath circ).2.1.has_sent_end = true ∧
    count_end (connection_edge_end be conn reason cpath circ).2.2
      ≤ (if conn.has_sent_end then 0 else 1) := by
  unfold connection_edge_end
  cases h : conn.has_sent_end
  · simp only [Bool.false_eq_true, if_false, true_and]
    cases circ with
    | none => simp [count_end]
    | some c =>
      cases hm : c.marked_for_close
      · simp [count_end, connection_edge_send_command, hm]
      · simp [count_end, hm]
  · simp [h, count_end]

theorem connection_edge_end_w_potential (env : edge_env) (reason : Nat) (w : edge_world) :
    (connection_edge_end_w env reason w).2.conn.has_sent_end = true ∧
    end_potential (connection_edge_end_w env reason w).2 ≤ end_potential w := by
  have h := connection_edge_end_potential env.big_endian w.conn reason w.conn.cpath_layer w.circ
  unfold connection_edge_end_w end_potential
  simp only [count_end_append, h.1, if_true]
  exact ⟨trivial, by omega⟩


theorem send_begin_quiet (be : Bool) (aton : CStr → Option Nat) (rps : Nat) (sws : Int)
    (dns : client_dns) (now : Int) (ap_conn : connection_t) (circ : circuit_t) (send_ret : Int) :
    (ap_conn.has_sent_end = true →
      (connection_ap_handshake_send_begin be aton rps sws dns now ap_conn circ
        send_ret).2.1.has_sent_end = true) ∧
    count_end (connection_ap_handshake_send_begin be aton rps sws dns now ap_conn circ
      send_ret).2.2.2.2 = 0 := by
  unfold connection_ap_handshake_send_begin
  simp only
  split_ifs <;>
    simp [connection_mark_for_close, connection_edge_send_command, count_end]

theorem send_resolve_quiet (ap_conn : connection_t) (circ : circuit_t) (send_ret : Int) :
    (ap_conn.has_sent_end = true →
      (connection_ap_handshake_send_resolve ap_conn circ send_ret).2.1.has_sent_end = true) ∧
    count_end (connection_ap_handshake_send_resolve ap_conn circ send_ret).2.2.2 = 0 := by
  unfold connection_ap_handshake_send_resolve
  simp only
  split_ifs <;>
    simp [connection_mark_for_close, connection_edge_send_command, count_end]

theorem attach_circuit_quiet (env : edge_env) (o : attach_outcome) (now : Int) (w : edge_world) :
    quiet w (connection_ap_handshake_attach_circuit env o now w).2 := by
  unfold connection_ap_handshake_attach_circuit
  cases o with
  | never => exact quiet_refl w
  | not_yet => exact quiet_refl w
  | found circ send_ret =>
    simp only
    split_ifs
    · have h := send_begin_quiet env.big_endian env.tor_inet_aton env.RELAY_PAYLOAD_SIZE
        env.STREAMWINDOW_START w.dns now w.conn
        { circ with p_streams := w.conn :: circ.p_streams } send_ret
      exact ⟨by simp only [count_end_append, h.2, Nat.add_zero], h.1⟩
    · have h := send_resolve_quiet w.conn { circ with p_streams := w.conn :: circ.p_streams }
        send_ret
      exact ⟨by simp only [count_end_append, h.2, Nat.add_zero], h.1⟩

theorem socks_reply_has_sent_end (conn : connection_t) (reply : List Nat) (status : Int) :
    (connection_ap_handshake_socks_reply conn reply status).has_sent_end = conn.has_sent_end := by
  unfold connection_ap_handshake_socks_reply
  simp only
  split_ifs <;> simp [connection_write_to_buf]

theorem socks_resolved_has_sent_end (env : edge_env) (now : Int) (dns : client_dns)
    (conn : connection_t) (answer_type : Nat) (answer : List Nat) :
    (connection_ap_handshake_socks_resolved env now dns conn answer_type answer).1.has_sent_end
      = conn.has_sent_end := by
  unfold connection_ap_handshake_socks_resolved
  simp only [socks_reply_has_sent_end]


theorem process_socks_normal_quiet (env : edge_env) (o : socks_oracle) (now : Int)
    (w : edge_world) : quiet w (connection_ap_handshake_process_socks_normal env o now w).2 := by
  unfold connection_ap_handshake_process_socks_normal
  simp only
  split_ifs
  all_goals first
    | exact quiet_of_eq rfl (fun h => by
        simp [socks_resolved_has_sent_end, connection_mark_for_close, h])
    | exact quiet_trans (quiet_of_eq rfl (fun h => by simp [h]))
        (attach_circuit_quiet env o.attach now _)

theorem process_socks_onion_quiet (env : edge_env) (o : socks_oracle) (now : Int)
    (w : edge_world) : quiet w (connection_ap_handshake_process_socks_onion env o now w).2 := by
  unfold connection_ap_handshake_process_socks_onion
  simp only
  split_ifs
  all_goals first
    | exact quiet_of_eq rfl (fun h => by
        simp [socks_resolved_has_sent_end, rend_client_refetch_renddesc, h])
    | exact quiet_trans (quiet_of_eq rfl (fun h => by simp [h]))
        (attach_circuit_quiet env o.attach now _)

theorem process_socks_quiet (env : edge_env) (o : socks_oracle) (now : Int) (w : edge_world) :
    quiet w (connection_ap_handshake_process_socks env o now w).2 := by
  unfold connection_ap_handshake_process_socks
  simp only
  split_ifs
  all_goals first
    | exact quiet_of_eq rfl (fun h => by simp [socks_reply_has_sent_end, h])
    | exact quiet_trans (quiet_of_eq rfl (fun h => by simp [h]))
        (process_socks_normal_quiet env o now _)
    | exact quiet_trans (quiet_of_eq rfl (fun h => by simp [h]))
        (process_socks_onion_quiet env o now _)
    | skip
  split
  · exact quiet_of_eq rfl (fun h => by simp [h])
  · split_ifs
    · exact quiet_of_eq rfl (fun h => by simp [h])
    · exact quiet_trans (quiet_of_eq rfl (fun h => by simp [h]))
        (process_socks_normal_quiet env o now _)

theorem package_raw_inbuf_quiet (o : package_outcome) (w : edge_world) :
    quiet w (connection_edge_package_raw_inbuf o w).2 := by
  unfold connection_edge_package_raw_inbuf
  refine ⟨?_, fun h => h⟩
  simp only [count_end_append]
  have : ∀ l : List (List Nat), count_end
      (l.map (fun payload =>
        (connection_edge_send_command w.conn w.circ relay_command.RELAY_COMMAND_DATA payload
          w.conn.cpath_layer o.send_ret).2)).flatten = 0 := by
    intro l
    induction l with
    | nil => rfl
    | cons p l ih =>
      simp only [List.map_cons, List.flatten_cons, count_end_append, ih, Nat.add_zero]
      cases w.circ <;> simp [connection_edge_send_command, count_end]
  rw [this]; rfl


/-- Replacing the stream by one whose `has_sent_end` is set if it was set does
not raise the bound. -/
theorem potential_conn_update (w : edge_world) (c : connection_t)
    (h : w.conn.has_sent_end = true → c.has_sent_end = true) :
    end_potential { w with conn := c } ≤ end_potential w :=
  @quiet_potential w { w with conn := c } ⟨rfl, h⟩

/-- Marking the stream after `connection_edge_end` does not raise the bound. -/
theorem edge_end_then_mark_potential (env : edge_env) (reason : Nat) (w : edge_world) :
    end_potential
        { (connection_edge_end_w env reason w).2 with
            conn := connection_mark_for_close (connection_edge_end_w env reason w).2.conn }
      ≤ end_potential w :=
  le_trans
    (potential_conn_update (connection_edge_end_w env reason w).2 _
      (fun h => by simp only [connection_mark_for_close]; exact h))
    (connection_edge_end_w_potential env reason w).2

theorem reached_eof_potential (env : edge_env) (w : edge_world) :
    end_potential (connection_edge_reached_eof env w).2 ≤ end_potential w := by
  unfold connection_edge_reached_eof
  simp only
  split_ifs
  all_goals first
    | exact le_refl _
    | exact edge_end_then_mark_potential env END_STREAM_REASON_DONE w

theorem process_inbuf_potential (env : edge_env) (so : socks_oracle) (po : package_outcome)
    (now : Int) (w : edge_world) :
    end_potential (connection_edge_process_inbuf env so po now w).2 ≤ end_potential w := by
  have hsocks : end_potential (connection_ap_handshake_process_socks env so now w).2
      ≤ end_potential w := quiet_potential (process_socks_quiet env so now w)
  have hpkg : end_potential (connection_edge_package_raw_inbuf po w).2 ≤ end_potential w :=
    quiet_potential (package_raw_inbuf_quiet po w)
  unfold connection_edge_process_inbuf
  split <;> simp only <;> (try split_ifs)
  all_goals first
    | exact le_refl _
    | exact hsocks
    | exact hpkg
    | exact edge_end_then_mark_potential env END_STREAM_REASON_MISC w
    | exact le_trans (edge_end_then_mark_potential env END_STREAM_REASON_MISC _) hpkg
    | exact le_trans
        (potential_conn_update (connection_ap_handshake_process_socks env so now w).2 _
          (fun _ => by simp [connection_mark_for_close])) hsocks

theorem count_end_connected (conn : connection_t) (circ : Option circuit_t) (payload : List Nat)
    (cpath : Option Nat) (send_ret : Int) :
    count_end (connection_edge_send_command conn circ relay_command.RELAY_COMMAND_CONNECTED
      payload cpath send_ret).2 = 0 := by
  cases circ <;> simp [connection_edge_send_command, count_end]

theorem finished_connecting_potential (env : edge_env) (send_ret : Int) (so : socks_oracle)
    (po : package_outcome) (now : Int) (w : edge_world) :
    end_potential (connection_edge_finished_connecting env send_ret so po now w).2
      ≤ end_potential w := by
  unfold connection_edge_finished_connecting
  simp only
  split_ifs
  all_goals first
    | (apply quiet_potential
       exact ⟨by simp only [count_end_append, count_end_connected, Nat.add_zero], fun h => h⟩)
    | (refine le_trans (process_inbuf_potential env so po now _) ?_
       apply quiet_potential
       exact ⟨by simp only [count_end_append, count_end_connected, Nat.add_zero], fun h => h⟩)

theorem exit_connect_potential (env : edge_env) (policy_rejected : Bool) (connect_ret : Int)
    (send_ret : Int) (w : edge_world) :
    end_potential (connection_exit_connect env policy_rejected connect_ret send_ret w)
      ≤ end_potential w := by
  unfold connection_exit_connect
  simp only
  split_ifs
  all_goals first
    | exact (connection_edge_end_w_potential env END_STREAM_REASON_EXITPOLICY w).2
    | exact le_trans (connection_edge_end_w_potential env END_STREAM_REASON_CONNECTREFUSED _).2
        (le_refl _)
    | exact le_refl _
    | (apply quiet_potential
       exact ⟨by simp only [count_end_append, count_end_connected, Nat.add_zero], fun h => h⟩)

theorem attach_pending_potential (env : edge_env) (attach : attach_outcome) (now : Int)
    (w : edge_world) :
    end_potential (connection_ap_attach_pending env attach now w) ≤ end_potential w := by
  have ha := quiet_potential (attach_circuit_quiet env attach now w)
  unfold connection_ap_attach_pending
  simp only
  split_ifs
  all_goals first
    | exact le_refl _
    | exact ha
    | exact le_trans
        (potential_conn_update (connection_ap_handshake_attach_circuit env attach now w).2 _
          (fun _ => by simp [connection_mark_for_close])) ha

theorem expire_beginning_retry_potential (env : edge_env) (attach : attach_outcome) (now : Int)
    (w : edge_world) (circ : circuit_t) :
    end_potential (connection_ap_expire_beginning_retry env attach now w circ).1
      ≤ end_potential w + 1 := by
  have he := connection_edge_end_w_potential env END_STREAM_REASON_TIMEOUT w
  have hclear : ∀ c : connection_t, c.has_sent_end = false →
      end_potential
          { (circuit_detach_stream
              { (connection_edge_end_w env END_STREAM_REASON_TIMEOUT w).2 with conn := c }) with
            conn := c }
        ≤ end_potential w + 1 := by
    intro c hc
    have h2 := he.2
    unfold end_potential at h2 ⊢
    simp only [he.1, if_true, Nat.add_zero] at h2
    simp only [circuit_detach_stream, hc, Bool.false_eq_true, if_false]
    omega
  unfold connection_ap_expire_beginning_retry
  simp only
  split_ifs
  · refine le_trans (potential_conn_update _ _ (fun _ => by simp [connection_mark_for_close])) ?_
    refine le_trans (quiet_potential (attach_circuit_quiet env attach now _)) ?_
    exact hclear _ rfl
  · refine le_trans (quiet_potential (attach_circuit_quiet env attach now _)) ?_
    exact hclear _ rfl

theorem expire_beginning_potential (env : edge_env) (attach : attach_outcome) (now : Int)
    (w : edge_world) (hfreed : w.freed = false) :
    end_potential (connection_ap_expire_beginning env attach now w).1
      ≤ end_potential w
        + (if is_timeout_retry w (edge_op.expire_beginning attach now) = true then 1 else 0) := by
  unfold connection_ap_expire_beginning
  simp only
  by_cases h1 : w.conn.type ≠ conn_type.CONN_TYPE_AP
  · rw [if_pos h1]; exact Nat.le_add_right _ _
  rw [if_neg h1]
  by_cases h2 : w.conn.state ≠ conn_state.AP_CONN_STATE_RESOLVE_WAIT ∧
      w.conn.state ≠ conn_state.AP_CONN_STATE_CONNECT_WAIT
  · rw [if_pos h2]; exact Nat.le_add_right _ _
  rw [if_neg h2]
  by_cases h3 : now - w.conn.timestamp_lastread < 15
  · rw [if_pos h3]; exact Nat.le_add_right _ _
  rw [if_neg h3]
  cases hc : w.circ with
  | none =>
    simp only
    exact le_trans
      (potential_conn_update w _ (fun h => by simp only [connection_mark_for_close]; exact h))
      (Nat.le_add_right _ _)
  | some circ =>
    simp only
    by_cases hp : circ.purpose = circuit_purpose.CIRCUIT_PURPOSE_C_REND_JOINED
    · rw [if_pos hp]
      by_cases h45 : now - w.conn.timestamp_lastread > 45
      · rw [if_pos h45]
        exact le_trans (edge_end_then_mark_potential env END_STREAM_REASON_TIMEOUT w)
          (Nat.le_add_right _ _)
      · rw [if_neg h45]; exact Nat.le_add_right _ _
    · rw [if_neg hp]
      have hretry : is_timeout_retry w (edge_op.expire_beginning attach now) = true := by
        have h1' : w.conn.type = conn_type.CONN_TYPE_AP := not_not.mp h1
        have h2' : w.conn.state = conn_state.AP_CONN_STATE_RESOLVE_WAIT ∨
            w.conn.state = conn_state.AP_CONN_STATE_CONNECT_WAIT := by
          by_contra hcon
          exact h2 ⟨fun h => hcon (Or.inl h), fun h => hcon (Or.inr h)⟩
        unfold is_timeout_retry
        simp only [hc, decide_eq_true_eq]
        exact ⟨hfreed, h1', h2', h3, hp⟩
      rw [if_pos hretry]
      exact expire_beginning_retry_potential env attach now w circ

/-- One step raises the bound by at most one, and only if it is a timeout
retry. -/
theorem edge_step_potential (env : edge_env) (w : edge_world) (op : edge_op) :
    end_potential (edge_step env w op)
      ≤ end_potential w + (if is_timeout_retry w op = true then 1 else 0) := by
  unfold edge_step
  by_cases hf : w.freed = true
  · rw [if_pos hf]; exact Nat.le_add_right _ _
  rw [if_neg hf]
  have hf' : w.freed = false := by simpa using hf
  cases op with
  | expire_beginning attach now => exact expire_beginning_potential env attach now w hf'
  | edge_end reason =>
    exact le_trans (connection_edge_end_w_potential env reason w).2 (Nat.le_add_right _ _)
  | reached_eof => exact le_trans (reached_eof_potential env w) (Nat.le_add_right _ _)
  | process_inbuf so po now =>
    exact le_trans (process_inbuf_potential env so po now w) (Nat.le_add_right _ _)
  | destroy circ_id =>
    refine le_trans (potential_conn_update w _ (fun h => ?_)) (Nat.le_add_right _ _)
    unfold connection_edge_destroy
    split_ifs
    · exact h
    · simp [connection_mark_for_close]
  | finished_connecting send_ret so po now =>
    exact le_trans (finished_connecting_potential env send_ret so po now w)
      (Nat.le_add_right _ _)
  | exit_connect policy_rejected connect_ret send_ret =>
    exact le_trans (exit_connect_potential env policy_rejected connect_ret send_ret w)
      (Nat.le_add_right _ _)
  | attach_pending attach now =>
    exact le_trans (attach_pending_potential env attach now w) (Nat.le_add_right _ _)
  | send_begin send_ret now =>
    refine le_trans ?_ (Nat.le_add_right _ _)
    cases hc : w.circ with
    | none => exact le_refl _
    | some circ =>
      have h := send_begin_quiet env.big_endian env.tor_inet_aton env.RELAY_PAYLOAD_SIZE
        env.STREAMWINDOW_START w.dns now w.conn circ send_ret
      apply quiet_potential
      exact ⟨by simp only [count_end_append, h.2, Nat.add_zero], h.1⟩
  | send_resolve send_ret =>
    refine le_trans ?_ (Nat.le_add_right _ _)
    cases hc : w.circ with
    | none => exact le_refl _
    | some circ =>
      have h := send_resolve_quiet w.conn circ send_ret
      apply quiet_potential
      exact ⟨by simp only [count_end_append, h.2, Nat.add_zero], h.1⟩
  | other_marks_conn sets =>
    exact le_trans
      (potential_conn_update w _ (fun h => by simp [connection_mark_for_close, h]))
      (Nat.le_add_right _ _)
  | other_marks_circ => exact Nat.le_add_right _ _
  | other_detaches => exact Nat.le_add_right _ _
  | other_reads bytes now =>
    exact le_trans (potential_conn_update w _ (fun h => h)) (Nat.le_add_right _ _)

/-- Along a history the bound grows by at most the number of timeout retries. -/
theorem edge_run_potential (env : edge_env) (ops : List edge_op) :
    ∀ w : edge_world,
      end_potential (edge_run env w ops) ≤ end_potential w + timeout_retries env w ops := by
  induction ops with
  | nil => intro w; exact le_refl _
  | cons op ops ih =>
    intro w
    have h1 := ih (edge_step env w op)
    have h2 := edge_step_potential env w op
    show end_potential (edge_run env (edge_step env w op) ops)
      ≤ end_potential w
        + ((if is_timeout_retry w op = true then 1 else 0)
          + timeout_retries env (edge_step env w op) ops)
    omega


/-- C4, as stated, fails: the AP stream `retry_world` has sent nothing; the
sweep `connection_ap_expire_beginning` of second 115 sends END(TIMEOUT) on
circuit 1, clears `has_sent_end` and moves the stream to circuit 2, where BEGIN
is sent; the sweep of second 130 sends a second END(TIMEOUT), on circuit 2.  Two
END cells have been sent for the one stream. -/
theorem C4_two_end_cells :
    retry_world.sent = [] ∧
    (edge_run retry_env retry_world retry_history).sent.map
        (fun c => (c.circ_id, c.stream_id, c.relay_command))
      = [(1, 5, relay_command.RELAY_COMMAND_END), (2, 1, relay_command.RELAY_COMMAND_BEGIN),
         (2, 1, relay_command.RELAY_COMMAND_END)] ∧
    ¬ (count_end (edge_run retry_env retry_world retry_history).sent ≤ 1) := by
  decide

/-- C4, amended.  For every stream that has sent no cell yet and every history
of calls of `connection_edge_end`, `connection_edge_reached_eof`,
`connection_edge_process_inbuf`, `connection_edge_destroy`,
`connection_edge_finished_connecting`, `connection_exit_connect`,
`connection_ap_expire_beginning`, `connection_ap_attach_pending`,
`connection_ap_handshake_send_begin`, `connection_ap_handshake_send_resolve` and
acts of other modules on the stream, the number of END cells sent for the
stream is at most one plus the number of timeout retries in the history: at
most one END cell for each time the stream is put on a circuit. -/
theorem C4_end_cells_per_retry (env : edge_env) (w : edge_world) (ops : List edge_op)
    (hfresh : w.sent = []) :
    count_end (edge_run env w ops).sent ≤ 1 + timeout_retries env w ops := by
  have h := edge_run_potential env ops w
  have h0 : end_potential w ≤ 1 := by
    unfold end_potential
    rw [hfresh, count_end_nil]
    split_ifs <;> omega
  have h1 : count_end (edge_run env w ops).sent ≤ end_potential (edge_run env w ops) :=
    Nat.le_add_right _ _
  omega

/-- C4 amended, a concrete history without a timeout retry: the stream reaches
EOF, is ended once more by another module, and its circuit is destroyed; one
END cell is sent. -/
theorem C4_end_cells_per_retry_witness :
    timeout_retries retry_env retry_world
        [edge_op.reached_eof, edge_op.edge_end END_STREAM_REASON_MISC, edge_op.destroy 1] = 0 ∧
    count_end (edge_run retry_env retry_world
        [edge_op.reached_eof, edge_op.edge_end END_STREAM_REASON_MISC, edge_op.destroy 1]).sent
      ≤ 1 + timeout_retries retry_env retry_world
        [edge_op.reached_eof, edge_op.edge_end END_STREAM_REASON_MISC, edge_op.destroy 1] :=
  ⟨by decide,
   C4_end_cells_per_retry retry_env retry_world
     [edge_op.reached_eof, edge_op.edge_end END_STREAM_REASON_MISC, edge_op.destroy 1] rfl⟩


/-! ## Hostname classifier: hidden services and plain names -/

theorem dot_not_mem_of_strlower_onion (suf : CStr) (h : tor_strlower suf = "onion".toList) :
    '.' ∉ suf := by
  intro hdot
  have hmem : tolower '.' ∈ tor_strlower suf := List.mem_map_of_mem tolower hdot
  rw [h] at hmem
  revert hmem
  decide

/-- C11. Hostname classifier, ".onion": for every service id `sid` of at most
`REND_SERVICE_ID_LEN` characters, in any letter case, whose lower-cased form
`rend_valid_service_id` accepts, and every `suf` that reads "onion" up to letter
case, `parse_extended_hostname(sid ++ "." ++ suf)` returns `ONION_HOSTNAME` and
leaves the address equal to the lower-cased `sid`. -/
theorem C11_onion_hostname (REND_SERVICE_ID_LEN : Nat) (rend_valid_service_id : CStr → Bool)
    (sid suf : CStr) (hlen : sid.length ≤ REND_SERVICE_ID_LEN)
    (hvalid : rend_valid_service_id (tor_strlower sid) = true)
    (hsuf : tor_strlower suf = "onion".toList) :
    parse_extended_hostname REND_SERVICE_ID_LEN rend_valid_service_id (sid ++ '.' :: suf)
      = (hostname_type_t.ONION_HOSTNAME, tor_strlower sid) := by
  unfold parse_extended_hostname
  rw [strrchr_split_append '.' sid suf (dot_not_mem_of_strlower_onion suf hsuf)]
  have hmap : suf.map tolower = "onion".toList := hsuf
  have he : ¬ (strcasecmp_eq suf "exit".toList = true) := by
    unfold strcasecmp_eq
    rw [hmap]; decide
  have ho : strcasecmp_eq suf "onion".toList = true := by
    unfold strcasecmp_eq
    rw [hmap]; decide
  have hl : ¬ (REND_SERVICE_ID_LEN + 1 ≤ sid.length) := by omega
  have htake : sid.take REND_SERVICE_ID_LEN = sid := List.take_of_length_le hlen
  simp only
  rw [if_neg he, if_neg (not_not.mpr ho), if_neg hl, htake, if_pos hvalid]

/-- C11, the address of the spec: "ABCDEFGHIJ234567.Onion" with a checker that
wants sixteen characters gives `ONION_HOSTNAME` and "abcdefghij234567". -/
theorem C11_onion_hostname_witness :
    parse_extended_hostname 16 (fun s => decide (s.length = 16))
        ("ABCDEFGHIJ234567".toList ++ '.' :: "Onion".toList)
      = (hostname_type_t.ONION_HOSTNAME, "abcdefghij234567".toList) :=
  C11_onion_hostname 16 (fun s => decide (s.length = 16)) "ABCDEFGHIJ234567".toList
    "Onion".toList (by decide) (by decide) (by decide)

/-- C12. `NORMAL_HOSTNAME` changes nothing: whenever `parse_extended_hostname`
returns `NORMAL_HOSTNAME` the address after the call equals the address before
it; and it returns `NORMAL_HOSTNAME` for an address without a dot, for one
whose text after the last dot is neither "exit" nor "onion" up to letter case,
and for a ".onion" address whose text before the last dot is longer than
`REND_SERVICE_ID_LEN` or is not accepted by `rend_valid_service_id`. -/
theorem C12_normal_unchanged (REND_SERVICE_ID_LEN : Nat) (rend_valid_service_id : CStr → Bool)
    (address : CStr) :
    ((parse_extended_hostname REND_SERVICE_ID_LEN rend_valid_service_id address).1
        = hostname_type_t.NORMAL_HOSTNAME →
      (parse_extended_hostname REND_SERVICE_ID_LEN rend_valid_service_id address).2 = address) ∧
    ('.' ∉ address →
      parse_extended_hostname REND_SERVICE_ID_LEN rend_valid_service_id address
        = (hostname_type_t.NORMAL_HOSTNAME, address)) ∧
    (∀ pre suf : CStr, address = pre ++ '.' :: suf → '.' ∉ suf →
      tor_strlower suf ≠ "exit".toList → tor_strlower suf ≠ "onion".toList →
      parse_extended_hostname REND_SERVICE_ID_LEN rend_valid_service_id address
        = (hostname_type_t.NORMAL_HOSTNAME, address)) ∧
    (∀ pre suf : CStr, address = pre ++ '.' :: suf → tor_strlower suf = "onion".toList →
      (REND_SERVICE_ID_LEN < pre.length ∨
        rend_valid_service_id (tor_strlower (pre.take REND_SERVICE_ID_LEN)) = false) →
      parse_extended_hostname REND_SERVICE_ID_LEN rend_valid_service_id address
        = (hostname_type_t.NORMAL_HOSTNAME, address)) := by
  refine ⟨?_, ?_, ?_, ?_⟩
  · intro h
    unfold parse_extended_hostname at h ⊢
    cases hs : strrchr_split '.' address with
    | none => rfl
    | some p =>
      obtain ⟨pre, suf⟩ := p
      obtain ⟨haddr, _⟩ := strrchr_split_some '.' address pre suf hs
      rw [hs] at h
      simp only at h ⊢
      split_ifs at h ⊢
      all_goals first
        | rfl
        | exact haddr.symm
  · intro hdot
    unfold parse_extended_hostname
    rw [(strrchr_split_none '.' address).mpr hdot]
  · intro pre suf haddr hsuf hne hno
    subst haddr
    unfold parse_extended_hostname
    rw [strrchr_split_append '.' pre suf hsuf]
    have he : ¬ (strcasecmp_eq suf "exit".toList = true) := by
      intro he
      apply hne
      unfold strcasecmp_eq at he
      have h' := of_decide_eq_true he
      unfold tor_strlower
      rw [h']; decide
    have ho : ¬ (strcasecmp_eq suf "onion".toList = true) := by
      intro ho
      apply hno
      unfold strcasecmp_eq at ho
      have h' := of_decide_eq_true ho
      unfold tor_strlower
      rw [h']; decide
    simp only
    rw [if_neg he, if_pos ho]
  · intro pre suf haddr hsuf hbad
    subst haddr
    unfold parse_extended_hostname
    rw [strrchr_split_append '.' pre suf (dot_not_mem_of_strlower_onion suf hsuf)]
    have hmap : suf.map tolower = "onion".toList := hsuf
    have he : ¬ (strcasecmp_eq suf "exit".toList = true) := by
      unfold strcasecmp_eq
      rw [hmap]; decide
    have ho : strcasecmp_eq suf "onion".toList = true := by
      unfold strcasecmp_eq
      rw [hmap]; decide
    simp only
    rw [if_neg he, if_neg (not_not.mpr ho)]
    rcases hbad with hlong | hinv
    · rw [if_pos (by omega)]
    · by_cases hl : REND_SERVICE_ID_LEN + 1 ≤ pre.length
      · rw [if_pos hl]
      · rw [if_neg hl, hinv]
        simp

/-- C12, concrete runs: "www.example.com" and the too long
"abcdefghij234567x.onion" come back as `NORMAL_HOSTNAME`, unchanged. -/
theorem C12_normal_unchanged_witness :
    (parse_extended_hostname 16 (fun _ => true) "abcdefghij234567x.onion".toList).2
      = "abcdefghij234567x.onion".toList ∧
    parse_extended_hostname 16 (fun _ => true) "www.Example.com".toList
      = (hostname_type_t.NORMAL_HOSTNAME, "www.Example.com".toList) :=
  ⟨(C12_normal_unchanged 16 (fun _ => true) "abcdefghij234567x.onion".toList).1 (by decide),
   (C12_normal_unchanged 16 (fun _ => true) "www.Example.com".toList).2.2.1
     "www.Example".toList "com".toList (by decide) (by decide) (by decide) (by decide)⟩


/-! ## The timeout sweep -/

/-- With a free non-zero id on the list, `get_unique_stream_id_by_circ` does
not return 0. -/
theorem get_unique_stream_id_ne_zero (circ : circuit_t) (hnext : circ.next_stream_id < 2 ^ 16)
    (hfree : ∃ id : Nat, 0 < id ∧ id < 2 ^ 16 ∧ ∀ c ∈ circ.p_streams, c.stream_id ≠ id) :
    (get_unique_stream_id_by_circ circ).1 ≠ 0 := by
  classical
  obtain ⟨f, hf0, hf16, hfun⟩ := hfree
  have hex : ∃ k, ¬ stream_id_skipped circ.p_streams ((circ.next_stream_id + k) % 2 ^ 16) := by
    refine ⟨(f + 2 ^ 16 - circ.next_stream_id) % 2 ^ 16, ?_⟩
    have : (circ.next_stream_id + (f + 2 ^ 16 - circ.next_stream_id) % 2 ^ 16) % 2 ^ 16 = f := by
      omega
    rw [this]
    rintro (h | ⟨c, hc, hcf⟩)
    · omega
    · exact hfun c hc hcf
  have hk := Nat.find_spec hex
  have hmin : ∀ j < Nat.find hex,
      stream_id_skipped circ.p_streams ((circ.next_stream_id + j) % 2 ^ 16) :=
    fun j hj => not_not.mp (Nat.find_min hex hj)
  have hklt : Nat.find hex < 2 ^ 16 := by
    have hle : Nat.find hex ≤ (f + 2 ^ 16 - circ.next_stream_id) % 2 ^ 16 := by
      apply Nat.find_min'
      have : (circ.next_stream_id + (f + 2 ^ 16 - circ.next_stream_id) % 2 ^ 16) % 2 ^ 16 = f := by
        omega
      rw [this]
      rintro (h | ⟨c, hc, hcf⟩)
      · omega
      · exact hfun c hc hcf
    have : (f + 2 ^ 16 - circ.next_stream_id) % 2 ^ 16 < 2 ^ 16 := Nat.mod_lt _ (by norm_num)
    omega
  have hrun := get_unique_stream_id_again_found circ.p_streams (Nat.find hex) (2 ^ 16 + 1)
    circ.next_stream_id 0 (by omega) hnext (by omega) hmin hk
  have h1 : (get_unique_stream_id_by_circ circ).1
      = (circ.next_stream_id + Nat.find hex) % 2 ^ 16 := by
    unfold get_unique_stream_id_by_circ; rw [hrun]
  rw [h1]
  exact fun h => hk (Or.inl h)

/-- What `connection_ap_handshake_send_begin` returns once a stream id has been
found. -/
theorem send_begin_of_id (be : Bool) (aton : CStr → Option Nat) (rps : Nat) (sws : Int)
    (dns : client_dns) (now : Int) (ap_conn : connection_t) (circ : circuit_t) (send_ret : Int)
    (hid : (get_unique_stream_id_by_circ circ).1 ≠ 0) :
    (connection_ap_handshake_send_begin be aton rps sws dns now ap_conn circ send_ret).2.1
      = (if send_ret < 0 then
          { ap_conn with stream_id := (get_unique_stream_id_by_circ circ).1 }
        else
          { ap_conn with stream_id := (get_unique_stream_id_by_circ circ).1,
                         package_window := sws, deliver_window := sws,
                         state := conn_state.AP_CONN_STATE_CONNECT_WAIT }) := by
  unfold connection_ap_handshake_send_begin
  simp only [hid, if_false, connection_edge_send_command]
  split_ifs <;> rfl

/-- What `connection_ap_handshake_send_resolve` returns once a stream id has
been found. -/
theorem send_resolve_of_id (ap_conn : connection_t) (circ : circuit_t) (send_ret : Int)
    (hid : (get_unique_stream_id_by_circ circ).1 ≠ 0) :
    (connection_ap_handshake_send_resolve ap_conn circ send_ret).2.1
      = (if send_ret < 0 then
          { ap_conn with stream_id := (get_unique_stream_id_by_circ circ).1 }
        else
          { ap_conn with stream_id := (get_unique_stream_id_by_circ circ).1,
                         state := conn_state.AP_CONN_STATE_RESOLVE_WAIT }) := by
  unfold connection_ap_handshake_send_resolve
  simp only [hid, if_false, connection_edge_send_command]
  split_ifs <;> rfl

theorem send_begin_timestamp (be : Bool) (aton : CStr → Option Nat) (rps : Nat) (sws : Int)
    (dns : client_dns) (now : Int) (ap_conn : connection_t) (circ : circuit_t) (send_ret : Int) :
    (connection_ap_handshake_send_begin be aton rps sws dns now ap_conn circ
      send_ret).2.1.timestamp_lastread = ap_conn.timestamp_lastread := by
  unfold connection_ap_handshake_send_begin
  simp only
  split_ifs <;> simp [connection_mark_for_close]

theorem send_resolve_timestamp (ap_conn : connection_t) (circ : circuit_t) (send_ret : Int) :
    (connection_ap_handshake_send_resolve ap_conn circ send_ret).2.1.timestamp_lastread
      = ap_conn.timestamp_lastread := by
  unfold connection_ap_handshake_send_resolve
  simp only
  split_ifs <;> simp [connection_mark_for_close]

/-- A stream that is late on a general-purpose circuit is retried. -/
theorem expire_beginning_eq_retry (env : edge_env) (attach : attach_outcome) (now : Int)
    (w : edge_world) (circ : circuit_t)
    (hap : w.conn.type = conn_type.CONN_TYPE_AP)
    (hstate : w.conn.state = conn_state.AP_CONN_STATE_CONNECT_WAIT ∨
      w.conn.state = conn_state.AP_CONN_STATE_RESOLVE_WAIT)
    (hlate : 15 ≤ now - w.conn.timestamp_lastread)
    (hcirc : w.circ = some circ)
    (hgen : circ.purpose = circuit_purpose.CIRCUIT_PURPOSE_C_GENERAL) :
    connection_ap_expire_beginning env attach now w
      = connection_ap_expire_beginning_retry env attach now w circ := by
  unfold connection_ap_expire_beginning
  have h1 : ¬ (w.conn.type ≠ conn_type.CONN_TYPE_AP) := not_not.mpr hap
  have h2 : ¬ (w.conn.state ≠ conn_state.AP_CONN_STATE_RESOLVE_WAIT ∧
      w.conn.state ≠ conn_state.AP_CONN_STATE_CONNECT_WAIT) := by
    rintro ⟨ha, hb⟩
    rcases hstate with h | h
    · exact hb h
    · exact ha h
  have h3 : ¬ (now - w.conn.timestamp_lastread < 15) := by omega
  have h4 : ¬ (circ.purpose = circuit_purpose.CIRCUIT_PURPOSE_C_REND_JOINED) := by
    rw [hgen]; decide
  simp only
  rw [if_neg h1, if_neg h2, if_neg h3, hcirc]
  simp only
  rw [if_neg h4]

/-- The timeout retry is the attach, re-attempted in `timeout_retry_world`,
followed by the close of the stream when the attach fails for good; the circuit
that the stream was on has its `timestamp_dirty` lowered by `NewCircuitPeriod`. -/
theorem expire_beginning_retry_eq (env : edge_env) (attach : attach_outcome) (now : Int)
    (w : edge_world) (circ : circuit_t) :
    connection_ap_expire_beginning_retry env attach now w circ
      = (if (connection_ap_handshake_attach_circuit env attach now
              (timeout_retry_world env w)).1 < 0 then
          { (connection_ap_handshake_attach_circuit env attach now
                (timeout_retry_world env w)).2 with
            conn := connection_mark_for_close
              { (connection_ap_handshake_attach_circuit env attach now
                  (timeout_retry_world env w)).2.conn with has_sent_end := true } }
        else
          (connection_ap_handshake_attach_circuit env attach now (timeout_retry_world env w)).2,
        some { circ with timestamp_dirty := circ.timestamp_dirty - env.NewCircuitPeriod }) := by
  have hw : ({ (circuit_detach_stream
        { (connection_edge_end_w env END_STREAM_REASON_TIMEOUT w).2 with
          conn := { (connection_edge_end_w env END_STREAM_REASON_TIMEOUT w).2.conn with
                      has_sent_end := false,
                      state := conn_state.AP_CONN_STATE_CIRCUIT_WAIT } }) with
      conn :=
        { (connection_edge_end_w env END_STREAM_REASON_TIMEOUT w).2.conn with
            has_sent_end := false,
            state := conn_state.AP_CONN_STATE_CIRCUIT_WAIT,
            timestamp_lastread :=
              (connection_edge_end_w env END_STREAM_REASON_TIMEOUT w).2.conn.timestamp_lastread
                + 15 } } : edge_world)
      = timeout_retry_world env w := by
    unfold timeout_retry_world circuit_detach_stream connection_edge_end_w connection_edge_end
    simp only
    split_ifs <;> rfl
  unfold connection_ap_expire_beginning_retry
  simp only
  rw [hw]
  split_ifs <;> rfl

/-- The cells of `connection_edge_end` for a stream that has not sent its END,
on a circuit that is not marked for close, with a reason other than
EXITPOLICY. -/
theorem connection_edge_end_cells (be : Bool) (conn : connection_t) (reason : Nat)
    (circ : circuit_t) (hsent : conn.has_sent_end = false)
    (hmark : circ.marked_for_close = false) (hreason : reason ≠ END_STREAM_REASON_EXITPOLICY) :
    (connection_edge_end be conn reason conn.cpath_layer (some circ)).2.2
      = [end_cell conn circ reason] := by
  have hn : ¬ (conn.has_sent_end = true) := by rw [hsent]; decide
  unfold connection_edge_end
  rw [if_neg hn]
  simp only [hmark, Bool.false_eq_true, not_false_eq_true, if_true, connection_edge_send_command,
    if_neg hreason, end_cell]


theorem attach_found_eq (env : edge_env) (now : Int) (w : edge_world)
    (c : circuit_t) (send_ret : Int) :
    connection_ap_handshake_attach_circuit env (attach_outcome.found c send_ret) now w
      = (if w.conn.socks_request.command = SOCKS_COMMAND_CONNECT then
          (1, { w with
                  conn := (connection_ap_handshake_send_begin env.big_endian env.tor_inet_aton
                    env.RELAY_PAYLOAD_SIZE env.STREAMWINDOW_START w.dns now w.conn
                    { c with p_streams := w.conn :: c.p_streams } send_ret).2.1,
                  circ := some (connection_ap_handshake_send_begin env.big_endian
                    env.tor_inet_aton env.RELAY_PAYLOAD_SIZE env.STREAMWINDOW_START w.dns now
                    w.conn { c with p_streams := w.conn :: c.p_streams } send_ret).2.2.1,
                  dns := (connection_ap_handshake_send_begin env.big_endian env.tor_inet_aton
                    env.RELAY_PAYLOAD_SIZE env.STREAMWINDOW_START w.dns now w.conn
                    { c with p_streams := w.conn :: c.p_streams } send_ret).2.2.2.1,
                  sent := w.sent ++ (connection_ap_handshake_send_begin env.big_endian
                    env.tor_inet_aton env.RELAY_PAYLOAD_SIZE env.STREAMWINDOW_START w.dns now
                    w.conn { c with p_streams := w.conn :: c.p_streams } send_ret).2.2.2.2 })
        else
          (1, { w with
                  conn := (connection_ap_handshake_send_resolve w.conn
                    { c with p_streams := w.conn :: c.p_streams } send_ret).2.1,
                  circ := some (connection_ap_handshake_send_resolve w.conn
                    { c with p_streams := w.conn :: c.p_streams } send_ret).2.2.1,
                  sent := w.sent ++ (connection_ap_handshake_send_resolve w.conn
                    { c with p_streams := w.conn :: c.p_streams } send_ret).2.2.2 })) := rfl


/-- With every non-zero id on the list, `get_unique_stream_id_by_circ` returns
0. -/
theorem get_unique_stream_id_zero (circ : circuit_t) (hnext : circ.next_stream_id < 2 ^ 16)
    (hall : ∀ id : Nat, 0 < id → id < 2 ^ 16 → ∃ c ∈ circ.p_streams, c.stream_id = id) :
    (get_unique_stream_id_by_circ circ).1 = 0 := by
  have hskip : ∀ id : Nat, id < 2 ^ 16 → stream_id_skipped circ.p_streams id := by
    intro id hid
    by_cases h0 : id = 0
    · exact Or.inl h0
    · exact Or.inr (hall id (Nat.pos_of_ne_zero h0) hid)
  have hrun := get_unique_stream_id_again_exhausted circ.p_streams hskip (2 ^ 16) (2 ^ 16 + 1)
    circ.next_stream_id 0 (by omega) hnext (by omega)
  unfold get_unique_stream_id_by_circ; rw [hrun]

/-- What `connection_ap_handshake_send_begin` and
`connection_ap_handshake_send_resolve` leave of the stream when no stream id is
free. -/
theorem send_of_no_id (be : Bool) (aton : CStr → Option Nat) (rps : Nat) (sws : Int)
    (dns : client_dns) (now : Int) (ap_conn : connection_t) (circ : circuit_t) (send_ret : Int)
    (hid : (get_unique_stream_id_by_circ circ).1 = 0) :
    (connection_ap_handshake_send_begin be aton rps sws dns now ap_conn circ
      send_ret).2.1.has_sent_end = true ∧
    (connection_ap_handshake_send_resolve ap_conn circ send_ret).2.1.has_sent_end = true := by
  unfold connection_ap_handshake_send_begin connection_ap_handshake_send_resolve
  simp only [hid, if_true, connection_mark_for_close]
  exact ⟨trivial, trivial⟩

/-- The flag `has_sent_end` after an attach that finds a circuit with a free
stream id: what it was. -/
theorem attach_found_has_sent_end (env : edge_env) (now : Int) (w : edge_world)
    (c : circuit_t) (send_ret : Int) (hnext : c.next_stream_id < 2 ^ 16)
    (hfree : ∃ id : Nat, 0 < id ∧ id < 2 ^ 16 ∧ id ≠ w.conn.stream_id ∧
      ∀ s ∈ c.p_streams, s.stream_id ≠ id) :
    (connection_ap_handshake_attach_circuit env (attach_outcome.found c send_ret) now
        w).2.conn.has_sent_end = w.conn.has_sent_end ∧
    (connection_ap_handshake_attach_circuit env (attach_outcome.found c send_ret) now w).1
      = 1 := by
  obtain ⟨id, h0, h16, hself, hothers⟩ := hfree
  have hid : (get_unique_stream_id_by_circ
      { c with p_streams := w.conn :: c.p_streams }).1 ≠ 0 := by
    refine get_unique_stream_id_ne_zero { c with p_streams := w.conn :: c.p_streams } hnext
      ⟨id, h0, h16, ?_⟩
    intro s hs
    rcases List.mem_cons.mp hs with h | h
    · rw [h]; exact fun e => hself e.symm
    · exact hothers s h
  rw [attach_found_eq]
  split_ifs
  · refine ⟨?_, rfl⟩
    show (connection_ap_handshake_send_begin _ _ _ _ _ _ _ _ _).2.1.has_sent_end = _
    rw [send_begin_of_id _ _ _ _ _ _ _ _ _ hid]
    split_ifs <;> rfl
  · refine ⟨?_, rfl⟩
    show (connection_ap_handshake_send_resolve _ _ _).2.1.has_sent_end = _
    rw [send_resolve_of_id _ _ _ hid]
    split_ifs <;> rfl

/-- The flag `has_sent_end` after an attach that finds a circuit without a free
stream id: set. -/
theorem attach_full_has_sent_end (env : edge_env) (now : Int) (w : edge_world)
    (c : circuit_t) (send_ret : Int) (hnext : c.next_stream_id < 2 ^ 16)
    (hall : ∀ id : Nat, 0 < id → id < 2 ^ 16 →
      id = w.conn.stream_id ∨ ∃ s ∈ c.p_streams, s.stream_id = id) :
    (connection_ap_handshake_attach_circuit env (attach_outcome.found c send_ret) now
        w).2.conn.has_sent_end = true ∧
    (connection_ap_handshake_attach_circuit env (attach_outcome.found c send_ret) now w).1
      = 1 := by
  have hid : (get_unique_stream_id_by_circ
      { c with p_streams := w.conn :: c.p_streams }).1 = 0 := by
    refine get_unique_stream_id_zero { c with p_streams := w.conn :: c.p_streams } hnext ?_
    intro id h0 h16
    rcases hall id h0 h16 with h | ⟨s, hs, hsid⟩
    · exact ⟨w.conn, List.mem_cons_self _ _, h.symm⟩
    · exact ⟨s, List.mem_cons_of_mem _ hs, hsid⟩
  have hs := send_of_no_id env.big_endian env.tor_inet_aton env.RELAY_PAYLOAD_SIZE
    env.STREAMWINDOW_START w.dns now w.conn { c with p_streams := w.conn :: c.p_streams }
    send_ret hid
  rw [attach_found_eq]
  split_ifs
  · exact ⟨hs.1, rfl⟩
  · exact ⟨hs.2, rfl⟩

/-- C13, as stated, fails.  The AP stream `retry_world` waits in CONNECT_WAIT on
a general-purpose circuit since second 100.  Retried at second 200 it gets
`timestamp_lastread` 115, which is 85 seconds in the past; retried at second
115 with an attach that fails for good it is left with `has_sent_end` set. -/
theorem C13_retry_not_fresh :
    retry_world.conn.type = conn_type.CONN_TYPE_AP ∧
    retry_world.conn.state = conn_state.AP_CONN_STATE_CONNECT_WAIT ∧
    retry_world.conn.timestamp_lastread = 100 ∧
    (connection_ap_expire_beginning retry_env attach_outcome.not_yet 200
        retry_world).1.conn.timestamp_lastread = 115 ∧
    ¬ (200 - (connection_ap_expire_beginning retry_env attach_outcome.not_yet 200
        retry_world).1.conn.timestamp_lastread ≤ 15) ∧
    ¬ ((connection_ap_expire_beginning retry_env attach_outcome.never 115
        retry_world).1.conn.has_sent_end = false) := by
  decide

/-- C13, amended.  When `connection_ap_expire_beginning` retries an AP stream
in CONNECT_WAIT or RESOLVE_WAIT on a general-purpose circuit
(`now - timestamp_lastread ≥ 15`), it re-attempts the attach for a stream whose
`has_sent_end` is clear and whose `timestamp_lastread` is 15 higher than it
was, so that `now - timestamp_lastread ≤ 15` holds at that point exactly when
the stream had waited at most 30 seconds.  When the attach finds no circuit yet
the sweep leaves the stream in that state.  When the attach fails for good the
sweep leaves it with `has_sent_end` set and marked for close.  When the attach
puts the stream on a circuit with a free stream id, `has_sent_end` is clear
after the sweep.  Nothing is said of `timestamp_lastread` after an attach that
finds a circuit. -/
theorem C13_retry_freshness (env : edge_env) (attach : attach_outcome) (now : Int)
    (w : edge_world) (circ : circuit_t)
    (hap : w.conn.type = conn_type.CONN_TYPE_AP)
    (hstate : w.conn.state = conn_state.AP_CONN_STATE_CONNECT_WAIT ∨
      w.conn.state = conn_state.AP_CONN_STATE_RESOLVE_WAIT)
    (hlate : 15 ≤ now - w.conn.timestamp_lastread)
    (hcirc : w.circ = some circ)
    (hgen : circ.purpose = circuit_purpose.CIRCUIT_PURPOSE_C_GENERAL) :
    (connection_ap_expire_beginning env attach now w).1
      = (if (connection_ap_handshake_attach_circuit env attach now
              (timeout_retry_world env w)).1 < 0 then
          { (connection_ap_handshake_attach_circuit env attach now
                (timeout_retry_world env w)).2 with
            conn := connection_mark_for_close
              { (connection_ap_handshake_attach_circuit env attach now
                  (timeout_retry_world env w)).2.conn with has_sent_end := true } }
        else
          (connection_ap_handshake_attach_circuit env attach now
            (timeout_retry_world env w)).2) ∧
    (timeout_retry_world env w).conn.has_sent_end = false ∧
    (timeout_retry_world env w).conn.timestamp_lastread = w.conn.timestamp_lastread + 15 ∧
    (now - (timeout_retry_world env w).conn.timestamp_lastread ≤ 15
      ↔ now - w.conn.timestamp_lastread ≤ 30) ∧
    (attach = attach_outcome.not_yet →
      (connection_ap_expire_beginning env attach now w).1 = timeout_retry_world env w ∧
      (connection_ap_expire_beginning env attach now w).1.conn.has_sent_end = false ∧
      (connection_ap_expire_beginning env attach now w).1.conn.timestamp_lastread
        = w.conn.timestamp_lastread + 15 ∧
      (now - (connection_ap_expire_beginning env attach now w).1.conn.timestamp_lastread ≤ 15
        ↔ now - w.conn.timestamp_lastread ≤ 30)) ∧
    (attach = attach_outcome.never →
      (connection_ap_expire_beginning env attach now w).1.conn.has_sent_end = true ∧
      (connection_ap_expire_beginning env attach now w).1.conn.marked_for_close = true) ∧
    (∀ (c : circuit_t) (send_ret : Int), attach = attach_outcome.found c send_ret →
      c.next_stream_id < 2 ^ 16 →
      (∃ id : Nat, 0 < id ∧ id < 2 ^ 16 ∧ id ≠ w.conn.stream_id ∧
        ∀ s ∈ c.p_streams, s.stream_id ≠ id) →
      (connection_ap_expire_beginning env attach now w).1.conn.has_sent_end = false) := by
  have hrun : (connection_ap_expire_beginning env attach now w).1
      = (if (connection_ap_handshake_attach_circuit env attach now
              (timeout_retry_world env w)).1 < 0 then
          { (connection_ap_handshake_attach_circuit env attach now
                (timeout_retry_world env w)).2 with
            conn := connection_mark_for_close
              { (connection_ap_handshake_attach_circuit env attach now
                  (timeout_retry_world env w)).2.conn with has_sent_end := true } }
        else
          (connection_ap_handshake_attach_circuit env attach now
            (timeout_retry_world env w)).2) := by
    rw [expire_beginning_eq_retry env attach now w circ hap hstate hlate hcirc hgen,
      expire_beginning_retry_eq]
  have hts : (timeout_retry_world env w).conn.timestamp_lastread
      = w.conn.timestamp_lastread + 15 := rfl
  have hiff : now - (timeout_retry_world env w).conn.timestamp_lastread ≤ 15
      ↔ now - w.conn.timestamp_lastread ≤ 30 := by
    rw [hts]; constructor <;> intro h <;> omega
  refine ⟨hrun, rfl, hts, hiff, ?_, ?_, ?_⟩
  · intro ha
    subst ha
    have hsame : (connection_ap_expire_beginning env attach_outcome.not_yet now w).1
        = timeout_retry_world env w := by
      rw [hrun]
      simp [connection_ap_handshake_attach_circuit]
    rw [hsame]
    exact ⟨rfl, rfl, hts, hiff⟩
  · intro ha
    subst ha
    rw [hrun]
    simp [connection_ap_handshake_attach_circuit, connection_mark_for_close]
  · intro c send_ret ha hnext hfree
    subst ha
    have h := attach_found_has_sent_end env now (timeout_retry_world env w) c send_ret hnext
      hfree
    rw [hrun]
    simp only [h.2]
    rw [if_neg (by decide)]
    rw [h.1]
    rfl

/-- C13 amended, the run of the spec: a stream that is 16 seconds late is
retried at second 116 while no circuit is ready; after the sweep it has
`timestamp_lastread` 115, one second in the past, and `has_sent_end` clear. -/
theorem C13_retry_freshness_witness :
    (connection_ap_expire_beginning retry_env attach_outcome.not_yet 116
        retry_world).1.conn.timestamp_lastread = 100 + 15 ∧
    (connection_ap_expire_beginning retry_env attach_outcome.not_yet 116
        retry_world).1.conn.has_sent_end = false :=
  have h := (C13_retry_freshness retry_env attach_outcome.not_yet 116 retry_world
    { n_circ_id := 1, timestamp_dirty := 90, next_stream_id := 6 }
    rfl (Or.inl rfl) (by decide) rfl rfl).2.2.2.2.1 rfl
  ⟨h.2.2.1, h.2.1⟩


/-- The stream after `connection_edge_end`: `has_sent_end` is set, nothing else
has changed. -/
theorem connection_edge_end_conn (be : Bool) (conn : connection_t) (reason : Nat)
    (cpath : Option Nat) (circ : Option circuit_t) :
    (connection_edge_end be conn reason cpath circ).2.1 = { conn with has_sent_end := true } := by
  unfold connection_edge_end
  by_cases hs : conn.has_sent_end = true
  · rw [if_pos hs]
    cases conn
    simp only at hs
    simp only [hs]
  · rw [if_neg hs]

/-- C15, as stated, fails: an AP stream in CONNECT_WAIT on a joined rendezvous
circuit, with `now - timestamp_lastread` exactly 45, is left as it is by the
sweep: no END cell is sent and the stream is not marked for close. -/
theorem C15_rend_at_45_seconds :
    (145 : Int) - retry_world.conn.timestamp_lastread = 45 ∧
    (connection_ap_expire_beginning retry_env attach_outcome.not_yet 145
        { retry_world with
            circ := some { n_circ_id := 1,
                           purpose := circuit_purpose.CIRCUIT_PURPOSE_C_REND_JOINED } }).1.sent
      = [] ∧
    (connection_ap_expire_beginning retry_env attach_outcome.not_yet 145
        { retry_world with
            circ := some { n_circ_id := 1,
                           purpose := circuit_purpose.CIRCUIT_PURPOSE_C_REND_JOINED }
        }).1.conn.marked_for_close = false := by
  decide

/-- C15, amended.  For every AP stream in CONNECT_WAIT or RESOLVE_WAIT whose
circuit is a joined rendezvous circuit (purpose C_REND_JOINED): if
`now - timestamp_lastread > 45`, `connection_ap_expire_beginning` calls
`connection_edge_end` with reason TIMEOUT, which sends the END cell when the
stream has not sent one and the circuit is not marked for close, and marks the
stream for close with `has_sent_end` set; if `now - timestamp_lastread ≤ 45` it
leaves the stream as it is; and in no case does the sweep change the state of
the stream or take it off the circuit. -/
theorem C15_rend_give_up (env : edge_env) (attach : attach_outcome) (now : Int)
    (w : edge_world) (circ : circuit_t)
    (hap : w.conn.type = conn_type.CONN_TYPE_AP)
    (hstate : w.conn.state = conn_state.AP_CONN_STATE_CONNECT_WAIT ∨
      w.conn.state = conn_state.AP_CONN_STATE_RESOLVE_WAIT)
    (hcirc : w.circ = some circ)
    (hrend : circ.purpose = circuit_purpose.CIRCUIT_PURPOSE_C_REND_JOINED) :
    (45 < now - w.conn.timestamp_lastread →
      (connection_ap_expire_beginning env attach now w).1.conn
        = { w.conn with has_sent_end := true, marked_for_close := true } ∧
      (w.conn.has_sent_end = false → circ.marked_for_close = false →
        (connection_ap_expire_beginning env attach now w).1.sent
          = w.sent ++ [end_cell w.conn circ END_STREAM_REASON_TIMEOUT]) ∧
      ((w.conn.has_sent_end = true ∨ circ.marked_for_close = true) →
        (connection_ap_expire_beginning env attach now w).1.sent = w.sent)) ∧
    (now - w.conn.timestamp_lastread ≤ 45 →
      connection_ap_expire_beginning env attach now w = (w, some circ)) ∧
    (connection_ap_expire_beginning env attach now w).1.conn.state = w.conn.state ∧
    (connection_ap_expire_beginning env attach now w).1.circ = w.circ ∧
    (connection_ap_expire_beginning env attach now w).2 = some circ := by
  have h1 : ¬ (w.conn.type ≠ conn_type.CONN_TYPE_AP) := not_not.mpr hap
  have h2 : ¬ (w.conn.state ≠ conn_state.AP_CONN_STATE_RESOLVE_WAIT ∧
      w.conn.state ≠ conn_state.AP_CONN_STATE_CONNECT_WAIT) := by
    rintro ⟨ha, hb⟩
    rcases hstate with h | h
    · exact hb h
    · exact ha h
  have hlong : 45 < now - w.conn.timestamp_lastread →
      connection_ap_expire_beginning env attach now w
        = ({ (connection_edge_end_w env END_STREAM_REASON_TIMEOUT w).2 with
              conn := connection_mark_for_close
                (connection_edge_end_w env END_STREAM_REASON_TIMEOUT w).2.conn }, some circ) := by
    intro h45
    have h3 : ¬ (now - w.conn.timestamp_lastread < 15) := by omega
    unfold connection_ap_expire_beginning
    simp only
    rw [if_neg h1, if_neg h2, if_neg h3, hcirc]
    simp only
    rw [if_pos hrend, if_pos h45]
  have hshort : now - w.conn.timestamp_lastread ≤ 45 →
      connection_ap_expire_beginning env attach now w = (w, some circ) := by
    intro h45
    unfold connection_ap_expire_beginning
    simp only
    rw [if_neg h1, if_neg h2]
    by_cases h3 : now - w.conn.timestamp_lastread < 15
    · rw [if_pos h3, hcirc]
    · rw [if_neg h3, hcirc]
      simp only
      rw [if_pos hrend, if_neg (by omega)]
  have hconn : (connection_mark_for_close
      (connection_edge_end_w env END_STREAM_REASON_TIMEOUT w).2.conn)
      = { w.conn with has_sent_end := true, marked_for_close := true } := by
    unfold connection_edge_end_w
    simp only [connection_edge_end_conn, connection_mark_for_close]
  refine ⟨?_, hshort, ?_, ?_, ?_⟩
  · intro h45
    rw [hlong h45]
    refine ⟨hconn, ?_, ?_⟩
    · intro hsent hmark
      show (connection_edge_end_w env END_STREAM_REASON_TIMEOUT w).2.sent = _
      unfold connection_edge_end_w
      simp only
      rw [hcirc, connection_edge_end_cells env.big_endian w.conn END_STREAM_REASON_TIMEOUT circ
        hsent hmark (by decide)]
    · intro hor
      show (connection_edge_end_w env END_STREAM_REASON_TIMEOUT w).2.sent = _
      unfold connection_edge_end_w connection_edge_end
      simp only
      rw [hcirc]
      rcases hor with hs | hm
      · simp [hs]
      · split_ifs <;> simp [hm]
  · by_cases h45 : 45 < now - w.conn.timestamp_lastread
    · rw [hlong h45]
      show (connection_mark_for_close
        (connection_edge_end_w env END_STREAM_REASON_TIMEOUT w).2.conn).state = _
      rw [hconn]
    · rw [hshort (by omega)]
  · by_cases h45 : 45 < now - w.conn.timestamp_lastread
    · rw [hlong h45]
      rfl
    · rw [hshort (by omega)]
  · by_cases h45 : 45 < now - w.conn.timestamp_lastread
    · rw [hlong h45]
    · rw [hshort (by omega)]

/-- C15 amended, a concrete run: 46 seconds late on the joined rendezvous
circuit 1, the stream gets one END cell with reason TIMEOUT and is marked for
close. -/
theorem C15_rend_give_up_witness :
    (connection_ap_expire_beginning retry_env attach_outcome.not_yet 146
        { retry_world with
            circ := some { n_circ_id := 1,
                           purpose := circuit_purpose.CIRCUIT_PURPOSE_C_REND_JOINED } }).1.conn
      = { retry_world.conn with has_sent_end := true, marked_for_close := true } ∧
    (connection_ap_expire_beginning retry_env attach_outcome.not_yet 146
        { retry_world with
            circ := some { n_circ_id := 1,
                           purpose := circuit_purpose.CIRCUIT_PURPOSE_C_REND_JOINED } }).1.sent
      = [] ++ [{ circ_id := 1, stream_id := 5, relay_command := relay_command.RELAY_COMMAND_END,
                 payload := [7], cpath_layer := none }] :=
  have h := (C15_rend_give_up retry_env attach_outcome.not_yet 146
    { retry_world with
        circ := some { n_circ_id := 1,
                       purpose := circuit_purpose.CIRCUIT_PURPOSE_C_REND_JOINED } }
    { n_circ_id := 1, purpose := circuit_purpose.CIRCUIT_PURPOSE_C_REND_JOINED }
    rfl (Or.inl rfl) rfl rfl).1 (by decide)
  ⟨h.1, h.2.1 rfl rfl⟩


/-! ## BEGIN and RESOLVE -/

/-- C16, as stated, fails for RESOLVE: a stream in CIRCUIT_WAIT whose windows
are 0 is sent down a circuit with free stream ids by
`connection_ap_handshake_send_resolve`, with `STREAMWINDOW_START` being 500; the
call succeeds and leaves the stream in RESOLVE_WAIT with both windows still 0. -/
theorem C16_resolve_leaves_windows :
    (connection_ap_handshake_send_resolve
        { state := conn_state.AP_CONN_STATE_CIRCUIT_WAIT,
          socks_request := { command := SOCKS_COMMAND_RESOLVE, address := "example.com".toList } }
        { n_circ_id := 2, next_stream_id := 1 } 0).1 = 0 ∧
    (connection_ap_handshake_send_resolve
        { state := conn_state.AP_CONN_STATE_CIRCUIT_WAIT,
          socks_request := { command := SOCKS_COMMAND_RESOLVE, address := "example.com".toList } }
        { n_circ_id := 2, next_stream_id := 1 } 0).2.1.state
      = conn_state.AP_CONN_STATE_RESOLVE_WAIT ∧
    (connection_ap_handshake_send_resolve
        { state := conn_state.AP_CONN_STATE_CIRCUIT_WAIT,
          socks_request := { command := SOCKS_COMMAND_RESOLVE, address := "example.com".toList } }
        { n_circ_id := 2, next_stream_id := 1 } 0).2.1.package_window = 0 ∧
    (connection_ap_handshake_send_resolve
        { state := conn_state.AP_CONN_STATE_CIRCUIT_WAIT,
          socks_request := { command := SOCKS_COMMAND_RESOLVE, address := "example.com".toList } }
        { n_circ_id := 2, next_stream_id := 1 } 0).2.1.deliver_window ≠ (500 : Int) := by
  decide

/-- C16, amended.  For every AP stream and circuit with a free stream id on
which the relay cell is sent successfully,
`connection_ap_handshake_send_begin` returns 0 and leaves the stream in
CONNECT_WAIT with `package_window` and `deliver_window` equal to
`STREAMWINDOW_START`; `connection_ap_handshake_send_resolve` returns 0 and
leaves the stream in RESOLVE_WAIT with both windows as they were. -/
theorem C16_state_and_windows (big_endian : Bool) (tor_inet_aton : CStr → Option Nat)
    (RELAY_PAYLOAD_SIZE : Nat) (STREAMWINDOW_START : Int) (dns : client_dns) (now : Int)
    (ap_conn : connection_t) (circ : circuit_t) (send_ret : Int)
    (hnext : circ.next_stream_id < 2 ^ 16)
    (hfree : ∃ id : Nat, 0 < id ∧ id < 2 ^ 16 ∧ ∀ c ∈ circ.p_streams, c.stream_id ≠ id)
    (hsend : 0 ≤ send_ret) :
    ((connection_ap_handshake_send_begin big_endian tor_inet_aton RELAY_PAYLOAD_SIZE
        STREAMWINDOW_START dns now ap_conn circ send_ret).1 = 0 ∧
      (connection_ap_handshake_send_begin big_endian tor_inet_aton RELAY_PAYLOAD_SIZE
        STREAMWINDOW_START dns now ap_conn circ send_ret).2.1.state
        = conn_state.AP_CONN_STATE_CONNECT_WAIT ∧
      (connection_ap_handshake_send_begin big_endian tor_inet_aton RELAY_PAYLOAD_SIZE
        STREAMWINDOW_START dns now ap_conn circ send_ret).2.1.package_window
        = STREAMWINDOW_START ∧
      (connection_ap_handshake_send_begin big_endian tor_inet_aton RELAY_PAYLOAD_SIZE
        STREAMWINDOW_START dns now ap_conn circ send_ret).2.1.deliver_window
        = STREAMWINDOW_START) ∧
    ((connection_ap_handshake_send_resolve ap_conn circ send_ret).1 = 0 ∧
      (connection_ap_handshake_send_resolve ap_conn circ send_ret).2.1.state
        = conn_state.AP_CONN_STATE_RESOLVE_WAIT ∧
      (connection_ap_handshake_send_resolve ap_conn circ send_ret).2.1.package_window
        = ap_conn.package_window ∧
      (connection_ap_handshake_send_resolve ap_conn circ send_ret).2.1.deliver_window
        = ap_conn.deliver_window) := by
  have hid := get_unique_stream_id_ne_zero circ hnext hfree
  have hneg : ¬ (send_ret < 0) := by omega
  constructor
  · have h1 : (connection_ap_handshake_send_begin big_endian tor_inet_aton RELAY_PAYLOAD_SIZE
        STREAMWINDOW_START dns now ap_conn circ send_ret).1 = 0 := by
      unfold connection_ap_handshake_send_begin
      simp only [hid, if_false, connection_edge_send_command, hneg]
    rw [send_begin_of_id _ _ _ _ _ _ _ _ _ hid, if_neg hneg]
    exact ⟨h1, rfl, rfl, rfl⟩
  · have h1 : (connection_ap_handshake_send_resolve ap_conn circ send_ret).1 = 0 := by
      unfold connection_ap_handshake_send_resolve
      simp only [hid, if_false, connection_edge_send_command, hneg]
    rw [send_resolve_of_id _ _ _ hid, if_neg hneg]
    exact ⟨h1, rfl, rfl, rfl⟩

/-- C16 amended, a concrete run: BEGIN for "example.com:80" on a circuit with
free stream ids leaves the stream in CONNECT_WAIT with both windows at 500. -/
theorem C16_state_and_windows_witness :
    (connection_ap_handshake_send_begin false (inet_aton_dotted false) 498 500 client_dns_init 0
        { state := conn_state.AP_CONN_STATE_CIRCUIT_WAIT,
          socks_request := { address := "example.com".toList, port := 80 } }
        { n_circ_id := 2, next_stream_id := 1 } 0).2.1.state
      = conn_state.AP_CONN_STATE_CONNECT_WAIT ∧
    (connection_ap_handshake_send_begin false (inet_aton_dotted false) 498 500 client_dns_init 0
        { state := conn_state.AP_CONN_STATE_CIRCUIT_WAIT,
          socks_request := { address := "example.com".toList, port := 80 } }
        { n_circ_id := 2, next_stream_id := 1 } 0).2.1.package_window = 500 :=
  have h := (C16_state_and_windows false (inet_aton_dotted false) 498 500 client_dns_init 0
    { state := conn_state.AP_CONN_STATE_CIRCUIT_WAIT,
      socks_request := { address := "example.com".toList, port := 80 } }
    { n_circ_id := 2, next_stream_id := 1 } 0
    (by decide) ⟨1, by decide, by decide, by decide⟩ (by decide)).1
  ⟨h.2.1, h.2.2.1⟩

theorem htonl_eq_zero_iff (big_endian : Bool) (a : Nat) (ha : a < 2 ^ 32) :
    htonl big_endian a = 0 ↔ a = 0 := by
  cases big_endian
  · simp only [htonl, bswap32, Bool.false_eq_true, if_false]
    norm_num at ha ⊢
    omega
  · simp only [htonl, if_true]
    norm_num at ha ⊢
    omega

theorem inet_ntoa_htonl (big_endian : Bool) (a : Nat) :
    inet_ntoa big_endian (htonl big_endian a) = dotted_quad a := by
  unfold inet_ntoa dotted_quad
  rw [uint32_bytes_htonl]

/-- The cell that `connection_ap_handshake_send_begin` sends once a stream id
has been found, in terms of the text that `tor_snprintf` has written. -/
theorem send_begin_cells (be : Bool) (aton : CStr → Option Nat) (rps : Nat) (sws : Int)
    (dns : client_dns) (now : Int) (ap_conn : connection_t) (circ : circuit_t) (send_ret : Int)
    (hid : (get_unique_stream_id_by_circ circ).1 ≠ 0) :
    (connection_ap_handshake_send_begin be aton rps sws dns now ap_conn circ send_ret).2.2.2.2
      = [{ circ_id := circ.n_circ_id,
           stream_id := (get_unique_stream_id_by_circ circ).1,
           relay_command := relay_command.RELAY_COMMAND_BEGIN,
           payload :=
             cstr_bytes
               (if circ.purpose = circuit_purpose.CIRCUIT_PURPOSE_C_GENERAL then
                 tor_snprintf rps
                   ((if htonl be (client_dns_lookup_entry be aton dns
                          ap_conn.socks_request.address now).1 ≠ 0 then
                       inet_ntoa be (htonl be (client_dns_lookup_entry be aton dns
                          ap_conn.socks_request.address now).1)
                     else ap_conn.socks_request.address)
                     ++ ':' :: decimal ap_conn.socks_request.port)
               else tor_snprintf rps (':' :: decimal ap_conn.socks_request.port)) ++ [0],
           cpath_layer := ap_conn.cpath_layer }] := by
  unfold connection_ap_handshake_send_begin
  simp only [hid, if_false, connection_edge_send_command]
  have hp : (get_unique_stream_id_by_circ circ).2.purpose = circ.purpose := rfl
  have hn : (get_unique_stream_id_by_circ circ).2.n_circ_id = circ.n_circ_id := rfl
  rw [hp, hn]
  split_ifs <;> rfl

/-- C17. BEGIN payload.  Let `A` and `P` be the SOCKS address and port of the
stream, on a circuit with a free stream id.  On a general-purpose circuit the
BEGIN cell carries the bytes of `X ++ ":" ++ P` followed by one NUL, where `X`
is the dotted-quad text of `client_dns_lookup_entry(A)` when that is non-zero
and `A` otherwise, provided the text is shorter than `RELAY_PAYLOAD_SIZE`; on
any other circuit it carries `":" ++ P` followed by one NUL.  In both cases the
payload is one byte longer than the text. -/
theorem C17_begin_payload (big_endian : Bool) (tor_inet_aton : CStr → Option Nat)
    (RELAY_PAYLOAD_SIZE : Nat) (STREAMWINDOW_START : Int) (dns : client_dns) (now : Int)
    (ap_conn : connection_t) (circ : circuit_t) (send_ret : Int)
    (hnext : circ.next_stream_id < 2 ^ 16)
    (hfree : ∃ id : Nat, 0 < id ∧ id < 2 ^ 16 ∧ ∀ c ∈ circ.p_streams, c.stream_id ≠ id)
    (hlook : (client_dns_lookup_entry big_endian tor_inet_aton dns
      ap_conn.socks_request.address now).1 < 2 ^ 32) :
    (circ.purpose = circuit_purpose.CIRCUIT_PURPOSE_C_GENERAL →
      ((if (client_dns_lookup_entry big_endian tor_inet_aton dns
              ap_conn.socks_request.address now).1 ≠ 0 then
          dotted_quad (client_dns_lookup_entry big_endian tor_inet_aton dns
              ap_conn.socks_request.address now).1
        else ap_conn.socks_request.address)
        ++ ':' :: decimal ap_conn.socks_request.port).length < RELAY_PAYLOAD_SIZE →
      ∃ cell : relay_cell,
        (connection_ap_handshake_send_begin big_endian tor_inet_aton RELAY_PAYLOAD_SIZE
          STREAMWINDOW_START dns now ap_conn circ send_ret).2.2.2.2 = [cell] ∧
        cell.relay_command = relay_command.RELAY_COMMAND_BEGIN ∧
        cell.circ_id = circ.n_circ_id ∧
        cell.payload
          = cstr_bytes
              ((if (client_dns_lookup_entry big_endian tor_inet_aton dns
                      ap_conn.socks_request.address now).1 ≠ 0 then
                  dotted_quad (client_dns_lookup_entry big_endian tor_inet_aton dns
                      ap_conn.socks_request.address now).1
                else ap_conn.socks_request.address)
                ++ ':' :: decimal ap_conn.socks_request.port) ++ [0] ∧
        cell.payload.length
          = ((if (client_dns_lookup_entry big_endian tor_inet_aton dns
                    ap_conn.socks_request.address now).1 ≠ 0 then
                dotted_quad (client_dns_lookup_entry big_endian tor_inet_aton dns
                    ap_conn.socks_request.address now).1
              else ap_conn.socks_request.address)
              ++ ':' :: decimal ap_conn.socks_request.port).length + 1) ∧
    (circ.purpose ≠ circuit_purpose.CIRCUIT_PURPOSE_C_GENERAL →
      (':' :: decimal ap_conn.socks_request.port).length < RELAY_PAYLOAD_SIZE →
      ∃ cell : relay_cell,
        (connection_ap_handshake_send_begin big_endian tor_inet_aton RELAY_PAYLOAD_SIZE
          STREAMWINDOW_START dns now ap_conn circ send_ret).2.2.2.2 = [cell] ∧
        cell.relay_command = relay_command.RELAY_COMMAND_BEGIN ∧
        cell.circ_id = circ.n_circ_id ∧
        cell.payload = cstr_bytes (':' :: decimal ap_conn.socks_request.port) ++ [0] ∧
        cell.payload.length = (':' :: decimal ap_conn.socks_request.port).length + 1) := by
  have hid := get_unique_stream_id_ne_zero circ hnext hfree
  have hcells := send_begin_cells big_endian tor_inet_aton RELAY_PAYLOAD_SIZE STREAMWINDOW_START
    dns now ap_conn circ send_ret hid
  have htake : ∀ t : CStr, t.length < RELAY_PAYLOAD_SIZE →
      tor_snprintf RELAY_PAYLOAD_SIZE t = t := by
    intro t ht
    unfold tor_snprintf
    exact List.take_of_length_le (by omega)
  constructor
  · intro hgen hfit
    have hx : (if htonl big_endian (client_dns_lookup_entry big_endian tor_inet_aton dns
            ap_conn.socks_request.address now).1 ≠ 0 then
          inet_ntoa big_endian (htonl big_endian (client_dns_lookup_entry big_endian
            tor_inet_aton dns ap_conn.socks_request.address now).1)
        else ap_conn.socks_request.address)
        = (if (client_dns_lookup_entry big_endian tor_inet_aton dns
              ap_conn.socks_request.address now).1 ≠ 0 then
            dotted_quad (client_dns_lookup_entry big_endian tor_inet_aton dns
              ap_conn.socks_request.address now).1
          else ap_conn.socks_request.address) := by
      rw [inet_ntoa_htonl]
      by_cases h0 : (client_dns_lookup_entry big_endian tor_inet_aton dns
          ap_conn.socks_request.address now).1 = 0
      · have := (htonl_eq_zero_iff big_endian _ hlook).mpr h0
        rw [if_neg (not_not.mpr this), if_neg (not_not.mpr h0)]
      · have : htonl big_endian (client_dns_lookup_entry big_endian tor_inet_aton dns
            ap_conn.socks_request.address now).1 ≠ 0 :=
          fun h => h0 ((htonl_eq_zero_iff big_endian _ hlook).mp h)
        rw [if_pos this, if_pos h0]
    rw [if_pos hgen, hx, htake _ hfit] at hcells
    refine ⟨_, hcells, rfl, rfl, rfl, ?_⟩
    simp only [cstr_bytes, List.length_append, List.length_map, List.length_singleton]
  · intro hgen hfit
    rw [if_neg hgen, htake _ hfit] at hcells
    refine ⟨_, hcells, rfl, rfl, rfl, ?_⟩
    simp only [cstr_bytes, List.length_append, List.length_map, List.length_singleton]

/-- C17, the run of the spec: the cache knows "example.com" as 1.2.3.4; BEGIN on
a general-purpose circuit carries "1.2.3.4:80" and a NUL, eleven bytes. -/
theorem C17_begin_payload_witness :
    ∃ cell : relay_cell,
      (connection_ap_handshake_send_begin false (inet_aton_dotted false) 498 500
          { client_dns_size := 1,
            client_dns_map := [("example.com".toList,
              { addr := 16909060, expires := 1900, n_failures := 0 })] } 1000
          { state := conn_state.AP_CONN_STATE_CIRCUIT_WAIT,
            socks_request := { address := "example.com".toList, port := 80 } }
          { n_circ_id := 2, next_stream_id := 1 } 0).2.2.2.2 = [cell] ∧
      cell.payload = cstr_bytes "1.2.3.4:80".toList ++ [0] ∧
      cell.payload.length = 11 :=
  have h := (C17_begin_payload false (inet_aton_dotted false) 498 500
    { client_dns_size := 1,
      client_dns_map := [("example.com".toList,
        { addr := 16909060, expires := 1900, n_failures := 0 })] } 1000
    { state := conn_state.AP_CONN_STATE_CIRCUIT_WAIT,
      socks_request := { address := "example.com".toList, port := 80 } }
    { n_circ_id := 2, next_stream_id := 1 } 0
    (by decide) ⟨1, by decide, by decide, by decide⟩ (by decide)).1 rfl (by decide)
  h.elim fun cell hc => ⟨cell, hc.1, hc.2.2.2.1, hc.2.2.2.2⟩


/-! ## The exit side: redirects and CONNECTED -/

theorem exit_redirect_target_first (addr port : Nat) (pre : List exit_redirect_t)
    (r : exit_redirect_t) (post : List exit_redirect_t)
    (hpre : ∀ q ∈ pre, ¬ exit_redirect_matches addr port q)
    (hr : exit_redirect_matches addr port r) :
    exit_redirect_target addr port (pre ++ r :: post)
      = (if r.is_redirect then (r.addr_dest, r.port_dest) else (addr, port)) := by
  induction pre with
  | nil =>
    unfold exit_redirect_matches at hr
    simp only [List.nil_append, exit_redirect_target]
    rw [if_pos hr]
  | cons q pre ih =>
    have hq := hpre q (List.mem_cons_self _ _)
    unfold exit_redirect_matches at hq
    simp only [List.cons_append, exit_redirect_target]
    rw [if_neg hq]
    exact ih (fun x hx => hpre x (List.mem_cons_of_mem _ hx))

theorem exit_redirect_target_none (addr port : Nat) (l : List exit_redirect_t)
    (hl : ∀ q ∈ l, ¬ exit_redirect_matches addr port q) :
    exit_redirect_target addr port l = (addr, port) := by
  induction l with
  | nil => rfl
  | cons q l ih =>
    have hq := hl q (List.mem_cons_self _ _)
    unfold exit_redirect_matches at hq
    simp only [exit_redirect_target]
    rw [if_neg hq]
    exact ih (fun x hx => hl x (List.mem_cons_of_mem _ hx))

/-- C18. Redirect table, first match wins.  Unless the exit policy rejects the
stream, `connection_exit_connect` calls `connection_connect` once, with the
target that the loop over `redirect_exit_list` yields for the stream's
`(addr, port)`.  With a first matching rule `r` (no rule before it in the list
matches) the target is `(r.addr_dest, r.port_dest)` if `r.is_redirect` is set
and `(addr, port)` if not, whatever rules follow `r`; with no matching rule, or
no list, the target is `(addr, port)`. -/
theorem C18_redirect_first_match (env : edge_env) (policy_rejected : Bool)
    (connect_ret send_ret : Int) (w : edge_world) :
    (¬ (connection_edge_is_rendezvous_stream w.conn = false ∧ policy_rejected = true) →
      (connection_exit_connect env policy_rejected connect_ret send_ret w).connects
        = w.connects ++
          [(w.conn.address,
            match env.redirect_exit_list with
            | some l => exit_redirect_target w.conn.addr w.conn.port l
            | none => (w.conn.addr, w.conn.port))]) ∧
    (∀ (addr port : Nat) (pre : List exit_redirect_t) (r : exit_redirect_t)
        (post : List exit_redirect_t),
      (∀ q ∈ pre, ¬ exit_redirect_matches addr port q) → exit_redirect_matches addr port r →
      exit_redirect_target addr port (pre ++ r :: post)
        = (if r.is_redirect then (r.addr_dest, r.port_dest) else (addr, port))) ∧
    (∀ (addr port : Nat) (l : List exit_redirect_t),
      (∀ q ∈ l, ¬ exit_redirect_matches addr port q) →
      exit_redirect_target addr port l = (addr, port)) := by
  refine ⟨?_, exit_redirect_target_first, exit_redirect_target_none⟩
  intro hpol
  have hcond : ¬ (¬ (connection_edge_is_rendezvous_stream w.conn = true) ∧
      policy_rejected = true) := by
    rintro ⟨h1, h2⟩
    exact hpol ⟨by simpa using h1, h2⟩
  have hkeep : ∀ reason : Nat, ∀ v : edge_world,
      (connection_free (circuit_detach_stream (connection_edge_end_w env reason v).2)).connects
        = v.connects := fun _ _ => rfl
  unfold connection_exit_connect
  simp only
  rw [if_neg hcond]
  by_cases h1 : connect_ret = -1
  · rw [if_pos h1, hkeep]
  · rw [if_neg h1]
    by_cases h0 : connect_ret = 0
    · rw [if_pos h0]
    · rw [if_neg h0]

/-- C18, a concrete run: the stream for 1.2.3.4:80 is connected to
10.0.0.2:8080.  The first rule of the table does not match port 80, the second
matches and redirects, the third would match as well. -/
theorem C18_redirect_first_match_witness :
    (connection_exit_connect { retry_env with redirect_exit_list := some exit_redirects }
        false 1 0 exit_world).connects
      = [("example.com".toList, 167772162, 8080)] ∧
    exit_redirect_target 16909060 80 exit_redirects = (167772162, 8080) :=
  ⟨(C18_redirect_first_match { retry_env with redirect_exit_list := some exit_redirects }
      false 1 0 exit_world).1 (by decide),
   (C18_redirect_first_match retry_env false 1 0 exit_world).2.1 16909060 80
     [{ mask := 0, addr := 0, port_min := 1, port_max := 22, addr_dest := 1, port_dest := 1,
        is_redirect := true }]
     { mask := 4294967040, addr := 16909056, port_min := 80, port_max := 80,
       addr_dest := 167772162, port_dest := 8080, is_redirect := true }
     [{ mask := 0, addr := 0, port_min := 1, port_max := 65535, addr_dest := 2, port_dest := 2,
        is_redirect := true }]
     (by
       intro q hq
       rw [List.mem_singleton] at hq
       subst hq
       unfold exit_redirect_matches
       decide)
     (by unfold exit_redirect_matches; decide)⟩

theorem send_command_cells (conn : connection_t) (circ : Option circuit_t) (cmd : relay_command)
    (payload : List Nat) (cl : Option Nat) (send_ret : Int) :
    ∀ x ∈ (connection_edge_send_command conn circ cmd payload cl send_ret).2,
      x.relay_command = cmd ∧ x.payload = payload := by
  intro x hx
  cases circ with
  | none => simp [connection_edge_send_command] at hx
  | some c =>
    simp only [connection_edge_send_command, List.mem_singleton] at hx
    subst hx
    exact ⟨rfl, rfl⟩

theorem connection_edge_end_command (be : Bool) (conn : connection_t) (reason : Nat)
    (cl : Option Nat) (circ : Option circuit_t) :
    ∀ x ∈ (connection_edge_end be conn reason cl circ).2.2,
      x.relay_command = relay_command.RELAY_COMMAND_END := by
  intro x hx
  unfold connection_edge_end at hx
  by_cases hs : conn.has_sent_end = true
  · rw [if_pos hs] at hx
    simp at hx
  · rw [if_neg hs] at hx
    cases circ with
    | none => simp at hx
    | some c =>
      simp only at hx
      by_cases hm : c.marked_for_close = true
      · simp [hm] at hx
      · rw [if_pos hm] at hx
        exact (send_command_cells _ _ _ _ _ _ x hx).1

theorem package_raw_inbuf_sent (po : package_outcome) (w : edge_world) :
    ∃ new, (connection_edge_package_raw_inbuf po w).2.sent = w.sent ++ new ∧
      ∀ x ∈ new, x.relay_command = relay_command.RELAY_COMMAND_DATA := by
  refine ⟨_, rfl, ?_⟩
  intro x hx
  rw [List.mem_flatten] at hx
  obtain ⟨l, hl, hxl⟩ := hx
  rw [List.mem_map] at hl
  obtain ⟨p, _, hp⟩ := hl
  subst hp
  exact (send_command_cells _ _ _ _ _ _ x hxl).1

theorem process_inbuf_open_sent (env : edge_env) (so : socks_oracle) (po : package_outcome)
    (now : Int) (w : edge_world) (hstate : w.conn.state = conn_state.EXIT_CONN_STATE_OPEN) :
    ∃ new, (connection_edge_process_inbuf env so po now w).2.sent = w.sent ++ new ∧
      ∀ x ∈ new, x.relay_command ≠ relay_command.RELAY_COMMAND_CONNECTED := by
  obtain ⟨d, hd, hdata⟩ := package_raw_inbuf_sent po w
  unfold connection_edge_process_inbuf
  rw [hstate]
  simp only
  by_cases hr : (connection_edge_package_raw_inbuf po w).1 < 0
  · rw [if_pos hr]
    refine ⟨d ++ (connection_edge_end env.big_endian (connection_edge_package_raw_inbuf po w).2.conn
      END_STREAM_REASON_MISC (connection_edge_package_raw_inbuf po w).2.conn.cpath_layer
      (connection_edge_package_raw_inbuf po w).2.circ).2.2, ?_, ?_⟩
    · show (connection_edge_package_raw_inbuf po w).2.sent ++ _ = _
      rw [hd, List.append_assoc]
    · intro x hx
      rw [List.mem_append] at hx
      rcases hx with hx | hx
      · rw [hdata x hx]; decide
      · rw [connection_edge_end_command _ _ _ _ _ x hx]; decide
  · rw [if_neg hr]
    refine ⟨d, hd, ?_⟩
    intro x hx
    rw [hdata x hx]; decide

theorem connected_payload_eq (be : Bool) (conn : connection_t) (st : conn_state) :
    (if connection_edge_is_rendezvous_stream { conn with state := st } = true then []
      else uint32_bytes be (htonl be ({ conn with state := st } : connection_t).addr))
      = (if conn.rend_query ≠ [] then []
          else [conn.addr / 2 ^ 24 % 256, conn.addr / 2 ^ 16 % 256,
                conn.addr / 2 ^ 8 % 256, conn.addr % 256]) := by
  rw [uint32_bytes_htonl]
  simp only [connection_edge_is_rendezvous_stream, decide_eq_true_eq]

theorem exit_connect_sent (env : edge_env) (policy_rejected : Bool) (connect_ret send_ret : Int)
    (w : edge_world) :
    (connection_exit_connect env policy_rejected connect_ret send_ret w).sent
      = w.sent ++
        (if ¬ connection_edge_is_rendezvous_stream w.conn ∧ policy_rejected then
          (connection_edge_end env.big_endian w.conn END_STREAM_REASON_EXITPOLICY
            w.conn.cpath_layer w.circ).2.2
        else if connect_ret = -1 then
          (connection_edge_end env.big_endian w.conn END_STREAM_REASON_CONNECTREFUSED
            w.conn.cpath_layer w.circ).2.2
        else if connect_ret = 0 then []
        else
          (connection_edge_send_command w.conn w.circ relay_command.RELAY_COMMAND_CONNECTED
            (if w.conn.rend_query ≠ [] then []
              else [w.conn.addr / 2 ^ 24 % 256, w.conn.addr / 2 ^ 16 % 256,
                    w.conn.addr / 2 ^ 8 % 256, w.conn.addr % 256])
            w.conn.cpath_layer send_ret).2) := by
  unfold connection_exit_connect
  by_cases hp : ¬ connection_edge_is_rendezvous_stream w.conn ∧ policy_rejected
  · rw [if_pos hp, if_pos hp]
    rfl
  · rw [if_neg hp, if_neg hp]
    simp only
    by_cases h1 : connect_ret = -1
    · rw [if_pos h1, if_pos h1]
      rfl
    · rw [if_neg h1, if_neg h1]
      by_cases h0 : connect_ret = 0
      · rw [if_pos h0, if_pos h0]
        simp
      · rw [if_neg h0, if_neg h0]
        simp only
        rw [connected_payload_eq]
        cases w.circ <;> rfl

theorem finished_connecting_sent (env : edge_env) (send_ret : Int) (so : socks_oracle)
    (po : package_outcome) (now : Int) (w : edge_world) :
    ∃ rest,
      (connection_edge_finished_connecting env send_ret so po now w).2.sent
        = w.sent ++
          ((connection_edge_send_command w.conn w.circ relay_command.RELAY_COMMAND_CONNECTED
            (if w.conn.rend_query ≠ [] then []
              else [w.conn.addr / 2 ^ 24 % 256, w.conn.addr / 2 ^ 16 % 256,
                    w.conn.addr / 2 ^ 8 % 256, w.conn.addr % 256])
            w.conn.cpath_layer send_ret).2 ++ rest) ∧
      ∀ x ∈ rest, x.relay_command ≠ relay_command.RELAY_COMMAND_CONNECTED := by
  unfold connection_edge_finished_connecting
  simp only
  rw [connected_payload_eq]
  have hcells : ∀ (payload : List Nat),
      (connection_edge_send_command { w.conn with state := conn_state.EXIT_CONN_STATE_OPEN }
        w.circ relay_command.RELAY_COMMAND_CONNECTED payload w.conn.cpath_layer send_ret)
      = connection_edge_send_command w.conn w.circ relay_command.RELAY_COMMAND_CONNECTED
          payload w.conn.cpath_layer send_ret := by
    intro payload
    cases w.circ <;> rfl
  rw [hcells]
  generalize (if w.conn.rend_query ≠ [] then []
    else [w.conn.addr / 2 ^ 24 % 256, w.conn.addr / 2 ^ 16 % 256,
          w.conn.addr / 2 ^ 8 % 256, w.conn.addr % 256]) = payload
  by_cases hs : (connection_edge_send_command w.conn w.circ
      relay_command.RELAY_COMMAND_CONNECTED payload w.conn.cpath_layer send_ret).1 < 0
  · rw [if_pos hs]
    exact ⟨[], by simp, by simp⟩
  · rw [if_neg hs]
    obtain ⟨new, hnew, hcmd⟩ := process_inbuf_open_sent env so po now
      { w with conn := { w.conn with state := conn_state.EXIT_CONN_STATE_OPEN },
               sent := w.sent ++ (connection_edge_send_command w.conn w.circ
                 relay_command.RELAY_COMMAND_CONNECTED payload
                 w.conn.cpath_layer send_ret).2 } rfl
    refine ⟨new, ?_, hcmd⟩
    rw [hnew, List.append_assoc]

/-- C19. CONNECTED payload does not leak.  Whatever the redirect table `rl`,
the exit policy, and the outcome of `connection_connect`, every CONNECTED cell
that `connection_exit_connect` or `connection_edge_finished_connecting` sends
has an empty payload for a rendezvous stream (non-empty `rend_query`) and for
any other stream exactly the 4 bytes of the stream's own `addr`, most
significant first (network order); and each of the two sends that cell, once, on
the stream's circuit when it gets that far (`connection_exit_connect`: the exit
policy does not reject and `connection_connect` returns 1). -/
theorem C19_connected_payload (env : edge_env) (rl : Option (List exit_redirect_t))
    (policy_rejected : Bool) (connect_ret send_ret : Int) (so : socks_oracle)
    (po : package_outcome) (now : Int) (w : edge_world) :
    (∃ new,
      (connection_exit_connect { env with redirect_exit_list := rl } policy_rejected connect_ret
        send_ret w).sent = w.sent ++ new ∧
      ∀ x ∈ new, x.relay_command = relay_command.RELAY_COMMAND_CONNECTED →
        x.payload = (if w.conn.rend_query ≠ [] then []
          else [w.conn.addr / 2 ^ 24 % 256, w.conn.addr / 2 ^ 16 % 256,
                w.conn.addr / 2 ^ 8 % 256, w.conn.addr % 256])) ∧
    (∃ new,
      (connection_edge_finished_connecting { env with redirect_exit_list := rl } send_ret so po
        now w).2.sent = w.sent ++ new ∧
      ∀ x ∈ new, x.relay_command = relay_command.RELAY_COMMAND_CONNECTED →
        x.payload = (if w.conn.rend_query ≠ [] then []
          else [w.conn.addr / 2 ^ 24 % 256, w.conn.addr / 2 ^ 16 % 256,
                w.conn.addr / 2 ^ 8 % 256, w.conn.addr % 256])) ∧
    (∀ c : circuit_t, w.circ = some c →
      ¬ (connection_edge_is_rendezvous_stream w.conn = false ∧ policy_rejected = true) →
      connect_ret ≠ -1 → connect_ret ≠ 0 →
      (connection_exit_connect { env with redirect_exit_list := rl } policy_rejected connect_ret
        send_ret w).sent
        = w.sent ++
          [{ circ_id := c.n_circ_id, stream_id := w.conn.stream_id,
             relay_command := relay_command.RELAY_COMMAND_CONNECTED,
             payload := (if w.conn.rend_query ≠ [] then []
               else [w.conn.addr / 2 ^ 24 % 256, w.conn.addr / 2 ^ 16 % 256,
                     w.conn.addr / 2 ^ 8 % 256, w.conn.addr % 256]),
             cpath_layer := w.conn.cpath_layer }]) ∧
    (∀ c : circuit_t, w.circ = some c →
      ∃ rest,
        (connection_edge_finished_connecting { env with redirect_exit_list := rl } send_ret so po
          now w).2.sent
          = w.sent ++
            { circ_id := c.n_circ_id, stream_id := w.conn.stream_id,
              relay_command := relay_command.RELAY_COMMAND_CONNECTED,
              payload := (if w.conn.rend_query ≠ [] then []
                else [w.conn.addr / 2 ^ 24 % 256, w.conn.addr / 2 ^ 16 % 256,
                      w.conn.addr / 2 ^ 8 % 256, w.conn.addr % 256]),
              cpath_layer := w.conn.cpath_layer } :: rest ∧
        ∀ x ∈ rest, x.relay_command ≠ relay_command.RELAY_COMMAND_CONNECTED) := by
  refine ⟨?_, ?_, ?_, ?_⟩
  · refine ⟨_, exit_connect_sent _ _ _ _ _, ?_⟩
    intro x hx hcmd
    by_cases hp : ¬ connection_edge_is_rendezvous_stream w.conn ∧ policy_rejected
    · rw [if_pos hp] at hx
      rw [connection_edge_end_command _ _ _ _ _ x hx] at hcmd
      exact absurd hcmd (by decide)
    · rw [if_neg hp] at hx
      by_cases h1 : connect_ret = -1
      · rw [if_pos h1] at hx
        rw [connection_edge_end_command _ _ _ _ _ x hx] at hcmd
        exact absurd hcmd (by decide)
      · rw [if_neg h1] at hx
        by_cases h0 : connect_ret = 0
        · rw [if_pos h0] at hx
          simp at hx
        · rw [if_neg h0] at hx
          exact (send_command_cells _ _ _ _ _ _ x hx).2
  · obtain ⟨rest, hrest, hcmd⟩ := finished_connecting_sent
      { env with redirect_exit_list := rl } send_ret so po now w
    refine ⟨_, hrest, ?_⟩
    intro x hx hx_cmd
    rw [List.mem_append] at hx
    rcases hx with hx | hx
    · exact (send_command_cells _ _ _ _ _ _ x hx).2
    · exact absurd hx_cmd (hcmd x hx)
  · intro c hc hpol h1 h0
    have hcond : ¬ (¬ (connection_edge_is_rendezvous_stream w.conn = true) ∧
        policy_rejected = true) := by
      rintro ⟨h1, h2⟩
      exact hpol ⟨by simpa using h1, h2⟩
    rw [exit_connect_sent, if_neg hcond, if_neg h1, if_neg h0, hc]
    rfl
  · intro c hc
    obtain ⟨rest, hrest, hcmd⟩ := finished_connecting_sent
      { env with redirect_exit_list := rl } send_ret so po now w
    refine ⟨rest, ?_, hcmd⟩
    rw [hrest, hc]
    rfl

/-- C19, a concrete run: with a table that redirects 1.2.3.4:80 to
10.0.0.2:8080, the CONNECTED cell of the general stream carries 1.2.3.4, and
that of the same stream with a `rend_query` carries nothing. -/
theorem C19_connected_payload_witness :
    (connection_exit_connect { retry_env with redirect_exit_list := some exit_redirects }
        false 1 0 exit_world).sent
      = [{ circ_id := 7, stream_id := 9,
           relay_command := relay_command.RELAY_COMMAND_CONNECTED,
           payload := [1, 2, 3, 4], cpath_layer := none }] ∧
    (connection_exit_connect { retry_env with redirect_exit_list := some exit_redirects }
        false 1 0
        { exit_world with conn := { exit_world.conn with rend_query := "abcdefghijklmnop".toList } }).sent
      = [{ circ_id := 7, stream_id := 9,
           relay_command := relay_command.RELAY_COMMAND_CONNECTED,
           payload := [], cpath_layer := none }] :=
  ⟨(C19_connected_payload retry_env (some exit_redirects) false 1 0
      { sockshere := 0, socks := {}, inbuf := [], rend_r := 0, rend_received := 0,
        attach := attach_outcome.never }
      { data := [], inbuf := [], send_ret := 0, ret := 0 } 0 exit_world).2.2.1
      { n_circ_id := 7, purpose := circuit_purpose.CIRCUIT_PURPOSE_OTHER } rfl
      (by decide) (by decide) (by decide),
   (C19_connected_payload retry_env (some exit_redirects) false 1 0
      { sockshere := 0, socks := {}, inbuf := [], rend_r := 0, rend_received := 0,
        attach := attach_outcome.never }
      { data := [], inbuf := [], send_ret := 0, ret := 0 } 0
      { exit_world with conn := { exit_world.conn with rend_query := "abcdefghijklmnop".toList } }).2.2.1
      { n_circ_id := 7, purpose := circuit_purpose.CIRCUIT_PURPOSE_OTHER } rfl
      (by decide) (by decide) (by decide)⟩


/-! ## BEGIN cells at the exit -/

/-- C20. Malformed BEGIN is dropped silently.  For every BEGIN cell whose
payload has no NUL byte within the declared relay length, whose addr:port text
`parse_addr_port` cannot parse, or whose port is 0,
`connection_exit_begin_conn` returns 0, makes no stream, sends no cell, gives
nothing to `dns_resolve` or `connection_connect`, and leaves the circuit, with
its `n_streams` and `resolving_streams`, as it was. -/
theorem C20_malformed_begin_dropped (env : edge_env) (o : begin_oracle) (cell : cell_t)
    (circ : circuit_t)
    (hbad : ¬ (0 ∈ cell.payload.take cell.length) ∨
      o.parse_addr_port (cstr_at cell.payload) = none ∨
      ∃ address, o.parse_addr_port (cstr_at cell.payload) = some (address, 0)) :
    (connection_exit_begin_conn env o cell circ).ret = 0 ∧
    (connection_exit_begin_conn env o cell circ).n_stream = none ∧
    (connection_exit_begin_conn env o cell circ).sent = [] ∧
    (connection_exit_begin_conn env o cell circ).resolves = [] ∧
    (connection_exit_begin_conn env o cell circ).connects = [] ∧
    (connection_exit_begin_conn env o cell circ).circ = circ ∧
    (connection_exit_begin_conn env o cell circ).circ.n_streams = circ.n_streams ∧
    (connection_exit_begin_conn env o cell circ).circ.resolving_streams
      = circ.resolving_streams := by
  have hdrop : connection_exit_begin_conn env o cell circ = { ret := 0, circ := circ } := by
    unfold connection_exit_begin_conn
    by_cases hnul : ¬ (0 ∈ cell.payload.take cell.length)
    · rw [if_pos hnul]
    · rw [if_neg hnul]
      rcases hbad with h | h | ⟨address, h⟩
      · exact absurd h hnul
      · rw [h]
      · rw [h]
        simp only [if_true]
  rw [hdrop]
  exact ⟨rfl, rfl, rfl, rfl, rfl, rfl, rfl, rfl⟩

/-- C20, a concrete run: a BEGIN cell for "example.com" with no port, on a
circuit that has one stream, is dropped. -/
theorem C20_malformed_begin_dropped_witness :
    (connection_exit_begin_conn retry_env
        { parse_addr_port := fun s => if s = "example.com".toList then some (s, 0) else none,
          rend_ret := 0, rend_addr := 0, rend_port := 0, cpath_prev := none,
          we_are_hibernating := false, dns_ret := 1, dns_addr := 16909060, dns_sent := [],
          policy_rejected := false, connect_ret := 1, send_ret := 0 }
        { stream_id := 9, length := 12, payload := cstr_bytes "example.com".toList ++ [0] }
        { n_circ_id := 7, n_streams := [exit_world.conn] }).ret = 0 ∧
    (connection_exit_begin_conn retry_env
        { parse_addr_port := fun s => if s = "example.com".toList then some (s, 0) else none,
          rend_ret := 0, rend_addr := 0, rend_port := 0, cpath_prev := none,
          we_are_hibernating := false, dns_ret := 1, dns_addr := 16909060, dns_sent := [],
          policy_rejected := false, connect_ret := 1, send_ret := 0 }
        { stream_id := 9, length := 12, payload := cstr_bytes "example.com".toList ++ [0] }
        { n_circ_id := 7, n_streams := [exit_world.conn] }).n_stream = none ∧
    (connection_exit_begin_conn retry_env
        { parse_addr_port := fun s => if s = "example.com".toList then some (s, 0) else none,
          rend_ret := 0, rend_addr := 0, rend_port := 0, cpath_prev := none,
          we_are_hibernating := false, dns_ret := 1, dns_addr := 16909060, dns_sent := [],
          policy_rejected := false, connect_ret := 1, send_ret := 0 }
        { stream_id := 9, length := 12, payload := cstr_bytes "example.com".toList ++ [0] }
        { n_circ_id := 7, n_streams := [exit_world.conn] }).sent = [] ∧
    (connection_exit_begin_conn retry_env
        { parse_addr_port := fun s => if s = "example.com".toList then some (s, 0) else none,
          rend_ret := 0, rend_addr := 0, rend_port := 0, cpath_prev := none,
          we_are_hibernating := false, dns_ret := 1, dns_addr := 16909060, dns_sent := [],
          policy_rejected := false, connect_ret := 1, send_ret := 0 }
        { stream_id := 9, length := 12, payload := cstr_bytes "example.com".toList ++ [0] }
        { n_circ_id := 7, n_streams := [exit_world.conn] }).circ.n_streams
      = [exit_world.conn] := by
  have h := C20_malformed_begin_dropped retry_env
    { parse_addr_port := fun s => if s = "example.com".toList then some (s, 0) else none,
      rend_ret := 0, rend_addr := 0, rend_port := 0, cpath_prev := none,
      we_are_hibernating := false, dns_ret := 1, dns_addr := 16909060, dns_sent := [],
      policy_rejected := false, connect_ret := 1, send_ret := 0 }
    { stream_id := 9, length := 12, payload := cstr_bytes "example.com".toList ++ [0] }
    { n_circ_id := 7, n_streams := [exit_world.conn] }
    (Or.inr (Or.inr ⟨"example.com".toList, by decide⟩))
  exact ⟨h.1, h.2.1, h.2.2.1, h.2.2.2.2.2.2.1⟩

/-- C21, what the code does.  For every well-formed BEGIN cell (a NUL within
the declared length, an address and a non-zero port) on a circuit that is not a
joined rendezvous circuit of a service, while the node is hibernating,
`connection_exit_begin_conn` returns 0, gives nothing to `dns_resolve` or
`connection_connect`, leaves the circuit as it was, and frees the new stream
with `has_sent_end` set; but it sends no cell at all: `connection_edge_end` is
called on a stream that is on no circuit yet. -/
theorem C21_hibernating_begin_sends_no_end (env : edge_env) (o : begin_oracle) (cell : cell_t)
    (circ : circuit_t) (address : CStr) (port : Nat)
    (hnul : 0 ∈ cell.payload.take cell.length)
    (hparse : o.parse_addr_port (cstr_at cell.payload) = some (address, port))
    (hport : port ≠ 0)
    (hpurpose : circ.purpose ≠ circuit_purpose.CIRCUIT_PURPOSE_S_REND_JOINED)
    (hhib : o.we_are_hibernating = true) :
    (connection_exit_begin_conn env o cell circ).ret = 0 ∧
    (connection_exit_begin_conn env o cell circ).sent = [] ∧
    (connection_exit_begin_conn env o cell circ).resolves = [] ∧
    (connection_exit_begin_conn env o cell circ).connects = [] ∧
    (connection_exit_begin_conn env o cell circ).circ = circ ∧
    (connection_exit_begin_conn env o cell circ).freed = true ∧
    (connection_exit_begin_conn env o cell circ).n_stream
      = some { type := conn_type.CONN_TYPE_EXIT,
               state := conn_state.EXIT_CONN_STATE_RESOLVEFAILED,
               stream_id := cell.stream_id, port := port, address := address,
               package_window := env.STREAMWINDOW_START,
               deliver_window := env.STREAMWINDOW_START,
               has_sent_end := true } := by
  have hrun : connection_exit_begin_conn env o cell circ
      = { ret := 0, circ := circ,
          n_stream := some { type := conn_type.CONN_TYPE_EXIT,
                             state := conn_state.EXIT_CONN_STATE_RESOLVEFAILED,
                             stream_id := cell.stream_id, port := port, address := address,
                             package_window := env.STREAMWINDOW_START,
                             deliver_window := env.STREAMWINDOW_START,
                             has_sent_end := true },
          freed := true, sent := [] } := by
    unfold connection_exit_begin_conn
    rw [if_neg (not_not_intro hnul), hparse]
    simp only
    rw [if_neg hport, if_neg hpurpose, if_pos hhib]
    simp only [connection_edge_end, Bool.false_eq_true, if_false]
  rw [hrun]
  exact ⟨rfl, rfl, rfl, rfl, rfl, rfl, rfl⟩

/-- C21, the failing run: the BEGIN cell of stream 9 for "example.com:80" comes
in on the general circuit 7 while the node is hibernating; no cell is sent. -/
theorem C21_hibernating_begin_sends_no_end_witness :
    (connection_exit_begin_conn retry_env
        { parse_addr_port := fun s =>
            if s = "example.com:80".toList then some ("example.com".toList, 80) else none,
          rend_ret := 0, rend_addr := 0, rend_port := 0, cpath_prev := none,
          we_are_hibernating := true, dns_ret := 1, dns_addr := 16909060, dns_sent := [],
          policy_rejected := false, connect_ret := 1, send_ret := 0 }
        { stream_id := 9, length := 15, payload := cstr_bytes "example.com:80".toList ++ [0] }
        { n_circ_id := 7 }).ret = 0 ∧
    (connection_exit_begin_conn retry_env
        { parse_addr_port := fun s =>
            if s = "example.com:80".toList then some ("example.com".toList, 80) else none,
          rend_ret := 0, rend_addr := 0, rend_port := 0, cpath_prev := none,
          we_are_hibernating := true, dns_ret := 1, dns_addr := 16909060, dns_sent := [],
          policy_rejected := false, connect_ret := 1, send_ret := 0 }
        { stream_id := 9, length := 15, payload := cstr_bytes "example.com:80".toList ++ [0] }
        { n_circ_id := 7 }).sent = [] := by
  have h := C21_hibernating_begin_sends_no_end retry_env
    { parse_addr_port := fun s =>
        if s = "example.com:80".toList then some ("example.com".toList, 80) else none,
      rend_ret := 0, rend_addr := 0, rend_port := 0, cpath_prev := none,
      we_are_hibernating := true, dns_ret := 1, dns_addr := 16909060, dns_sent := [],
      policy_rejected := false, connect_ret := 1, send_ret := 0 }
    { stream_id := 9, length := 15, payload := cstr_bytes "example.com:80".toList ++ [0] }
    { n_circ_id := 7 } "example.com".toList 80
    (by decide) (by decide) (by decide) (by decide) rfl
  exact ⟨h.1, h.2.1⟩

/-! ## SOCKS replies and the SOCKS handshake -/

theorem socks_reply_given (conn : connection_t) (reply : List Nat) (status : Int)
    (hreply : reply.length ≠ 0) :
    connection_ap_handshake_socks_reply conn reply status
      = { conn with outbuf := conn.outbuf ++ reply } := by
  unfold connection_ap_handshake_socks_reply
  rw [if_pos hreply]
  rfl

/-- The stream after `connection_ap_handshake_socks_resolved`: the reply is
appended to the outbuf and `has_finished` is set; nothing else changes. -/
theorem socks_resolved_conn (env : edge_env) (now : Int) (dns : client_dns)
    (conn : connection_t) (answer_type : Nat) (answer : List Nat) :
    (connection_ap_handshake_socks_resolved env now dns conn answer_type answer).1
      = { conn with
            outbuf := conn.outbuf ++
              (if conn.socks_request.socks_version = 4 then
                if answer_type = RESOLVED_TYPE_IPV4 ∧ answer.length = 4 then
                  [0x00, 90, 0, 0] ++ answer.take 4
                else [0x00, 91] ++ List.replicate 6 0
              else
                if answer_type = RESOLVED_TYPE_IPV4 ∧ answer.length = 4 then
                  [0x05, 0, 0, 0x01] ++ answer.take 4 ++ [0, 0]
                else if answer_type = RESOLVED_TYPE_IPV6 ∧ answer.length = 16 then
                  [0x05, 0, 0, 0x04] ++ answer.take 16 ++ [0, 0]
                else [0x05, 0x04] ++ List.replicate 8 0),
            socks_request := { conn.socks_request with has_finished := true } } := by
  unfold connection_ap_handshake_socks_resolved
  simp only
  rw [socks_reply_given]
  split_ifs <;> simp

/-- C22. SOCKS reply to a resolve.  `connection_ap_handshake_socks_resolved`
appends to the outbuf: for SOCKS4, the 8 bytes 00 5A 00 00 a1 a2 a3 a4 when the
answer is IPv4 of length 4, and 00 5B and six zero bytes otherwise; for SOCKS5,
05 00 00 01 a1 a2 a3 a4 00 00 for an IPv4 answer of length 4, 05 00 00 04, the
16 address bytes and 00 00 for an IPv6 answer of length 16, and 05 04 and eight
zero bytes otherwise.  In every case `has_finished` is set afterwards. -/
theorem C22_socks_resolved_reply (env : edge_env) (now : Int) (dns : client_dns)
    (conn : connection_t) (answer_type : Nat) (answer : List Nat) :
    (conn.socks_request.socks_version = 4 → answer_type = RESOLVED_TYPE_IPV4 →
      ∀ a1 a2 a3 a4 : Nat, answer = [a1, a2, a3, a4] →
      (connection_ap_handshake_socks_resolved env now dns conn answer_type answer).1.outbuf
        = conn.outbuf ++ [0x00, 0x5A, 0x00, 0x00, a1, a2, a3, a4]) ∧
    (conn.socks_request.socks_version = 4 →
      ¬ (answer_type = RESOLVED_TYPE_IPV4 ∧ answer.length = 4) →
      (connection_ap_handshake_socks_resolved env now dns conn answer_type answer).1.outbuf
        = conn.outbuf ++ [0x00, 0x5B, 0, 0, 0, 0, 0, 0]) ∧
    (conn.socks_request.socks_version = 5 → answer_type = RESOLVED_TYPE_IPV4 →
      ∀ a1 a2 a3 a4 : Nat, answer = [a1, a2, a3, a4] →
      (connection_ap_handshake_socks_resolved env now dns conn answer_type answer).1.outbuf
        = conn.outbuf ++ [0x05, 0x00, 0x00, 0x01, a1, a2, a3, a4, 0x00, 0x00]) ∧
    (conn.socks_request.socks_version = 5 → answer_type = RESOLVED_TYPE_IPV6 →
      answer.length = 16 →
      (connection_ap_handshake_socks_resolved env now dns conn answer_type answer).1.outbuf
        = conn.outbuf ++ ([0x05, 0x00, 0x00, 0x04] ++ answer ++ [0x00, 0x00])) ∧
    (conn.socks_request.socks_version = 5 →
      ¬ (answer_type = RESOLVED_TYPE_IPV4 ∧ answer.length = 4) →
      ¬ (answer_type = RESOLVED_TYPE_IPV6 ∧ answer.length = 16) →
      (connection_ap_handshake_socks_resolved env now dns conn answer_type answer).1.outbuf
        = conn.outbuf ++ [0x05, 0x04, 0, 0, 0, 0, 0, 0, 0, 0]) ∧
    (connection_ap_handshake_socks_resolved env now dns conn answer_type
      answer).1.socks_request.has_finished = true := by
  rw [socks_resolved_conn]
  have h5 : conn.socks_request.socks_version = 5 → ¬ conn.socks_request.socks_version = 4 := by
    intro h; rw [h]; decide
  refine ⟨?_, ?_, ?_, ?_, ?_, rfl⟩
  · intro hv ht a1 a2 a3 a4 ha
    subst ha
    simp only [hv, ht, if_true, List.length_cons, List.length_nil, and_self]
    rfl
  · intro hv hn
    simp only [hv, if_true, if_neg hn]
    rfl
  · intro hv ht a1 a2 a3 a4 ha
    subst ha
    simp only [if_neg (h5 hv), ht, List.length_cons, List.length_nil, and_self, if_true]
    rfl
  · intro hv ht hl
    have h4 : ¬ (answer_type = RESOLVED_TYPE_IPV4 ∧ answer.length = 4) := by
      rintro ⟨_, h⟩
      omega
    have htake : answer.take 16 = answer := List.take_of_length_le (by omega)
    rw [if_neg (h5 hv), if_neg h4, if_pos ⟨ht, hl⟩, htake]
  · intro hv h4 h6
    simp only [if_neg (h5 hv), if_neg h4, if_neg h6]
    rfl

/-- C22, the reply of the spec: SOCKS5 and the IPv4 answer 1.2.3.4. -/
theorem C22_socks_resolved_reply_witness :
    (connection_ap_handshake_socks_resolved retry_env 1000 client_dns_init
        { socks_request := { socks_version := 5, command := SOCKS_COMMAND_RESOLVE,
                             address := "example.com".toList } }
        RESOLVED_TYPE_IPV4 [1, 2, 3, 4]).1.outbuf
      = [] ++ [0x05, 0x00, 0x00, 0x01, 1, 2, 3, 4, 0x00, 0x00] :=
  (C22_socks_resolved_reply retry_env 1000 client_dns_init
    { socks_request := { socks_version := 5, command := SOCKS_COMMAND_RESOLVE,
                         address := "example.com".toList } }
    RESOLVED_TYPE_IPV4 [1, 2, 3, 4]).2.2.1 rfl rfl 1 2 3 4 rfl

theorem parse_extended_hostname_normal (N : Nat) (valid : CStr → Bool) (address : CStr)
    (h : (parse_extended_hostname N valid address).1 = hostname_type_t.NORMAL_HOSTNAME) :
    (parse_extended_hostname N valid address).2 = address := by
  unfold parse_extended_hostname at h ⊢
  cases hs : strrchr_split '.' address with
  | none => rfl
  | some p =>
    obtain ⟨pre, suf⟩ := p
    have haddr := (strrchr_split_some '.' address pre suf hs).1
    rw [hs] at h
    simp only at h ⊢
    split_ifs at h ⊢
    all_goals first
      | rfl
      | exact haddr.symm

/-- With the handshake complete and the address classified `NORMAL_HOSTNAME`,
`connection_ap_handshake_process_socks` goes on with the request as
`fetch_from_buf_socks` left it. -/
theorem process_socks_of_normal (env : edge_env) (o : socks_oracle) (now : Int) (w : edge_world)
    (hdone : o.sockshere = 1)
    (hnormal : (parse_extended_hostname env.REND_SERVICE_ID_LEN env.rend_valid_service_id
      o.socks.address).1 = hostname_type_t.NORMAL_HOSTNAME) :
    connection_ap_handshake_process_socks env o now w
      = connection_ap_handshake_process_socks_normal env o now
          { w with conn := { w.conn with socks_request := o.socks, inbuf := o.inbuf } } := by
  have hnot : ¬ (o.sockshere = -1 ∨ o.sockshere = 0) := by
    rw [hdone]; decide
  have hsnd := parse_extended_hostname_normal _ _ _ hnormal
  unfold connection_ap_handshake_process_socks
  simp only
  rw [if_neg hnot, hnormal, hsnd]
  simp only [reduceCtorEq, if_false, ne_eq, not_false_eq_true, if_true]

/-- With the handshake complete and the address `H.N.exit`, where the nickname
`N` is not empty and has no dot, `connection_ap_handshake_process_socks` goes on
with the address `H` and `chosen_exit_name` set to `N`. -/
theorem process_socks_of_exit (env : edge_env) (o : socks_oracle) (now : Int) (w : edge_world)
    (H N : CStr) (hdone : o.sockshere = 1)
    (haddr : o.socks.address = H ++ '.' :: N ++ ".exit".toList)
    (hN : N ≠ []) (hdot : '.' ∉ N) :
    connection_ap_handshake_process_socks env o now w
      = connection_ap_handshake_process_socks_normal env o now
          { w with conn :=
              { w.conn with socks_request := { o.socks with address := H },
                            inbuf := o.inbuf,
                            chosen_exit_name := some N } } := by
  have hnot : ¬ (o.sockshere = -1 ∨ o.sockshere = 0) := by
    rw [hdone]; decide
  have hform : H ++ '.' :: N ++ ".exit".toList = (H ++ '.' :: N) ++ '.' :: "exit".toList := by
    simp
  have hparse := exit_suffix_classified env.REND_SERVICE_ID_LEN env.rend_valid_service_id
    (H ++ '.' :: N) "exit".toList (by decide) (by decide)
  have hsplit : strrchr_split '.' (H ++ '.' :: N) = some (H, N) :=
    strrchr_split_append '.' H N hdot
  unfold connection_ap_handshake_process_socks
  simp only
  rw [if_neg hnot, haddr, hform, hparse]
  simp only [if_true, hsplit, if_neg hN]

theorem uint32_bytes_length (big_endian : Bool) (x : Nat) :
    (uint32_bytes big_endian x).length = 4 := by
  cases big_endian <;> rfl

/-- The resolve shortcut of `connection_ap_handshake_process_socks`: a RESOLVE
request whose address fits a relay payload and has the non-zero answer `answer`
(`in.s_addr` of a literal, or `htonl` of the cached address when no exit is
pinned) is answered at once. -/
theorem process_socks_normal_shortcut (env : edge_env) (o : socks_oracle) (now : Int)
    (w : edge_world) (answer : Nat) (dns1 : client_dns)
    (hcmd : w.conn.socks_request.command = SOCKS_COMMAND_RESOLVE)
    (hlen : w.conn.socks_request.address.length ≤ env.RELAY_PAYLOAD_SIZE)
    (hanswer :
      (env.tor_inet_aton w.conn.socks_request.address = some answer ∧ dns1 = w.dns) ∨
      (env.tor_inet_aton w.conn.socks_request.address = none ∧ w.conn.chosen_exit_name = none ∧
        answer = htonl env.big_endian (client_dns_lookup_entry env.big_endian env.tor_inet_aton
          w.dns w.conn.socks_request.address now).1 ∧
        dns1 = (client_dns_lookup_entry env.big_endian env.tor_inet_aton
          w.dns w.conn.socks_request.address now).2))
    (hne : answer ≠ 0) :
    connection_ap_handshake_process_socks_normal env o now w
      = (0, { w with
                conn :=
                  { w.conn with
                      outbuf := w.conn.outbuf ++
                        (if w.conn.socks_request.socks_version = 4 then
                          [0x00, 90, 0, 0] ++ uint32_bytes env.big_endian answer
                        else [0x05, 0, 0, 0x01] ++ uint32_bytes env.big_endian answer ++ [0, 0]),
                      socks_request := { w.conn.socks_request with has_finished := true },
                      has_sent_end := true,
                      marked_for_close := true,
                      hold_open_until_flushed := true },
                dns := (connection_ap_handshake_socks_resolved env now dns1 w.conn
                  RESOLVED_TYPE_IPV4 (uint32_bytes env.big_endian answer)).2 }) := by
  have hlarge : ¬ (decide (w.conn.socks_request.command = SOCKS_COMMAND_RESOLVE ∧
      env.RELAY_PAYLOAD_SIZE < w.conn.socks_request.address.length) = true) := by
    simp only [decide_eq_true_eq, not_and, not_lt]
    exact fun _ => hlen
  have hlooked :
      (if (match env.tor_inet_aton w.conn.socks_request.address with
            | some s_addr => s_addr
            | none => 0) = 0 ∧ w.conn.chosen_exit_name = none then
          ((htonl env.big_endian (client_dns_lookup_entry env.big_endian env.tor_inet_aton
              w.dns w.conn.socks_request.address now).1,
            (client_dns_lookup_entry env.big_endian env.tor_inet_aton
              w.dns w.conn.socks_request.address now).2) : Nat × client_dns)
        else
          ((match env.tor_inet_aton w.conn.socks_request.address with
            | some s_addr => s_addr
            | none => 0), w.dns)) = (answer, dns1) := by
    rcases hanswer with ⟨haton, hd⟩ | ⟨haton, hexit, ha, hd⟩
    · rw [haton]
      simp only
      rw [if_neg (fun h => hne h.1), hd]
    · rw [haton]
      simp only
      rw [if_pos ⟨trivial, hexit⟩, ha, hd]
  have hconn := socks_resolved_conn env now dns1 w.conn RESOLVED_TYPE_IPV4
    (uint32_bytes env.big_endian answer)
  have htake : (uint32_bytes env.big_endian answer).take 4 = uint32_bytes env.big_endian answer :=
    List.take_of_length_le (by rw [uint32_bytes_length])
  simp only [uint32_bytes_length, and_self, if_true, htake] at hconn
  unfold connection_ap_handshake_process_socks_normal
  simp only
  rw [if_neg hlarge, hlooked]
  simp only
  rw [if_pos ⟨hcmd, hne⟩, hconn]
  rfl

theorem client_dns_lookup_entry_fresh (big_endian : Bool) (tor_inet_aton : CStr → Option Nat)
    (st : client_dns) (address : CStr) (now : Int) (ent : client_dns_entry)
    (haton : tor_inet_aton address = none)
    (hent : strmap_get_lc st.client_dns_map address = some ent)
    (haddr : ent.addr ≠ 0) (hfresh : now ≤ ent.expires) :
    client_dns_lookup_entry big_endian tor_inet_aton st address now = (ent.addr, st) := by
  unfold client_dns_lookup_entry
  rw [haton]
  simp only
  rw [hent]
  simp only
  rw [if_neg haddr, if_neg (not_lt.mpr hfresh)]

/-- The three ways in which a completed RESOLVE request is answered at once,
with the world that `connection_ap_handshake_process_socks` leaves, whatever
`connection_ap_handshake_attach_circuit` would find. -/
theorem process_socks_shortcut (env : edge_env) (o : socks_oracle) (now : Int) (w : edge_world)
    (bytes : List Nat)
    (hdone : o.sockshere = 1) (hcmd : o.socks.command = SOCKS_COMMAND_RESOLVE)
    (hcase :
      ((parse_extended_hostname env.REND_SERVICE_ID_LEN env.rend_valid_service_id
          o.socks.address).1 = hostname_type_t.NORMAL_HOSTNAME ∧
        o.socks.address.length ≤ env.RELAY_PAYLOAD_SIZE ∧
        ∃ s_addr, env.tor_inet_aton o.socks.address = some s_addr ∧ s_addr ≠ 0 ∧
          bytes = uint32_bytes env.big_endian s_addr) ∨
      (∃ H N s_addr, o.socks.address = H ++ '.' :: N ++ ".exit".toList ∧ N ≠ [] ∧ '.' ∉ N ∧
        H.length ≤ env.RELAY_PAYLOAD_SIZE ∧
        env.tor_inet_aton H = some s_addr ∧ s_addr ≠ 0 ∧
        bytes = uint32_bytes env.big_endian s_addr) ∨
      ((parse_extended_hostname env.REND_SERVICE_ID_LEN env.rend_valid_service_id
          o.socks.address).1 = hostname_type_t.NORMAL_HOSTNAME ∧
        o.socks.address.length ≤ env.RELAY_PAYLOAD_SIZE ∧
        w.conn.chosen_exit_name = none ∧
        env.tor_inet_aton o.socks.address = none ∧
        ∃ ent, strmap_get_lc w.dns.client_dns_map o.socks.address = some ent ∧
          ent.addr ≠ 0 ∧ ent.addr < 2 ^ 32 ∧ now ≤ ent.expires ∧
          bytes = [ent.addr / 2 ^ 24 % 256, ent.addr / 2 ^ 16 % 256, ent.addr / 2 ^ 8 % 256,
                   ent.addr % 256])) :
    ∃ (address : CStr) (name : Option CStr) (dns1 : client_dns),
      ∀ attach : attach_outcome,
        connection_ap_handshake_process_socks env { o with attach := attach } now w
          = (0, { w with
                    conn :=
                      { w.conn with
                          inbuf := o.inbuf,
                          chosen_exit_name := name,
                          outbuf := w.conn.outbuf ++
                            (if o.socks.socks_version = 4 then [0x00, 90, 0, 0] ++ bytes
                              else [0x05, 0, 0, 0x01] ++ bytes ++ [0, 0]),
                          socks_request :=
                            { o.socks with address := address, has_finished := true },
                          has_sent_end := true,
                          marked_for_close := true,
                          hold_open_until_flushed := true },
                    dns := dns1 }) := by
  rcases hcase with ⟨hnormal, hlen, s_addr, haton, hs, hb⟩ |
    ⟨H, N, s_addr, haddr, hN, hdot, hlen, haton, hs, hb⟩ |
    ⟨hnormal, hlen, hexit, haton, ent, hent, ha0, ha32, hfresh, hb⟩
  · refine ⟨o.socks.address, w.conn.chosen_exit_name,
      (connection_ap_handshake_socks_resolved env now w.dns
        { w.conn with socks_request := o.socks, inbuf := o.inbuf }
        RESOLVED_TYPE_IPV4 bytes).2, fun attach => ?_⟩
    have hsc := process_socks_normal_shortcut env { o with attach := attach } now
      { w with conn := { w.conn with socks_request := o.socks, inbuf := o.inbuf } }
      s_addr w.dns hcmd hlen (Or.inl ⟨haton, rfl⟩) hs
    rw [process_socks_of_normal env { o with attach := attach } now w hdone hnormal, hsc, hb]
  · refine ⟨H, some N,
      (connection_ap_handshake_socks_resolved env now w.dns
        { w.conn with socks_request := { o.socks with address := H }, inbuf := o.inbuf,
                      chosen_exit_name := some N }
        RESOLVED_TYPE_IPV4 bytes).2, fun attach => ?_⟩
    have hsc := process_socks_normal_shortcut env { o with attach := attach } now
      { w with conn := { w.conn with socks_request := { o.socks with address := H },
                                     inbuf := o.inbuf, chosen_exit_name := some N } }
      s_addr w.dns hcmd hlen (Or.inl ⟨haton, rfl⟩) hs
    rw [process_socks_of_exit env { o with attach := attach } now w H N hdone haddr hN hdot,
      hsc, hb]
  · have hlook := client_dns_lookup_entry_fresh env.big_endian env.tor_inet_aton w.dns
      o.socks.address now ent haton hent ha0 hfresh
    have hne : htonl env.big_endian ent.addr ≠ 0 :=
      fun h => ha0 ((htonl_eq_zero_iff env.big_endian ent.addr ha32).mp h)
    refine ⟨o.socks.address, none,
      (connection_ap_handshake_socks_resolved env now w.dns
        { w.conn with socks_request := o.socks, inbuf := o.inbuf }
        RESOLVED_TYPE_IPV4 bytes).2, fun attach => ?_⟩
    have hsc := process_socks_normal_shortcut env { o with attach := attach } now
      { w with conn := { w.conn with socks_request := o.socks, inbuf := o.inbuf } }
      (htonl env.big_endian ent.addr) w.dns hcmd hlen
      (Or.inr ⟨haton, hexit, by rw [hlook], by rw [hlook]⟩) hne
    rw [uint32_bytes_htonl, ← hb] at hsc
    rw [process_socks_of_normal env { o with attach := attach } now w hdone hnormal, hsc]
    simp only [hexit]

/-- C23, as stated, fails.  Three completed SOCKS5 RESOLVE requests, none of
them classified ONION, are not answered at once but go to CIRCUIT_WAIT with an
empty outbuf: the literal "0.0.0.0", whose `in.s_addr` is 0, the "no answer" of
the code; "example.com.myexit.exit" while "example.com" has a fresh cache entry,
which is not looked up once an exit is pinned; and "example.com" while its fresh
cache entry is a remembered failure with `addr == 0`. -/
theorem C23_resolve_not_short_cut :
    ((connection_ap_handshake_process_socks retry_env
        { sockshere := 1,
          socks := { socks_version := 5, command := SOCKS_COMMAND_RESOLVE,
                     address := "0.0.0.0".toList },
          inbuf := [], rend_r := 0, rend_received := 0, attach := attach_outcome.not_yet }
        1000 { conn := {} }).2.conn.state = conn_state.AP_CONN_STATE_CIRCUIT_WAIT ∧
      (connection_ap_handshake_process_socks retry_env
        { sockshere := 1,
          socks := { socks_version := 5, command := SOCKS_COMMAND_RESOLVE,
                     address := "0.0.0.0".toList },
          inbuf := [], rend_r := 0, rend_received := 0, attach := attach_outcome.not_yet }
        1000 { conn := {} }).2.conn.outbuf = []) ∧
    ((connection_ap_handshake_process_socks retry_env
        { sockshere := 1,
          socks := { socks_version := 5, command := SOCKS_COMMAND_RESOLVE,
                     address := "example.com.myexit.exit".toList },
          inbuf := [], rend_r := 0, rend_received := 0, attach := attach_outcome.not_yet }
        1000
        { conn := {},
          dns := { client_dns_size := 1,
                   client_dns_map := [("example.com".toList,
                     { addr := 16909060, expires := 1900, n_failures := 0 })] } }).2.conn.state
        = conn_state.AP_CONN_STATE_CIRCUIT_WAIT ∧
      (connection_ap_handshake_process_socks retry_env
        { sockshere := 1,
          socks := { socks_version := 5, command := SOCKS_COMMAND_RESOLVE,
                     address := "example.com.myexit.exit".toList },
          inbuf := [], rend_r := 0, rend_received := 0, attach := attach_outcome.not_yet }
        1000
        { conn := {},
          dns := { client_dns_size := 1,
                   client_dns_map := [("example.com".toList,
                     { addr := 16909060, expires := 1900, n_failures := 0 })] } }).2.conn.outbuf
        = []) ∧
    ((connection_ap_handshake_process_socks retry_env
        { sockshere := 1,
          socks := { socks_version := 5, command := SOCKS_COMMAND_RESOLVE,
                     address := "example.com".toList },
          inbuf := [], rend_r := 0, rend_received := 0, attach := attach_outcome.not_yet }
        1000
        { conn := {},
          dns := { client_dns_size := 1,
                   client_dns_map := [("example.com".toList,
                     { addr := 0, expires := 1900, n_failures := 1 })] } }).2.conn.state
        = conn_state.AP_CONN_STATE_CIRCUIT_WAIT ∧
      (connection_ap_handshake_process_socks retry_env
        { sockshere := 1,
          socks := { socks_version := 5, command := SOCKS_COMMAND_RESOLVE,
                     address := "example.com".toList },
          inbuf := [], rend_r := 0, rend_received := 0, attach := attach_outcome.not_yet }
        1000
        { conn := {},
          dns := { client_dns_size := 1,
                   client_dns_map := [("example.com".toList,
                     { addr := 0, expires := 1900, n_failures := 1 })] } }).2.conn.outbuf
        = []) := by
  decide

/-- C23, amended.  A completed SOCKS RESOLVE request is answered at once in
three cases: its address is classified NORMAL and is a literal IPv4 other than
0.0.0.0; its address is `H.N.exit` with a nickname `N` and `H` is such a
literal; or its address is classified NORMAL, no exit is pinned, and the
address has a fresh client-DNS cache entry with a non-zero `addr`.  The address
fits a relay payload, as every SOCKS address does.  Then
`connection_ap_handshake_process_socks` returns 0, appends the reply with the
resolved address to the outbuf (`bytes` are the four bytes of `in.s_addr` as
they lie in memory, or of the cached address, most significant first), sets
`has_finished`, `has_sent_end`, `marked_for_close` and
`hold_open_until_flushed`, leaves the state, the circuit and the cells sent as
they were, and does the same whatever a circuit attach would find. -/
theorem C23_resolve_shortcut (env : edge_env) (o : socks_oracle) (now : Int) (w : edge_world)
    (bytes : List Nat)
    (hdone : o.sockshere = 1) (hcmd : o.socks.command = SOCKS_COMMAND_RESOLVE)
    (hcase :
      ((parse_extended_hostname env.REND_SERVICE_ID_LEN env.rend_valid_service_id
          o.socks.address).1 = hostname_type_t.NORMAL_HOSTNAME ∧
        o.socks.address.length ≤ env.RELAY_PAYLOAD_SIZE ∧
        ∃ s_addr, env.tor_inet_aton o.socks.address = some s_addr ∧ s_addr ≠ 0 ∧
          bytes = uint32_bytes env.big_endian s_addr) ∨
      (∃ H N s_addr, o.socks.address = H ++ '.' :: N ++ ".exit".toList ∧ N ≠ [] ∧ '.' ∉ N ∧
        H.length ≤ env.RELAY_PAYLOAD_SIZE ∧
        env.tor_inet_aton H = some s_addr ∧ s_addr ≠ 0 ∧
        bytes = uint32_bytes env.big_endian s_addr) ∨
      ((parse_extended_hostname env.REND_SERVICE_ID_LEN env.rend_valid_service_id
          o.socks.address).1 = hostname_type_t.NORMAL_HOSTNAME ∧
        o.socks.address.length ≤ env.RELAY_PAYLOAD_SIZE ∧
        w.conn.chosen_exit_name = none ∧
        env.tor_inet_aton o.socks.address = none ∧
        ∃ ent, strmap_get_lc w.dns.client_dns_map o.socks.address = some ent ∧
          ent.addr ≠ 0 ∧ ent.addr < 2 ^ 32 ∧ now ≤ ent.expires ∧
          bytes = [ent.addr / 2 ^ 24 % 256, ent.addr / 2 ^ 16 % 256, ent.addr / 2 ^ 8 % 256,
                   ent.addr % 256])) :
    (connection_ap_handshake_process_socks env o now w).1 = 0 ∧
    (connection_ap_handshake_process_socks env o now w).2.conn.outbuf
      = w.conn.outbuf ++
        (if o.socks.socks_version = 4 then [0x00, 0x5A, 0x00, 0x00] ++ bytes
          else [0x05, 0x00, 0x00, 0x01] ++ bytes ++ [0x00, 0x00]) ∧
    (connection_ap_handshake_process_socks env o now w).2.conn.socks_request.has_finished
      = true ∧
    (connection_ap_handshake_process_socks env o now w).2.conn.has_sent_end = true ∧
    (connection_ap_handshake_process_socks env o now w).2.conn.marked_for_close = true ∧
    (connection_ap_handshake_process_socks env o now w).2.conn.hold_open_until_flushed = true ∧
    (connection_ap_handshake_process_socks env o now w).2.conn.state = w.conn.state ∧
    (connection_ap_handshake_process_socks env o now w).2.circ = w.circ ∧
    (connection_ap_handshake_process_socks env o now w).2.sent = w.sent ∧
    (∀ attach : attach_outcome,
      connection_ap_handshake_process_socks env { o with attach := attach } now w
        = connection_ap_handshake_process_socks env o now w) := by
  obtain ⟨address, name, dns1, hrun⟩ := process_socks_shortcut env o now w bytes hdone hcmd hcase
  have h0 := hrun o.attach
  have ho : ({ o with attach := o.attach } : socks_oracle) = o := rfl
  rw [ho] at h0
  refine ⟨?_, ?_, ?_, ?_, ?_, ?_, ?_, ?_, ?_, ?_⟩
  all_goals first
    | (rw [h0]; done)
    | (intro attach; rw [hrun attach, h0])

/-- C23 amended, the run of the spec: SOCKS5 RESOLVE of the literal "1.2.3.4" on
a little-endian host; the reply is 05 00 00 01 01 02 03 04 00 00 and no circuit
is involved. -/
theorem C23_resolve_shortcut_witness :
    (connection_ap_handshake_process_socks retry_env
        { sockshere := 1,
          socks := { socks_version := 5, command := SOCKS_COMMAND_RESOLVE,
                     address := "1.2.3.4".toList },
          inbuf := [], rend_r := 0, rend_received := 0, attach := attach_outcome.not_yet }
        1000 { conn := {} }).1 = 0 ∧
    (connection_ap_handshake_process_socks retry_env
        { sockshere := 1,
          socks := { socks_version := 5, command := SOCKS_COMMAND_RESOLVE,
                     address := "1.2.3.4".toList },
          inbuf := [], rend_r := 0, rend_received := 0, attach := attach_outcome.not_yet }
        1000 { conn := {} }).2.conn.outbuf
      = [] ++ (if 5 = 4 then [0x00, 0x5A, 0x00, 0x00] ++ [1, 2, 3, 4]
          else [0x05, 0x00, 0x00, 0x01] ++ [1, 2, 3, 4] ++ [0x00, 0x00]) := by
  have h := C23_resolve_shortcut retry_env
    { sockshere := 1,
      socks := { socks_version := 5, command := SOCKS_COMMAND_RESOLVE,
                 address := "1.2.3.4".toList },
      inbuf := [], rend_r := 0, rend_received := 0, attach := attach_outcome.not_yet }
    1000 { conn := {} } [1, 2, 3, 4] rfl rfl
    (Or.inl ⟨by decide, by decide, 67305985, by decide, by decide, by decide⟩)
  exact ⟨h.1, h.2.1⟩

theorem send_begin_keeps_request (be : Bool) (aton : CStr → Option Nat) (rps : Nat) (sws : Int)
    (dns : client_dns) (now : Int) (ap_conn : connection_t) (circ : circuit_t) (send_ret : Int) :
    (connection_ap_handshake_send_begin be aton rps sws dns now ap_conn circ
        send_ret).2.1.socks_request = ap_conn.socks_request ∧
    (connection_ap_handshake_send_begin be aton rps sws dns now ap_conn circ
        send_ret).2.1.chosen_exit_name = ap_conn.chosen_exit_name := by
  unfold connection_ap_handshake_send_begin
  simp only
  split_ifs <;> exact ⟨rfl, rfl⟩

theorem send_resolve_keeps_request (ap_conn : connection_t) (circ : circuit_t) (send_ret : Int) :
    (connection_ap_handshake_send_resolve ap_conn circ send_ret).2.1.socks_request
      = ap_conn.socks_request ∧
    (connection_ap_handshake_send_resolve ap_conn circ send_ret).2.1.chosen_exit_name
      = ap_conn.chosen_exit_name := by
  unfold connection_ap_handshake_send_resolve
  simp only
  split_ifs <;> exact ⟨rfl, rfl⟩

theorem attach_circuit_keeps_request (env : edge_env) (o : attach_outcome) (now : Int)
    (w : edge_world) :
    (connection_ap_handshake_attach_circuit env o now w).2.conn.socks_request
      = w.conn.socks_request ∧
    (connection_ap_handshake_attach_circuit env o now w).2.conn.chosen_exit_name
      = w.conn.chosen_exit_name := by
  unfold connection_ap_handshake_attach_circuit
  cases o with
  | never => exact ⟨rfl, rfl⟩
  | not_yet => exact ⟨rfl, rfl⟩
  | found circ send_ret =>
    simp only
    split_ifs
    · exact send_begin_keeps_request env.big_endian env.tor_inet_aton env.RELAY_PAYLOAD_SIZE
        env.STREAMWINDOW_START w.dns now w.conn
        { circ with p_streams := w.conn :: circ.p_streams } send_ret
    · exact send_resolve_keeps_request w.conn { circ with p_streams := w.conn :: circ.p_streams }
        send_ret

theorem attach_circuit_address (env : edge_env) (o : attach_outcome) (now : Int)
    (w : edge_world) :
    (connection_ap_handshake_attach_circuit env o now w).2.conn.socks_request.address
      = w.conn.socks_request.address :=
  congrArg socks_request_t.address (attach_circuit_keeps_request env o now w).1

theorem attach_circuit_exit_name (env : edge_env) (o : attach_outcome) (now : Int)
    (w : edge_world) :
    (connection_ap_handshake_attach_circuit env o now w).2.conn.chosen_exit_name
      = w.conn.chosen_exit_name :=
  (attach_circuit_keeps_request env o now w).2

theorem socks_resolved_address (env : edge_env) (now : Int) (dns : client_dns)
    (conn : connection_t) (answer_type : Nat) (answer : List Nat) :
    (connection_ap_handshake_socks_resolved env now dns conn answer_type
        answer).1.socks_request.address = conn.socks_request.address := by
  rw [socks_resolved_conn]

theorem socks_resolved_exit_name (env : edge_env) (now : Int) (dns : client_dns)
    (conn : connection_t) (answer_type : Nat) (answer : List Nat) :
    (connection_ap_handshake_socks_resolved env now dns conn answer_type
        answer).1.chosen_exit_name = conn.chosen_exit_name := by
  rw [socks_resolved_conn]

/-- The part of `connection_ap_handshake_process_socks` after the classifier
leaves the SOCKS address and `chosen_exit_name` alone. -/
theorem process_socks_normal_keeps_address (env : edge_env) (o : socks_oracle) (now : Int)
    (w : edge_world) :
    (connection_ap_handshake_process_socks_normal env o now w).2.conn.socks_request.address
      = w.conn.socks_request.address ∧
    (connection_ap_handshake_process_socks_normal env o now w).2.conn.chosen_exit_name
      = w.conn.chosen_exit_name := by
  unfold connection_ap_handshake_process_socks_normal
  simp only
  split_ifs <;>
    simp only [socks_resolved_address, socks_resolved_exit_name, attach_circuit_address,
      attach_circuit_exit_name, connection_mark_for_close, and_self]

/-- C24. Exit pinning split.  For every completed SOCKS request whose address
is `H.N.exit` with `N` non-empty and free of dots,
`connection_ap_handshake_process_socks` leaves the SOCKS address equal to `H`
and `chosen_exit_name` equal to `N`.  When the text `T` left after stripping
".exit" has no dot or ends with a dot (an empty nickname), it returns -1 and
`chosen_exit_name` is what it was. -/
theorem C24_exit_pinning_split (env : edge_env) (o : socks_oracle) (now : Int) (w : edge_world)
    (hdone : o.sockshere = 1) :
    (∀ H N : CStr, o.socks.address = H ++ '.' :: N ++ ".exit".toList → N ≠ [] → '.' ∉ N →
      (connection_ap_handshake_process_socks env o now w).2.conn.socks_request.address = H ∧
      (connection_ap_handshake_process_socks env o now w).2.conn.chosen_exit_name = some N) ∧
    (∀ T : CStr, o.socks.address = T ++ ".exit".toList →
      ('.' ∉ T ∨ ∃ T0 : CStr, T = T0 ++ ['.']) →
      (connection_ap_handshake_process_socks env o now w).1 = -1 ∧
      (connection_ap_handshake_process_socks env o now w).2.conn.chosen_exit_name
        = w.conn.chosen_exit_name) := by
  have hnot : ¬ (o.sockshere = -1 ∨ o.sockshere = 0) := by
    rw [hdone]; decide
  constructor
  · intro H N haddr hN hdot
    rw [process_socks_of_exit env o now w H N hdone haddr hN hdot]
    have h := process_socks_normal_keeps_address env o now
      { w with conn :=
          { w.conn with socks_request := { o.socks with address := H },
                        inbuf := o.inbuf,
                        chosen_exit_name := some N } }
    exact ⟨h.1, h.2⟩
  · intro T haddr hT
    have hparse := exit_suffix_classified env.REND_SERVICE_ID_LEN env.rend_valid_service_id
      T "exit".toList (by decide) (by decide)
    have hform : T ++ ".exit".toList = T ++ '.' :: "exit".toList := rfl
    unfold connection_ap_handshake_process_socks
    simp only
    rw [if_neg hnot, haddr, hform, hparse]
    simp only [if_true]
    rcases hT with hno | ⟨T0, hT0⟩
    · rw [(strrchr_split_none '.' T).mpr hno]
      exact ⟨rfl, rfl⟩
    · have hsplit : strrchr_split '.' T = some (T0, []) := by
        rw [hT0]
        exact strrchr_split_append '.' T0 [] (by simp)
      rw [hsplit]
      exact ⟨rfl, rfl⟩

/-- C24, the address of the spec: "www.example.com.myexit.exit" is split into
the host "www.example.com" and the exit "myexit". -/
theorem C24_exit_pinning_split_witness :
    (connection_ap_handshake_process_socks retry_env
        { sockshere := 1,
          socks := { socks_version := 5, command := SOCKS_COMMAND_CONNECT,
                     address := "www.example.com.myexit.exit".toList, port := 80 },
          inbuf := [], rend_r := 0, rend_received := 0, attach := attach_outcome.not_yet }
        1000 { conn := {} }).2.conn.socks_request.address = "www.example.com".toList ∧
    (connection_ap_handshake_process_socks retry_env
        { sockshere := 1,
          socks := { socks_version := 5, command := SOCKS_COMMAND_CONNECT,
                     address := "www.example.com.myexit.exit".toList, port := 80 },
          inbuf := [], rend_r := 0, rend_received := 0, attach := attach_outcome.not_yet }
        1000 { conn := {} }).2.conn.chosen_exit_name = some "myexit".toList :=
  (C24_exit_pinning_split retry_env
    { sockshere := 1,
      socks := { socks_version := 5, command := SOCKS_COMMAND_CONNECT,
                 address := "www.example.com.myexit.exit".toList, port := 80 },
      inbuf := [], rend_r := 0, rend_received := 0, attach := attach_outcome.not_yet }
    1000 { conn := {} } rfl).1 "www.example.com".toList "myexit".toList
    (by decide) (by decide) (by decide)

theorem parse_extended_hostname_onion_length (N : Nat) (valid : CStr → Bool) (address id : CStr)
    (h : parse_extended_hostname N valid address = (hostname_type_t.ONION_HOSTNAME, id)) :
    id.length ≤ N := by
  unfold parse_extended_hostname at h
  cases hs : strrchr_split '.' address with
  | none =>
    rw [hs] at h
    simp only [Prod.mk.injEq, reduceCtorEq, false_and] at h
  | some p =>
    obtain ⟨pre, suf⟩ := p
    rw [hs] at h
    simp only at h
    split_ifs at h with h1 h2 h3 h4
    all_goals first
      | (simp only [Prod.mk.injEq, reduceCtorEq, false_and] at h; done)
      | (simp only [Prod.mk.injEq, true_and] at h
         rw [← h]
         simp only [tor_strlower, List.length_map]
         omega)

/-- C25. Hidden-service dispatch.  For every completed SOCKS request that the
classifier reports as ONION, leaving the service id `id` in the address:
a CONNECT request has `id` copied into `rend_query`, and then
`connection_ap_handshake_process_socks` returns -1 if `rend_cache_lookup_entry`
reports an invalid id (`r < 0`); sets the state to RENDDESC_WAIT, asks for a
refetch of the descriptor of `id` and returns 0 if the descriptor is missing
(`r == 0`) or was received 15 minutes or more ago; and sets the state to
CIRCUIT_WAIT and returns what `connection_ap_handshake_attach_circuit` does
with the stream if the descriptor was received less than 15 minutes ago.  A
RESOLVE request gets the error reply and -1. -/
theorem C25_hidden_service_dispatch (env : edge_env) (o : socks_oracle) (now : Int)
    (w : edge_world) (id : CStr) (hdone : o.sockshere = 1)
    (honion : parse_extended_hostname env.REND_SERVICE_ID_LEN env.rend_valid_service_id
      o.socks.address = (hostname_type_t.ONION_HOSTNAME, id)) :
    (o.socks.command = SOCKS_COMMAND_CONNECT →
      (o.rend_r < 0 →
        (connection_ap_handshake_process_socks env o now w).1 = -1 ∧
        (connection_ap_handshake_process_socks env o now w).2.conn.rend_query = id) ∧
      (o.rend_r = 0 ∨ (0 < o.rend_r ∧ 15 * 60 ≤ now - o.rend_received) →
        (connection_ap_handshake_process_socks env o now w).1 = 0 ∧
        (connection_ap_handshake_process_socks env o now w).2.conn.rend_query = id ∧
        (connection_ap_handshake_process_socks env o now w).2.conn.state
          = conn_state.AP_CONN_STATE_RENDDESC_WAIT ∧
        (connection_ap_handshake_process_socks env o now w).2.refetched
          = w.refetched ++ [id]) ∧
      (0 < o.rend_r ∧ now - o.rend_received < 15 * 60 →
        connection_ap_handshake_process_socks env o now w
          = connection_ap_handshake_attach_circuit env o.attach now
              { w with conn :=
                  { w.conn with socks_request := { o.socks with address := id },
                                inbuf := o.inbuf,
                                rend_query := id,
                                state := conn_state.AP_CONN_STATE_CIRCUIT_WAIT } })) ∧
    (o.socks.command = SOCKS_COMMAND_RESOLVE →
      (connection_ap_handshake_process_socks env o now w).1 = -1 ∧
      (connection_ap_handshake_process_socks env o now w).2.conn.outbuf
        = w.conn.outbuf ++
          (if o.socks.socks_version = 4 then [0x00, 0x5B, 0, 0, 0, 0, 0, 0]
            else [0x05, 0x04, 0, 0, 0, 0, 0, 0, 0, 0]) ∧
      (connection_ap_handshake_process_socks env o now w).2.conn.socks_request.has_finished
        = true) := by
  have hnot : ¬ (o.sockshere = -1 ∨ o.sockshere = 0) := by
    rw [hdone]; decide
  have htake : id.take env.REND_SERVICE_ID_LEN = id :=
    List.take_of_length_le (parse_extended_hostname_onion_length _ _ _ _ honion)
  have hrun : connection_ap_handshake_process_socks env o now w
      = connection_ap_handshake_process_socks_onion env o now
          { w with conn := { w.conn with socks_request := { o.socks with address := id },
                                         inbuf := o.inbuf } } := by
    unfold connection_ap_handshake_process_socks
    simp only
    rw [if_neg hnot, honion]
    simp only [reduceCtorEq, if_false, ne_eq, not_true_eq_false]
  rw [hrun]
  unfold connection_ap_handshake_process_socks_onion
  simp only
  rw [htake]
  constructor
  · intro hconnect
    have hcmd : ¬ (o.socks.command = SOCKS_COMMAND_RESOLVE) := by
      rw [hconnect]; decide
    rw [if_neg hcmd]
    refine ⟨?_, ?_, ?_⟩
    · intro hr
      rw [if_pos hr]
      exact ⟨rfl, rfl⟩
    · intro hr
      rcases hr with hr | ⟨hr, hold⟩
      · have h1 : ¬ (o.rend_r < 0) := by omega
        rw [if_neg h1, if_pos hr]
        exact ⟨rfl, rfl, rfl, rfl⟩
      · have h1 : ¬ (o.rend_r < 0) := by omega
        have h2 : ¬ (o.rend_r = 0) := by omega
        have h3 : ¬ (now - o.rend_received < 60 * 15) := by omega
        rw [if_neg h1, if_neg h2, if_neg h3]
        exact ⟨rfl, rfl, rfl, rfl⟩
    · intro hr
      have h1 : ¬ (o.rend_r < 0) := by omega
      have h2 : ¬ (o.rend_r = 0) := by omega
      have h3 : now - o.rend_received < 60 * 15 := by omega
      rw [if_neg h1, if_neg h2, if_pos h3]
  · intro hresolve
    rw [if_pos hresolve]
    simp only [socks_resolved_conn]
    have h4 : ¬ (RESOLVED_TYPE_ERROR = RESOLVED_TYPE_IPV4 ∧ ([] : List Nat).length = 4) := by
      decide
    have h6 : ¬ (RESOLVED_TYPE_ERROR = RESOLVED_TYPE_IPV6 ∧ ([] : List Nat).length = 16) := by
      decide
    rw [if_neg h4, if_neg h4, if_neg h6]
    refine ⟨trivial, ?_, trivial⟩
    by_cases hv : o.socks.socks_version = 4
    · simp only [hv, if_true]
      rfl
    · simp only [hv, if_false]
      rfl

/-- C25, a concrete run: CONNECT to "ABCDEFGHIJ234567.onion" port 80 with no
descriptor in the cache; the stream waits in RENDDESC_WAIT for the descriptor of
"abcdefghij234567". -/
theorem C25_hidden_service_dispatch_witness :
    (connection_ap_handshake_process_socks retry_env
        { sockshere := 1,
          socks := { socks_version := 5, command := SOCKS_COMMAND_CONNECT,
                     address := "ABCDEFGHIJ234567.onion".toList, port := 80 },
          inbuf := [], rend_r := 0, rend_received := 0, attach := attach_outcome.not_yet }
        1000 { conn := {} }).1 = 0 ∧
    (connection_ap_handshake_process_socks retry_env
        { sockshere := 1,
          socks := { socks_version := 5, command := SOCKS_COMMAND_CONNECT,
                     address := "ABCDEFGHIJ234567.onion".toList, port := 80 },
          inbuf := [], rend_r := 0, rend_received := 0, attach := attach_outcome.not_yet }
        1000 { conn := {} }).2.conn.rend_query = "abcdefghij234567".toList ∧
    (connection_ap_handshake_process_socks retry_env
        { sockshere := 1,
          socks := { socks_version := 5, command := SOCKS_COMMAND_CONNECT,
                     address := "ABCDEFGHIJ234567.onion".toList, port := 80 },
          inbuf := [], rend_r := 0, rend_received := 0, attach := attach_outcome.not_yet }
        1000 { conn := {} }).2.conn.state = conn_state.AP_CONN_STATE_RENDDESC_WAIT ∧
    (connection_ap_handshake_process_socks retry_env
        { sockshere := 1,
          socks := { socks_version := 5, command := SOCKS_COMMAND_CONNECT,
                     address := "ABCDEFGHIJ234567.onion".toList, port := 80 },
          inbuf := [], rend_r := 0, rend_received := 0, attach := attach_outcome.not_yet }
        1000 { conn := {} }).2.refetched = [] ++ ["abcdefghij234567".toList] :=
  ((C25_hidden_service_dispatch retry_env
    { sockshere := 1,
      socks := { socks_version := 5, command := SOCKS_COMMAND_CONNECT,
                 address := "ABCDEFGHIJ234567.onion".toList, port := 80 },
      inbuf := [], rend_r := 0, rend_received := 0, attach := attach_outcome.not_yet }
    1000 { conn := {} } "abcdefghij234567".toList rfl (by decide)).1 rfl).2.1 (Or.inl rfl)

/-! ## End of file -/

theorem connection_edge_end_silent (be : Bool) (conn : connection_t) (reason : Nat)
    (cpath : Option Nat) (circ : Option circuit_t)
    (h : conn.has_sent_end = true ∨ circ = none ∨
      ∃ c, circ = some c ∧ c.marked_for_close = true) :
    (connection_edge_end be conn reason cpath circ).2.2 = [] := by
  unfold connection_edge_end
  by_cases hs : conn.has_sent_end = true
  · rw [if_pos hs]
  · rw [if_neg hs]
    rcases h with h | h | ⟨c, hc, hm⟩
    · exact absurd h hs
    · rw [h]
    · rw [hc]
      simp only [hm, not_true_eq_false, if_false]

/-- C26, as stated, fails.  An open AP stream with an empty inbuf, on a live
circuit and not marked for close, gets its END cell with reason DONE and is
marked for close, but `hold_open_until_flushed` stays clear; and a stream in
CIRCUIT_WAIT, which is on no circuit, is marked for close with no END cell
sent. -/
theorem C26_eof_without_hold_open :
    ((connection_edge_reached_eof retry_env
        { retry_world with
            conn := { retry_world.conn with state := conn_state.AP_CONN_STATE_OPEN }
        }).2.conn.marked_for_close = true ∧
      (connection_edge_reached_eof retry_env
        { retry_world with
            conn := { retry_world.conn with state := conn_state.AP_CONN_STATE_OPEN }
        }).2.conn.hold_open_until_flushed = false) ∧
    ((connection_edge_reached_eof retry_env
        { conn := { state := conn_state.AP_CONN_STATE_CIRCUIT_WAIT } }).2.conn.marked_for_close
        = true ∧
      (connection_edge_reached_eof retry_env
        { conn := { state := conn_state.AP_CONN_STATE_CIRCUIT_WAIT } }).2.sent = []) := by
  decide

/-- C26, amended.  For every edge stream that is not yet marked for close and
has no unprocessed inbound data, `connection_edge_reached_eof` returns 0 after
it has called `connection_edge_end` with reason DONE, which sends the END cell
when the stream has not sent one and is on a circuit that is not marked for
close, and has marked the stream for close with `has_sent_end` set;
`hold_open_until_flushed` and everything else in the stream are as before.  For
a stream in an open state that still has inbound data it returns 0 and changes
nothing. -/
theorem C26_reached_eof (env : edge_env) (w : edge_world) :
    (w.conn.marked_for_close = false → w.conn.inbuf = [] →
      (connection_edge_reached_eof env w).1 = 0 ∧
      (connection_edge_reached_eof env w).2.conn
        = { w.conn with has_sent_end := true, marked_for_close := true } ∧
      (connection_edge_reached_eof env w).2.conn.hold_open_until_flushed
        = w.conn.hold_open_until_flushed ∧
      (∀ circ : circuit_t, w.circ = some circ → circ.marked_for_close = false →
        w.conn.has_sent_end = false →
        (connection_edge_reached_eof env w).2.sent
          = w.sent ++ [end_cell w.conn circ END_STREAM_REASON_DONE]) ∧
      (w.conn.has_sent_end = true ∨ w.circ = none ∨
          (∃ circ, w.circ = some circ ∧ circ.marked_for_close = true) →
        (connection_edge_reached_eof env w).2.sent = w.sent)) ∧
    (w.conn.inbuf ≠ [] → env.connection_state_is_open w.conn = true →
      connection_edge_reached_eof env w = (0, w)) := by
  constructor
  · intro hmark hbuf
    have h1 : ¬ (w.conn.inbuf.length ≠ 0 ∧ env.connection_state_is_open w.conn = true) := by
      rw [hbuf]
      simp
    have h2 : ¬ w.conn.marked_for_close = true := by
      rw [hmark]; decide
    have hrun : connection_edge_reached_eof env w
        = (0, { (connection_edge_end_w env END_STREAM_REASON_DONE w).2 with
                  conn := connection_mark_for_close
                    (connection_edge_end_w env END_STREAM_REASON_DONE w).2.conn }) := by
      unfold connection_edge_reached_eof
      rw [if_neg h1, if_pos h2]
    have hconn : (connection_edge_end_w env END_STREAM_REASON_DONE w).2.conn
        = { w.conn with has_sent_end := true } :=
      connection_edge_end_conn env.big_endian w.conn END_STREAM_REASON_DONE w.conn.cpath_layer
        w.circ
    have hsent : (connection_edge_end_w env END_STREAM_REASON_DONE w).2.sent
        = w.sent ++ (connection_edge_end env.big_endian w.conn END_STREAM_REASON_DONE
            w.conn.cpath_layer w.circ).2.2 := rfl
    rw [hrun]
    refine ⟨rfl, ?_, ?_, ?_, ?_⟩
    · simp only [hconn, connection_mark_for_close]
    · simp only [hconn, connection_mark_for_close]
    · intro circ hcirc hlive hnew
      show (connection_edge_end_w env END_STREAM_REASON_DONE w).2.sent = _
      rw [hsent, hcirc,
        connection_edge_end_cells env.big_endian w.conn END_STREAM_REASON_DONE circ hnew hlive
          (by decide)]
    · intro h
      show (connection_edge_end_w env END_STREAM_REASON_DONE w).2.sent = _
      rw [hsent, connection_edge_end_silent _ _ _ _ _ h, List.append_nil]
  · intro hbuf hopen
    have h1 : w.conn.inbuf.length ≠ 0 ∧ env.connection_state_is_open w.conn = true :=
      ⟨fun h => hbuf (List.length_eq_zero.mp h), hopen⟩
    unfold connection_edge_reached_eof
    rw [if_pos h1]

/-- C26 amended, a concrete run: the open stream 5 on circuit 1 reaches EOF
with an empty inbuf; the END cell with reason DONE goes out and the stream is
marked for close. -/
theorem C26_reached_eof_witness :
    (connection_edge_reached_eof retry_env
        { retry_world with
            conn := { retry_world.conn with state := conn_state.AP_CONN_STATE_OPEN }
        }).2.conn.marked_for_close = true ∧
    (connection_edge_reached_eof retry_env
        { retry_world with
            conn := { retry_world.conn with state := conn_state.AP_CONN_STATE_OPEN }
        }).2.sent
      = [{ circ_id := 1, stream_id := 5, relay_command := relay_command.RELAY_COMMAND_END,
           payload := [6], cpath_layer := none }] := by
  have h := (C26_reached_eof retry_env
    { retry_world with
        conn := { retry_world.conn with state := conn_state.AP_CONN_STATE_OPEN } }).1 rfl rfl
  exact ⟨congrArg connection_t.marked_for_close h.2.1,
    h.2.2.2.1 { n_circ_id := 1, timestamp_dirty := 90, next_stream_id := 6 } rfl rfl rfl⟩

/-! ## Client DNS cache: the size invariant -/

theorem strmap_get_eq_none_iff {α : Type} (m : strmap_t α) (k : CStr) :
    strmap_get m k = none ↔ k ∉ m.map Prod.fst := by
  induction m with
  | nil => simp [strmap_get]
  | cons p rest ih =>
    obtain ⟨k0, v0⟩ := p
    unfold strmap_get
    by_cases h : k0 = k
    · subst h
      simp only [if_true, reduceCtorEq, List.map_cons, List.mem_cons, true_or,
        not_true_eq_false]
    · simp only [h, if_false, ih, List.map_cons, List.mem_cons, not_or]
      exact ⟨fun hr => ⟨fun hk => h hk.symm, hr⟩, fun hr => hr.2⟩

theorem strmap_set_keys_of_none {α : Type} (m : strmap_t α) (k : CStr) (v : α)
    (h : strmap_get m k = none) :
    (strmap_set m k v).map Prod.fst = m.map Prod.fst ++ [k] := by
  induction m with
  | nil => rfl
  | cons p rest ih =>
    obtain ⟨k0, v0⟩ := p
    unfold strmap_get at h
    unfold strmap_set
    by_cases hk : k0 = k
    · simp [hk] at h
    · simp only [hk, if_false] at h ⊢
      simp only [List.map_cons, List.cons_append, ih h]

theorem strmap_set_keys_of_some {α : Type} (m : strmap_t α) (k : CStr) (v x : α)
    (h : strmap_get m k = some x) :
    (strmap_set m k v).map Prod.fst = m.map Prod.fst := by
  induction m with
  | nil => simp [strmap_get] at h
  | cons p rest ih =>
    obtain ⟨k0, v0⟩ := p
    unfold strmap_get at h
    unfold strmap_set
    by_cases hk : k0 = k
    · simp only [hk, if_true, List.map_cons]
    · simp only [hk, if_false] at h ⊢
      simp only [List.map_cons, ih h]

theorem strmap_remove_keys {α : Type} (m : strmap_t α) (k : CStr) :
    (strmap_remove m k).map Prod.fst = (m.map Prod.fst).filter (fun x => decide (x ≠ k)) := by
  induction m with
  | nil => rfl
  | cons p rest ih =>
    obtain ⟨k0, v0⟩ := p
    unfold strmap_remove
    by_cases hk : k0 = k
    · simp [hk, ih]
    · simp [hk, ih]

theorem strmap_remove_length {α : Type} (m : strmap_t α) (k : CStr) (x : α)
    (h : strmap_get m k = some x) (hnodup : (m.map Prod.fst).Nodup) :
    (strmap_remove m k).length + 1 = m.length := by
  induction m with
  | nil => simp [strmap_get] at h
  | cons p rest ih =>
    obtain ⟨k0, v0⟩ := p
    rw [List.map_cons, List.nodup_cons] at hnodup
    unfold strmap_get at h
    unfold strmap_remove
    by_cases hk : k0 = k
    · subst hk
      have hnot : strmap_get rest k0 = none := (strmap_get_eq_none_iff rest k0).mpr hnodup.1
      have hsame : strmap_remove rest k0 = rest := by
        clear ih h hnodup
        induction rest with
        | nil => rfl
        | cons q rest2 ih2 =>
          obtain ⟨k1, v1⟩ := q
          unfold strmap_get at hnot
          unfold strmap_remove
          by_cases hk1 : k1 = k0
          · simp [hk1] at hnot
          · simp only [hk1, if_false] at hnot ⊢
            rw [ih2 hnot]
      simp only [if_true, hsame, List.length_cons]
    · simp only [hk, if_false] at h ⊢
      simp only [List.length_cons, ih h hnodup.2]

theorem strmap_foreach_remove_if_expired (now : Int) (m : strmap_t client_dns_entry)
    (size : Int) :
    (strmap_foreach (fun addr ent s => _remove_if_expired addr ent now s) m size).1
      = m.filter (fun p => decide (¬ p.2.expires < now)) ∧
    (strmap_foreach (fun addr ent s => _remove_if_expired addr ent now s) m size).2
      = size - (m.length - (m.filter (fun p => decide (¬ p.2.expires < now))).length : Nat) := by
  induction m generalizing size with
  | nil => simp [strmap_foreach]
  | cons p rest ih =>
    obtain ⟨k0, v0⟩ := p
    have hle := List.length_filter_le (fun p : CStr × client_dns_entry =>
      decide (¬ p.2.expires < now)) rest
    unfold strmap_foreach
    simp only [_remove_if_expired] at ih ⊢
    by_cases hexp : v0.expires < now
    · simp only [hexp, if_true, not_true_eq_false, decide_False,
        Bool.false_eq_true, not_false_eq_true, List.filter_cons_of_neg, List.length_cons]
      refine ⟨(ih (size - 1)).1, ?_⟩
      rw [(ih (size - 1)).2]
      omega
    · simp only [hexp, if_false, not_false_eq_true, decide_True,
        List.filter_cons_of_pos, List.length_cons]
      refine ⟨by rw [(ih size).1], ?_⟩
      rw [(ih size).2]
      omega

theorem client_dns_init_wf : client_dns_wf client_dns_init :=
  ⟨rfl, List.nodup_nil⟩

/-- Writing an entry back under a key that the map holds keeps the invariant. -/
theorem client_dns_wf_set_present (st : client_dns) (address : CStr)
    (x ent : client_dns_entry) (hwf : client_dns_wf st)
    (hget : strmap_get_lc st.client_dns_map address = some x) :
    client_dns_wf { st with client_dns_map := strmap_set_lc st.client_dns_map address ent } := by
  have hkeys := strmap_set_keys_of_some st.client_dns_map (tor_strlower address) ent x hget
  have hlen : (strmap_set_lc st.client_dns_map address ent).length = st.client_dns_map.length := by
    have h := congrArg List.length hkeys
    simpa only [List.length_map] using h
  refine ⟨?_, ?_⟩
  · show st.client_dns_size = _
    rw [hlen]
    exact hwf.1
  · show ((strmap_set_lc st.client_dns_map address ent).map Prod.fst).Nodup
    unfold strmap_set_lc
    rw [hkeys]
    exact hwf.2

theorem get_or_create_ent_wf (maxAge : Int) (st : client_dns) (address : CStr) (now : Int)
    (hwf : client_dns_wf st) :
    client_dns_wf (_get_or_create_ent maxAge st address now).2 ∧
    strmap_get_lc (_get_or_create_ent maxAge st address now).2.client_dns_map address
      = some (_get_or_create_ent maxAge st address now).1 := by
  unfold _get_or_create_ent
  cases hget : strmap_get_lc st.client_dns_map address with
  | some ent => exact ⟨hwf, hget⟩
  | none =>
    have hkeys := strmap_set_keys_of_none st.client_dns_map (tor_strlower address)
      { addr := 0, expires := now + maxAge, n_failures := 0 } hget
    have hlen := congrArg List.length hkeys
    simp only [List.length_map, List.length_append, List.length_singleton] at hlen
    refine ⟨⟨?_, ?_⟩, ?_⟩
    · show st.client_dns_size + 1 = ((strmap_set_lc st.client_dns_map address _).length : Int)
      unfold strmap_set_lc
      rw [hlen, hwf.1]
      push_cast
      rfl
    · show ((strmap_set_lc st.client_dns_map address _).map Prod.fst).Nodup
      unfold strmap_set_lc
      rw [hkeys]
      have hnot := (strmap_get_eq_none_iff st.client_dns_map (tor_strlower address)).mp hget
      exact List.Nodup.append hwf.2 (List.nodup_singleton _)
        (by
          intro x hx hx'
          rw [List.mem_singleton] at hx'
          subst hx'
          exact hnot hx)
    · exact strmap_get_set_same _ _ _

theorem client_dns_lookup_entry_wf (be : Bool) (aton : CStr → Option Nat) (st : client_dns)
    (address : CStr) (now : Int) (hwf : client_dns_wf st) :
    client_dns_wf (client_dns_lookup_entry be aton st address now).2 := by
  unfold client_dns_lookup_entry
  cases aton address with
  | some s => exact hwf
  | none =>
    simp only
    cases hget : strmap_get_lc st.client_dns_map address with
    | none => exact hwf
    | some ent =>
      simp only
      split_ifs
      · exact hwf
      · have hlen := strmap_remove_length st.client_dns_map (tor_strlower address) ent hget hwf.2
        refine ⟨?_, ?_⟩
        · show st.client_dns_size - 1 = ((strmap_remove_lc st.client_dns_map address).length : Int)
          unfold strmap_remove_lc
          rw [hwf.1, ← hlen]
          push_cast
          omega
        · show ((strmap_remove_lc st.client_dns_map address).map Prod.fst).Nodup
          unfold strmap_remove_lc
          rw [strmap_remove_keys]
          exact List.Nodup.filter _ hwf.2
      · exact hwf

theorem client_dns_set_entry_wf (aton : CStr → Option Nat) (maxAge : Int) (st : client_dns)
    (address : CStr) (val : Nat) (now : Int) (hwf : client_dns_wf st) :
    client_dns_wf (client_dns_set_entry aton maxAge st address val now) := by
  unfold client_dns_set_entry
  cases aton address with
  | some s => exact hwf
  | none =>
    have h := get_or_create_ent_wf maxAge st address now hwf
    exact client_dns_wf_set_present _ address _ _ h.1 h.2

theorem client_dns_incr_failures_wf (maxAge : Int) (st : client_dns) (address : CStr)
    (now : Int) (hwf : client_dns_wf st) :
    client_dns_wf (client_dns_incr_failures maxAge st address now).2 := by
  unfold client_dns_incr_failures
  have h := get_or_create_ent_wf maxAge st address now hwf
  exact client_dns_wf_set_present _ address _ _ h.1 h.2

theorem client_dns_clean_wf (st : client_dns) (now : Int) (hwf : client_dns_wf st) :
    client_dns_wf (client_dns_clean st now) := by
  unfold client_dns_clean
  by_cases h0 : st.client_dns_size = 0
  · rw [if_pos h0]
    exact hwf
  · rw [if_neg h0]
    have h := strmap_foreach_remove_if_expired now st.client_dns_map st.client_dns_size
    have hle := List.length_filter_le (fun p : CStr × client_dns_entry =>
      decide (¬ p.2.expires < now)) st.client_dns_map
    refine ⟨?_, ?_⟩
    · show (strmap_foreach _ st.client_dns_map st.client_dns_size).2
        = (((strmap_foreach _ st.client_dns_map st.client_dns_size).1).length : Int)
      rw [h.1, h.2, hwf.1]
      omega
    · show (((strmap_foreach _ st.client_dns_map st.client_dns_size).1).map Prod.fst).Nodup
      rw [h.1]
      exact List.Nodup.sublist (List.Sublist.map _ (List.filter_sublist _)) hwf.2

theorem client_dns_step_wf (be : Bool) (aton : CStr → Option Nat) (maxAge : Int)
    (st : client_dns) (op : client_dns_op) (hwf : client_dns_wf st) :
    client_dns_wf (client_dns_step be aton maxAge st op) := by
  cases op with
  | lookup_entry address now => exact client_dns_lookup_entry_wf be aton st address now hwf
  | set_entry address val now => exact client_dns_set_entry_wf aton maxAge st address val now hwf
  | incr_failures address now => exact client_dns_incr_failures_wf maxAge st address now hwf
  | clean now => exact client_dns_clean_wf st now hwf

theorem client_dns_foldl_wf (be : Bool) (aton : CStr → Option Nat) (maxAge : Int)
    (ops : List client_dns_op) (st : client_dns) (hwf : client_dns_wf st) :
    client_dns_wf (ops.foldl (client_dns_step be aton maxAge) st) := by
  induction ops generalizing st with
  | nil => exact hwf
  | cons op rest ih => exact ih _ (client_dns_step_wf be aton maxAge st op hwf)

/-- C27. Client DNS size invariant.  After `client_dns_init` and any sequence
of calls of `client_dns_lookup_entry`, `client_dns_set_entry`,
`client_dns_incr_failures` and `client_dns_clean`, at any times,
`client_dns_size` equals the number of entries that `client_dns_map` holds. -/
theorem C27_client_dns_size (big_endian : Bool) (tor_inet_aton : CStr → Option Nat)
    (MAX_DNS_ENTRY_AGE : Int) (ops : List client_dns_op) :
    (client_dns_run big_endian tor_inet_aton MAX_DNS_ENTRY_AGE ops).client_dns_size
      = (client_dns_run big_endian tor_inet_aton MAX_DNS_ENTRY_AGE ops).client_dns_map.length :=
  (client_dns_foldl_wf big_endian tor_inet_aton MAX_DNS_ENTRY_AGE ops client_dns_init
    client_dns_init_wf).1

/-! ## Client DNS cache: cleaning and failure counts -/

theorem strmap_get_filter {α : Type} (m : strmap_t α) (P : CStr × α → Bool) (k : CStr)
    (hnodup : (m.map Prod.fst).Nodup) :
    strmap_get (m.filter P) k
      = (strmap_get m k).bind (fun v => if P (k, v) = true then some v else none) := by
  induction m with
  | nil => rfl
  | cons p rest ih =>
    obtain ⟨k0, v0⟩ := p
    rw [List.map_cons, List.nodup_cons] at hnodup
    by_cases hk : k0 = k
    · subst hk
      have hrest : strmap_get (rest.filter P) k0 = none := by
        rw [strmap_get_eq_none_iff]
        intro hmem
        exact hnodup.1 ((List.Sublist.map Prod.fst (List.filter_sublist rest)).subset hmem)
      by_cases hp : P (k0, v0) = true
      · simp only [List.filter_cons_of_pos hp, strmap_get, if_true, Option.some_bind, hp]
      · simp only [List.filter_cons_of_neg hp, strmap_get, if_true, Option.some_bind, hp,
          if_false, hrest, Bool.false_eq_true]
    · by_cases hp : P (k0, v0) = true
      · simp only [List.filter_cons_of_pos hp, strmap_get, hk, if_false, ih hnodup.2]
      · simp only [List.filter_cons_of_neg hp, strmap_get, hk, if_false, ih hnodup.2]

theorem client_dns_clean_map (st : client_dns) (now : Int)
    (hempty : st.client_dns_size = 0 → st.client_dns_map = []) :
    (client_dns_clean st now).client_dns_map
      = st.client_dns_map.filter (fun p => decide (¬ p.2.expires < now)) := by
  unfold client_dns_clean
  by_cases h0 : st.client_dns_size = 0
  · rw [if_pos h0, hempty h0]
    rfl
  · rw [if_neg h0]
    exact (strmap_foreach_remove_if_expired now st.client_dns_map st.client_dns_size).1

/-- C28. Client DNS clean.  For every cache state in which `client_dns_size`
counts the entries of a map without double keys (as it does after every
sequence of calls), and every time `now`: after `client_dns_clean` the map
holds exactly the pairs that had `expires >= now` before the call, in the same
order and unchanged, whatever their `addr`; an address finds its entry as
before if that had `expires >= now`, and finds none if it had `expires < now`
or there was none; and no entry with `expires < now` remains. -/
theorem C28_client_dns_clean (st : client_dns) (now : Int) (hwf : client_dns_wf st) :
    (client_dns_clean st now).client_dns_map
      = st.client_dns_map.filter (fun p => decide (now ≤ p.2.expires)) ∧
    (∀ (address : CStr) (ent : client_dns_entry),
      strmap_get_lc st.client_dns_map address = some ent → now ≤ ent.expires →
      strmap_get_lc (client_dns_clean st now).client_dns_map address = some ent) ∧
    (∀ (address : CStr) (ent : client_dns_entry),
      strmap_get_lc st.client_dns_map address = some ent → ent.expires < now →
      strmap_get_lc (client_dns_clean st now).client_dns_map address = none) ∧
    (∀ address : CStr, strmap_get_lc st.client_dns_map address = none →
      strmap_get_lc (client_dns_clean st now).client_dns_map address = none) ∧
    (∀ p ∈ (client_dns_clean st now).client_dns_map, ¬ p.2.expires < now) := by
  have hempty : st.client_dns_size = 0 → st.client_dns_map = [] := by
    intro h0
    have hlen := hwf.1
    rw [h0] at hlen
    exact List.length_eq_zero.mp (by exact_mod_cast hlen.symm)
  have hmap := client_dns_clean_map st now hempty
  have hfilter : (fun p : CStr × client_dns_entry => decide (¬ p.2.expires < now))
      = (fun p => decide (now ≤ p.2.expires)) := by
    funext p
    simp only [not_lt]
  have hget : ∀ address : CStr,
      strmap_get_lc (client_dns_clean st now).client_dns_map address
        = (strmap_get_lc st.client_dns_map address).bind
            (fun v => if decide (¬ v.expires < now) = true then some v else none) := by
    intro address
    unfold strmap_get_lc
    rw [hmap]
    exact strmap_get_filter st.client_dns_map _ (tor_strlower address) hwf.2
  refine ⟨?_, ?_, ?_, ?_, ?_⟩
  · rw [hmap, hfilter]
  · intro address ent hent hfresh
    rw [hget, hent]
    simp only [Option.some_bind, decide_eq_true_eq, not_lt, hfresh, if_true]
  · intro address ent hent hold
    rw [hget, hent]
    simp only [Option.some_bind, decide_eq_true_eq, hold, not_true_eq_false, if_false]
  · intro address hnone
    rw [hget, hnone]
    rfl
  · intro p hp
    rw [hmap, List.mem_filter] at hp
    simpa only [decide_eq_true_eq] using hp.2

/-- C28, a concrete run at second 1000: the entry that expired at 999 goes, the
one that expires at 1000 and the remembered failure that expires at 1500
stay. -/
theorem C28_client_dns_clean_witness :
    (client_dns_clean
        { client_dns_size := 3,
          client_dns_map :=
            [("old.example".toList, { addr := 16909060, expires := 999, n_failures := 0 }),
             ("edge.example".toList, { addr := 16909061, expires := 1000, n_failures := 0 }),
             ("failed.example".toList, { addr := 0, expires := 1500, n_failures := 2 })] }
        1000).client_dns_map
      = List.filter (fun p => decide ((1000 : Int) ≤ p.2.expires))
          [("old.example".toList, { addr := 16909060, expires := 999, n_failures := 0 }),
           ("edge.example".toList, { addr := 16909061, expires := 1000, n_failures := 0 }),
           ("failed.example".toList, { addr := 0, expires := 1500, n_failures := 2 })] :=
  (C28_client_dns_clean
    { client_dns_size := 3,
      client_dns_map :=
        [("old.example".toList, { addr := 16909060, expires := 999, n_failures := 0 }),
         ("edge.example".toList, { addr := 16909061, expires := 1000, n_failures := 0 }),
         ("failed.example".toList, { addr := 0, expires := 1500, n_failures := 2 })] }
    1000 ⟨by decide, by decide⟩).1

theorem client_dns_incr_failures_new (maxAge : Int) (st : client_dns) (address : CStr)
    (now : Int) (hnone : strmap_get_lc st.client_dns_map address = none) :
    (client_dns_incr_failures maxAge st address now).1 = 1 ∧
    strmap_get_lc (client_dns_incr_failures maxAge st address now).2.client_dns_map address
      = some { addr := 0, expires := now + maxAge, n_failures := 1 } := by
  unfold client_dns_incr_failures _get_or_create_ent
  rw [hnone]
  exact ⟨rfl, strmap_get_set_same _ _ _⟩

theorem client_dns_incr_failures_old (maxAge : Int) (st : client_dns) (address : CStr)
    (now : Int) (ent : client_dns_entry)
    (hent : strmap_get_lc st.client_dns_map address = some ent) :
    (client_dns_incr_failures maxAge st address now).1 = ent.n_failures + 1 ∧
    strmap_get_lc (client_dns_incr_failures maxAge st address now).2.client_dns_map address
      = some { ent with n_failures := ent.n_failures + 1 } := by
  unfold client_dns_incr_failures _get_or_create_ent
  rw [hent]
  exact ⟨rfl, strmap_get_set_same _ _ _⟩

/-- C29, as stated, fails for a literal IPv4.  "1.2.3.4" has no entry;
`client_dns_incr_failures` returns 1 for it and a following lookup returns the
literal 1.2.3.4, not 0; `client_dns_set_entry` then leaves the entry alone, so
the next `client_dns_incr_failures` returns 2. -/
theorem C29_literal_count_not_reset :
    (client_dns_incr_failures 900 client_dns_init "1.2.3.4".toList 0).1 = 1 ∧
    (client_dns_lookup_entry false (inet_aton_dotted false)
      (client_dns_incr_failures 900 client_dns_init "1.2.3.4".toList 0).2
      "1.2.3.4".toList 1).1 = 16909060 ∧
    (client_dns_incr_failures 900
      (client_dns_set_entry (inet_aton_dotted false) 900
        (client_dns_incr_failures 900 client_dns_init "1.2.3.4".toList 0).2
        "1.2.3.4".toList 16909060 1)
      "1.2.3.4".toList 2).1 = 2 := by
  decide

/-- C29, amended.  `client_dns_incr_failures(a)` returns 1 when `a` has no
entry and creates the entry `(0, now + MAX_DNS_ENTRY_AGE, 1)`, so that a
following lookup of an `a` that is not a literal IPv4 returns 0; when `a` has an
entry it returns the previous count plus one and leaves `addr` and `expires` of
the entry unchanged; and after `client_dns_set_entry(a, v)` for an `a` that is
not a literal IPv4 the next `client_dns_incr_failures(a)` returns 1. -/
theorem C29_failure_counting (big_endian : Bool) (tor_inet_aton : CStr → Option Nat)
    (MAX_DNS_ENTRY_AGE : Int) (st : client_dns) (a : CStr) (now : Int) :
    (strmap_get_lc st.client_dns_map a = none →
      (client_dns_incr_failures MAX_DNS_ENTRY_AGE st a now).1 = 1 ∧
      strmap_get_lc (client_dns_incr_failures MAX_DNS_ENTRY_AGE st a now).2.client_dns_map a
        = some { addr := 0, expires := now + MAX_DNS_ENTRY_AGE, n_failures := 1 } ∧
      (tor_inet_aton a = none → ∀ later : Int,
        (client_dns_lookup_entry big_endian tor_inet_aton
          (client_dns_incr_failures MAX_DNS_ENTRY_AGE st a now).2 a later).1 = 0)) ∧
    (∀ ent : client_dns_entry, strmap_get_lc st.client_dns_map a = some ent →
      (client_dns_incr_failures MAX_DNS_ENTRY_AGE st a now).1 = ent.n_failures + 1 ∧
      strmap_get_lc (client_dns_incr_failures MAX_DNS_ENTRY_AGE st a now).2.client_dns_map a
        = some { addr := ent.addr, expires := ent.expires,
                 n_failures := ent.n_failures + 1 }) ∧
    (tor_inet_aton a = none → ∀ (v : Nat) (later : Int),
      (client_dns_incr_failures MAX_DNS_ENTRY_AGE
        (client_dns_set_entry tor_inet_aton MAX_DNS_ENTRY_AGE st a v now) a later).1 = 1) := by
  refine ⟨?_, ?_, ?_⟩
  · intro hnone
    have h := client_dns_incr_failures_new MAX_DNS_ENTRY_AGE st a now hnone
    refine ⟨h.1, h.2, ?_⟩
    intro haton later
    unfold client_dns_lookup_entry
    rw [haton]
    simp only
    rw [h.2]
    simp only [if_true]
  · intro ent hent
    exact client_dns_incr_failures_old MAX_DNS_ENTRY_AGE st a now ent hent
  · intro haton v later
    have hset := client_dns_set_entry_get tor_inet_aton MAX_DNS_ENTRY_AGE st a v now haton
    have h := client_dns_incr_failures_old MAX_DNS_ENTRY_AGE
      (client_dns_set_entry tor_inet_aton MAX_DNS_ENTRY_AGE st a v now) a later _ hset
    rw [h.1]
    rfl

/-- C29 amended, a concrete run: "example.com" fails twice, resolves to 1.2.3.4,
and fails again; the counts are 1, 2 and 1. -/
theorem C29_failure_counting_witness :
    (client_dns_incr_failures 900 client_dns_init "example.com".toList 0).1 = 1 ∧
    (client_dns_incr_failures 900
      (client_dns_incr_failures 900 client_dns_init "example.com".toList 0).2
      "example.com".toList 5).1 = 1 + 1 ∧
    (client_dns_incr_failures 900
      (client_dns_set_entry (inet_aton_dotted false) 900
        (client_dns_incr_failures 900
          (client_dns_incr_failures 900 client_dns_init "example.com".toList 0).2
          "example.com".toList 5).2
        "example.com".toList 16909060 10)
      "example.com".toList 20).1 = 1 :=
  ⟨((C29_failure_counting false (inet_aton_dotted false) 900 client_dns_init
      "example.com".toList 0).1 rfl).1,
   ((C29_failure_counting false (inet_aton_dotted false) 900
      (client_dns_incr_failures 900 client_dns_init "example.com".toList 0).2
      "example.com".toList 5).2.1
      { addr := 0, expires := 0 + 900, n_failures := 1 } (by decide)).1,
   (C29_failure_counting false (inet_aton_dotted false) 900
      (client_dns_incr_failures 900
        (client_dns_incr_failures 900 client_dns_init "example.com".toList 0).2
        "example.com".toList 5).2
      "example.com".toList 10).2.2 (by decide) 16909060 20⟩

/-- C30. Set ignores literals.  For every address that `tor_inet_aton` accepts
as a literal IPv4 and every value, zero or not, `client_dns_set_entry` leaves
the cache as it was: the same map, entry by entry, and the same
`client_dns_size`. -/
theorem C30_set_ignores_literals (tor_inet_aton : CStr → Option Nat) (MAX_DNS_ENTRY_AGE : Int)
    (st : client_dns) (address : CStr) (val : Nat) (now : Int) (s_addr : Nat)
    (haton : tor_inet_aton address = some s_addr) :
    client_dns_set_entry tor_inet_aton MAX_DNS_ENTRY_AGE st address val now = st ∧
    (client_dns_set_entry tor_inet_aton MAX_DNS_ENTRY_AGE st address val now).client_dns_map
      = st.client_dns_map ∧
    (client_dns_set_entry tor_inet_aton MAX_DNS_ENTRY_AGE st address val now).client_dns_size
      = st.client_dns_size := by
  have h : client_dns_set_entry tor_inet_aton MAX_DNS_ENTRY_AGE st address val now = st := by
    unfold client_dns_set_entry
    rw [haton]
  rw [h]
  exact ⟨rfl, rfl, rfl⟩

/-- C30, a concrete run on a little-endian host: setting "1.2.3.4" to 5.6.7.8
leaves a cache with one entry as it is. -/
theorem C30_set_ignores_literals_witness :
    client_dns_set_entry (inet_aton_dotted false) 900
        { client_dns_size := 1,
          client_dns_map := [("example.com".toList,
            { addr := 16909060, expires := 1900, n_failures := 0 })] }
        "1.2.3.4".toList 84281096 1000
      = { client_dns_size := 1,
          client_dns_map := [("example.com".toList,
            { addr := 16909060, expires := 1900, n_failures := 0 })] } :=
  (C30_set_ignores_literals (inet_aton_dotted false) 900
    { client_dns_size := 1,
      client_dns_map := [("example.com".toList,
        { addr := 16909060, expires := 1900, n_failures := 0 })] }
    "1.2.3.4".toList 84281096 1000 67305985 (by decide)).1

/-! ## Pinned exit or hidden service -/

theorem send_begin_rend_query (be : Bool) (aton : CStr → Option Nat) (rps : Nat) (sws : Int)
    (dns : client_dns) (now : Int) (ap_conn : connection_t) (circ : circuit_t) (send_ret : Int) :
    (connection_ap_handshake_send_begin be aton rps sws dns now ap_conn circ
        send_ret).2.1.rend_query = ap_conn.rend_query := by
  unfold connection_ap_handshake_send_begin
  simp only
  split_ifs <;> rfl

theorem send_resolve_rend_query (ap_conn : connection_t) (circ : circuit_t) (send_ret : Int) :
    (connection_ap_handshake_send_resolve ap_conn circ send_ret).2.1.rend_query
      = ap_conn.rend_query := by
  unfold connection_ap_handshake_send_resolve
  simp only
  split_ifs <;> rfl

theorem attach_circuit_rend_query (env : edge_env) (o : attach_outcome) (now : Int)
    (w : edge_world) :
    (connection_ap_handshake_attach_circuit env o now w).2.conn.rend_query
      = w.conn.rend_query := by
  unfold connection_ap_handshake_attach_circuit
  cases o with
  | never => rfl
  | not_yet => rfl
  | found circ send_ret =>
    simp only
    split_ifs
    · exact send_begin_rend_query env.big_endian env.tor_inet_aton env.RELAY_PAYLOAD_SIZE
        env.STREAMWINDOW_START w.dns now w.conn
        { circ with p_streams := w.conn :: circ.p_streams } send_ret
    · exact send_resolve_rend_query w.conn { circ with p_streams := w.conn :: circ.p_streams }
        send_ret

theorem socks_resolved_rend_query (env : edge_env) (now : Int) (dns : client_dns)
    (conn : connection_t) (answer_type : Nat) (answer : List Nat) :
    (connection_ap_handshake_socks_resolved env now dns conn answer_type
        answer).1.rend_query = conn.rend_query := by
  rw [socks_resolved_conn]

/-- The part of `connection_ap_handshake_process_socks` for an address that is
not a hidden service leaves `rend_query` alone. -/
theorem process_socks_normal_rend_query (env : edge_env) (o : socks_oracle) (now : Int)
    (w : edge_world) :
    (connection_ap_handshake_process_socks_normal env o now w).2.conn.rend_query
      = w.conn.rend_query := by
  unfold connection_ap_handshake_process_socks_normal
  simp only
  split_ifs <;>
    simp only [socks_resolved_rend_query, attach_circuit_rend_query, connection_mark_for_close]

/-- The part of `connection_ap_handshake_process_socks` for a hidden-service
request leaves `chosen_exit_name` alone. -/
theorem process_socks_onion_exit_name (env : edge_env) (o : socks_oracle) (now : Int)
    (w : edge_world) :
    (connection_ap_handshake_process_socks_onion env o now w).2.conn.chosen_exit_name
      = w.conn.chosen_exit_name := by
  unfold connection_ap_handshake_process_socks_onion
  simp only
  split_ifs <;>
    simp only [socks_resolved_exit_name, attach_circuit_exit_name, rend_client_refetch_renddesc]

theorem socks_reply_keeps (conn : connection_t) (reply : List Nat) (status : Int) :
    (connection_ap_handshake_socks_reply conn reply status).rend_query = conn.rend_query ∧
    (connection_ap_handshake_socks_reply conn reply status).chosen_exit_name
      = conn.chosen_exit_name := by
  unfold connection_ap_handshake_socks_reply
  simp only
  split_ifs <;> exact ⟨rfl, rfl⟩

/-- C31. Pinned exit and hidden service are mutually exclusive.  For every AP
stream that enters `connection_ap_handshake_process_socks` with
`chosen_exit_name` unset and `rend_query` empty, whatever the SOCKS request and
whatever the other modules report, after the call it is not the case that
`chosen_exit_name` is set and `rend_query` is non-empty: one of the two is as it
was on entry. -/
theorem C31_exit_or_hidden_service (env : edge_env) (o : socks_oracle) (now : Int)
    (w : edge_world)
    (hexit : w.conn.chosen_exit_name = none) (hrend : w.conn.rend_query = []) :
    ¬ ((connection_ap_handshake_process_socks env o now w).2.conn.chosen_exit_name ≠ none ∧
        (connection_ap_handshake_process_socks env o now w).2.conn.rend_query ≠ []) ∧
    ((connection_ap_handshake_process_socks env o now w).2.conn.chosen_exit_name = none ∨
      (connection_ap_handshake_process_socks env o now w).2.conn.rend_query = []) := by
  have hor : (connection_ap_handshake_process_socks env o now w).2.conn.chosen_exit_name = none ∨
      (connection_ap_handshake_process_socks env o now w).2.conn.rend_query = [] := by
    unfold connection_ap_handshake_process_socks
    simp only
    by_cases hs : o.sockshere = -1 ∨ o.sockshere = 0
    · rw [if_pos hs]
      left
      simp only
      split_ifs <;> simp only [(socks_reply_keeps _ _ _).2, hexit]
    · rw [if_neg hs]
      by_cases he : (parse_extended_hostname env.REND_SERVICE_ID_LEN env.rend_valid_service_id
          o.socks.address).1 = hostname_type_t.EXIT_HOSTNAME
      · rw [if_pos he]
        right
        cases strrchr_split '.' (parse_extended_hostname env.REND_SERVICE_ID_LEN
            env.rend_valid_service_id o.socks.address).2 with
        | none => exact hrend
        | some p =>
          obtain ⟨host, name⟩ := p
          simp only
          by_cases hn : name = []
          · rw [if_pos hn]
            exact hrend
          · rw [if_neg hn, process_socks_normal_rend_query]
            exact hrend
      · rw [if_neg he]
        by_cases ho : (parse_extended_hostname env.REND_SERVICE_ID_LEN
            env.rend_valid_service_id o.socks.address).1 ≠ hostname_type_t.ONION_HOSTNAME
        · rw [if_pos ho]
          right
          rw [process_socks_normal_rend_query]
          exact hrend
        · rw [if_neg ho]
          left
          rw [process_socks_onion_exit_name]
          exact hexit
  refine ⟨?_, hor⟩
  rintro ⟨h1, h2⟩
  rcases hor with h | h
  · exact h1 h
  · exact h2 h

/-- C31, the address of the claim: "x.onion.exit" is classified EXIT; the stream
ends with the exit "onion" pinned and an empty `rend_query`. -/
theorem C31_exit_or_hidden_service_witness :
    ¬ ((connection_ap_handshake_process_socks retry_env
          { sockshere := 1,
            socks := { socks_version := 5, command := SOCKS_COMMAND_CONNECT,
                       address := "x.onion.exit".toList, port := 80 },
            inbuf := [], rend_r := 1, rend_received := 990, attach := attach_outcome.not_yet }
          1000 { conn := {} }).2.conn.chosen_exit_name ≠ none ∧
        (connection_ap_handshake_process_socks retry_env
          { sockshere := 1,
            socks := { socks_version := 5, command := SOCKS_COMMAND_CONNECT,
                       address := "x.onion.exit".toList, port := 80 },
            inbuf := [], rend_r := 1, rend_received := 990, attach := attach_outcome.not_yet }
          1000 { conn := {} }).2.conn.rend_query ≠ []) :=
  (C31_exit_or_hidden_service retry_env
    { sockshere := 1,
      socks := { socks_version := 5, command := SOCKS_COMMAND_CONNECT,
                 address := "x.onion.exit".toList, port := 80 },
      inbuf := [], rend_r := 1, rend_received := 990, attach := attach_outcome.not_yet }
    1000 { conn := {} } rfl rfl).1

/-! ## Flushing -/

/-- C32, what the code does.  `connection_edge_finished_flushing` never changes
the stream.  In the two open states it stops writing, considers a sendme and
returns 0; in SOCKS_WAIT, RENDDESC_WAIT, CIRCUIT_WAIT and CONNECT_WAIT it stops
writing and returns 0; but in RESOLVE_WAIT and in the exit-side states
RESOLVING, CONNECTING and RESOLVEFAILED it falls to `default:` and returns -1
without stopping writing and without marking the stream for close. -/
theorem C32_finished_flushing_by_state (conn : connection_t) :
    (connection_edge_finished_flushing conn).conn = conn ∧
    (conn.state = conn_state.AP_CONN_STATE_OPEN ∨
        conn.state = conn_state.EXIT_CONN_STATE_OPEN →
      (connection_edge_finished_flushing conn).ret = 0 ∧
      (connection_edge_finished_flushing conn).stop_writing = true ∧
      (connection_edge_finished_flushing conn).consider_sending_sendme = true) ∧
    (conn.state = conn_state.AP_CONN_STATE_SOCKS_WAIT ∨
        conn.state = conn_state.AP_CONN_STATE_RENDDESC_WAIT ∨
        conn.state = conn_state.AP_CONN_STATE_CIRCUIT_WAIT ∨
        conn.state = conn_state.AP_CONN_STATE_CONNECT_WAIT →
      (connection_edge_finished_flushing conn).ret = 0 ∧
      (connection_edge_finished_flushing conn).stop_writing = true ∧
      (connection_edge_finished_flushing conn).consider_sending_sendme = false) ∧
    (conn.state = conn_state.AP_CONN_STATE_RESOLVE_WAIT ∨
        conn.state = conn_state.EXIT_CONN_STATE_RESOLVING ∨
        conn.state = conn_state.EXIT_CONN_STATE_CONNECTING ∨
        conn.state = conn_state.EXIT_CONN_STATE_RESOLVEFAILED →
      (connection_edge_finished_flushing conn).ret = -1 ∧
      (connection_edge_finished_flushing conn).stop_writing = false ∧
      (connection_edge_finished_flushing conn).consider_sending_sendme = false ∧
      (connection_edge_finished_flushing conn).conn.marked_for_close
        = conn.marked_for_close) := by
  unfold connection_edge_finished_flushing
  cases hstate : conn.state <;> simp

/-- C32, the failing run: an AP stream that waits in RESOLVE_WAIT, not marked
for close, gets -1; writing is not stopped and the stream is not marked. -/
theorem C32_finished_flushing_by_state_witness :
    (connection_edge_finished_flushing
        { type := conn_type.CONN_TYPE_AP, state := conn_state.AP_CONN_STATE_RESOLVE_WAIT,
          stream_id := 5,
          socks_request := { socks_version := 5, command := SOCKS_COMMAND_RESOLVE,
                             address := "example.com".toList } }).ret = -1 ∧
    (connection_edge_finished_flushing
        { type := conn_type.CONN_TYPE_AP, state := conn_state.AP_CONN_STATE_RESOLVE_WAIT,
          stream_id := 5,
          socks_request := { socks_version := 5, command := SOCKS_COMMAND_RESOLVE,
                             address := "example.com".toList } }).stop_writing = false ∧
    (connection_edge_finished_flushing
        { type := conn_type.CONN_TYPE_AP, state := conn_state.AP_CONN_STATE_RESOLVE_WAIT,
          stream_id := 5,
          socks_request := { socks_version := 5, command := SOCKS_COMMAND_RESOLVE,
                             address := "example.com".toList } }).conn.marked_for_close
      = false := by
  have h := (C32_finished_flushing_by_state
    { type := conn_type.CONN_TYPE_AP, state := conn_state.AP_CONN_STATE_RESOLVE_WAIT,
      stream_id := 5,
      socks_request := { socks_version := 5, command := SOCKS_COMMAND_RESOLVE,
                         address := "example.com".toList } }).2.2.2 (Or.inl rfl)
  exact ⟨h.1, h.2.1, h.2.2.2⟩

/-! ## Resolve answers and the cache -/

/-- Reading four bytes as a `uint32_t` and applying `ntohl` gives the number
that the bytes spell most significant first, on either byte order. -/
theorem ntohl_get_uint32 (big_endian : Bool) (a1 a2 a3 a4 : Nat)
    (h1 : a1 < 256) (h2 : a2 < 256) (h3 : a3 < 256) (h4 : a4 < 256) :
    ntohl big_endian (get_uint32 big_endian [a1, a2, a3, a4])
      = a1 * 2 ^ 24 + a2 * 2 ^ 16 + a3 * 2 ^ 8 + a4 := by
  cases big_endian
  · have h := bswap_bytes a4 a3 a2 a1 h4 h3 h2 h1
    have hx : get_uint32 false [a1, a2, a3, a4]
        = a4 * 16777216 + a3 * 65536 + a2 * 256 + a1 := by
      simp only [get_uint32, Bool.false_eq_true, if_false, List.getD_cons_zero,
        List.getD_cons_succ]
      norm_num
      omega
    simp only [ntohl, Bool.false_eq_true, if_false, bswap32, hx]
    norm_num
    rw [h.1, h.2.1, h.2.2.1, h.2.2.2]
  · simp only [ntohl, get_uint32, if_true, List.getD_cons_zero, List.getD_cons_succ]
    norm_num
    omega

theorem get_uint32_eq_zero (big_endian : Bool) (a1 a2 a3 a4 : Nat)
    (h : get_uint32 big_endian [a1, a2, a3, a4] = 0) :
    a1 = 0 ∧ a2 = 0 ∧ a3 = 0 ∧ a4 = 0 := by
  cases big_endian
  · simp only [get_uint32, Bool.false_eq_true, if_false, List.getD_cons_zero,
      List.getD_cons_succ] at h
    norm_num at h
    omega
  · simp only [get_uint32, if_true, List.getD_cons_zero, List.getD_cons_succ] at h
    norm_num at h
    omega

theorem get_uint32_bytes (big_endian : Bool) (x : Nat) (hx : x < 2 ^ 32) :
    get_uint32 big_endian (uint32_bytes big_endian x) = x := by
  cases big_endian
  · simp only [get_uint32, uint32_bytes, Bool.false_eq_true, if_false, List.getD_cons_zero,
      List.getD_cons_succ]
    norm_num at hx ⊢
    omega
  · simp only [get_uint32, uint32_bytes, if_true, List.getD_cons_zero, List.getD_cons_succ]
    norm_num at hx ⊢
    omega

theorem htonl_lt (big_endian : Bool) (x : Nat) : htonl big_endian x < 2 ^ 32 := by
  cases big_endian
  · simp only [htonl, bswap32, Bool.false_eq_true, if_false]
    norm_num
    omega
  · simp only [htonl, if_true]
    exact Nat.mod_lt _ (by norm_num)

/-- The cache after `connection_ap_handshake_socks_resolved` with an IPv4
answer that reads as a non-zero `uint32_t`. -/
theorem socks_resolved_dns_ipv4 (env : edge_env) (now : Int) (dns : client_dns)
    (conn : connection_t) (answer : List Nat) (h : get_uint32 env.big_endian answer ≠ 0) :
    (connection_ap_handshake_socks_resolved env now dns conn RESOLVED_TYPE_IPV4 answer).2
      = client_dns_set_entry env.tor_inet_aton env.MAX_DNS_ENTRY_AGE dns
          conn.socks_request.address (ntohl env.big_endian (get_uint32 env.big_endian answer))
          now := by
  unfold connection_ap_handshake_socks_resolved
  simp only [if_true, ne_eq, h, not_false_eq_true]

theorem socks_resolved_dns_other (env : edge_env) (now : Int) (dns : client_dns)
    (conn : connection_t) (answer_type : Nat) (answer : List Nat)
    (h : answer_type ≠ RESOLVED_TYPE_IPV4) :
    (connection_ap_handshake_socks_resolved env now dns conn answer_type answer).2 = dns := by
  unfold connection_ap_handshake_socks_resolved
  simp only [h, if_false]

/-- C33. Answering a resolve feeds and refreshes the cache.  When
`connection_ap_handshake_socks_resolved` is called at time `now` with an IPv4
answer of four bytes that are not all zero, for a stream whose SOCKS address is
not a literal IPv4, the client DNS entry of that address afterwards has `addr`
equal to the answer read most significant byte first (the answer in host
order), `expires = now + MAX_DNS_ENTRY_AGE` and failure count 0.  An answer of
any other type, error and IPv6 among them, leaves the cache as it was.  And a
RESOLVE that `connection_ap_handshake_process_socks` serves from a fresh cache
entry leaves that entry with the same `addr`, `expires = now + MAX_DNS_ENTRY_AGE`
and failure count 0. -/
theorem C33_resolved_feeds_cache (env : edge_env) (now : Int) (dns : client_dns)
    (conn : connection_t) (o : socks_oracle) (w : edge_world) :
    (∀ a1 a2 a3 a4 : Nat, a1 < 256 → a2 < 256 → a3 < 256 → a4 < 256 →
      ¬ (a1 = 0 ∧ a2 = 0 ∧ a3 = 0 ∧ a4 = 0) →
      env.tor_inet_aton conn.socks_request.address = none →
      strmap_get_lc
          (connection_ap_handshake_socks_resolved env now dns conn RESOLVED_TYPE_IPV4
            [a1, a2, a3, a4]).2.client_dns_map conn.socks_request.address
        = some { addr := a1 * 2 ^ 24 + a2 * 2 ^ 16 + a3 * 2 ^ 8 + a4,
                 expires := now + env.MAX_DNS_ENTRY_AGE, n_failures := 0 }) ∧
    (∀ (answer_type : Nat) (answer : List Nat), answer_type ≠ RESOLVED_TYPE_IPV4 →
      (connection_ap_handshake_socks_resolved env now dns conn answer_type answer).2 = dns) ∧
    (∀ ent : client_dns_entry,
      o.sockshere = 1 → o.socks.command = SOCKS_COMMAND_RESOLVE →
      (parse_extended_hostname env.REND_SERVICE_ID_LEN env.rend_valid_service_id
        o.socks.address).1 = hostname_type_t.NORMAL_HOSTNAME →
      o.socks.address.length ≤ env.RELAY_PAYLOAD_SIZE →
      w.conn.chosen_exit_name = none →
      env.tor_inet_aton o.socks.address = none →
      strmap_get_lc w.dns.client_dns_map o.socks.address = some ent →
      ent.addr ≠ 0 → ent.addr < 2 ^ 32 → now ≤ ent.expires →
      strmap_get_lc (connection_ap_handshake_process_socks env o now w).2.dns.client_dns_map
          o.socks.address
        = some { addr := ent.addr, expires := now + env.MAX_DNS_ENTRY_AGE,
                 n_failures := 0 }) := by
  refine ⟨?_, ?_, ?_⟩
  · intro a1 a2 a3 a4 h1 h2 h3 h4 hnz haton
    have hne : get_uint32 env.big_endian [a1, a2, a3, a4] ≠ 0 :=
      fun h => hnz (get_uint32_eq_zero env.big_endian a1 a2 a3 a4 h)
    rw [socks_resolved_dns_ipv4 env now dns conn [a1, a2, a3, a4] hne,
      ntohl_get_uint32 env.big_endian a1 a2 a3 a4 h1 h2 h3 h4]
    exact client_dns_set_entry_get env.tor_inet_aton env.MAX_DNS_ENTRY_AGE dns
      conn.socks_request.address _ now haton
  · intro answer_type answer htype
    exact socks_resolved_dns_other env now dns conn answer_type answer htype
  · intro ent hdone hcmd hnormal hlen hexit haton hent ha0 ha32 hfresh
    have hlook := client_dns_lookup_entry_fresh env.big_endian env.tor_inet_aton w.dns
      o.socks.address now ent haton hent ha0 hfresh
    have hne : htonl env.big_endian ent.addr ≠ 0 :=
      fun h => ha0 ((htonl_eq_zero_iff env.big_endian ent.addr ha32).mp h)
    have hsc := process_socks_normal_shortcut env o now
      { w with conn := { w.conn with socks_request := o.socks, inbuf := o.inbuf } }
      (htonl env.big_endian ent.addr) w.dns hcmd hlen
      (Or.inr ⟨haton, hexit, by rw [hlook], by rw [hlook]⟩) hne
    have hget : get_uint32 env.big_endian
        (uint32_bytes env.big_endian (htonl env.big_endian ent.addr))
        = htonl env.big_endian ent.addr :=
      get_uint32_bytes env.big_endian _ (htonl_lt env.big_endian ent.addr)
    have hne2 : get_uint32 env.big_endian
        (uint32_bytes env.big_endian (htonl env.big_endian ent.addr)) ≠ 0 := by
      rw [hget]
      exact hne
    rw [process_socks_of_normal env o now w hdone hnormal, hsc]
    show strmap_get_lc (connection_ap_handshake_socks_resolved env now w.dns
      { w.conn with socks_request := o.socks, inbuf := o.inbuf } RESOLVED_TYPE_IPV4
      (uint32_bytes env.big_endian (htonl env.big_endian ent.addr))).2.client_dns_map
      o.socks.address = _
    rw [socks_resolved_dns_ipv4 env now w.dns _ _ hne2, hget,
      ntohl_htonl env.big_endian ent.addr ha32]
    exact client_dns_set_entry_get env.tor_inet_aton env.MAX_DNS_ENTRY_AGE w.dns
      o.socks.address ent.addr now haton

/-- C33, concrete runs on a little-endian host.  The answer 1.2.3.4 for
"example.com" at second 1000 gives the entry (1.2.3.4, 1900, 0); and a RESOLVE
of "example.com" at second 1500, served from an entry that expires at 1900,
leaves the entry with expiry 2400. -/
theorem C33_resolved_feeds_cache_witness :
    strmap_get_lc
        (connection_ap_handshake_socks_resolved retry_env 1000 client_dns_init
          { socks_request := { socks_version := 5, command := SOCKS_COMMAND_RESOLVE,
                               address := "example.com".toList } }
          RESOLVED_TYPE_IPV4 [1, 2, 3, 4]).2.client_dns_map "example.com".toList
      = some { addr := 1 * 2 ^ 24 + 2 * 2 ^ 16 + 3 * 2 ^ 8 + 4, expires := 1000 + 900,
               n_failures := 0 } ∧
    strmap_get_lc
        (connection_ap_handshake_process_socks retry_env
          { sockshere := 1,
            socks := { socks_version := 5, command := SOCKS_COMMAND_RESOLVE,
                       address := "example.com".toList },
            inbuf := [], rend_r := 0, rend_received := 0, attach := attach_outcome.not_yet }
          1500
          { conn := {},
            dns := { client_dns_size := 1,
                     client_dns_map := [("example.com".toList,
                       { addr := 16909060, expires := 1900, n_failures := 0 })] }
          }).2.dns.client_dns_map "example.com".toList
      = some { addr := 16909060, expires := 1500 + 900, n_failures := 0 } :=
  ⟨(C33_resolved_feeds_cache retry_env 1000 client_dns_init
      { socks_request := { socks_version := 5, command := SOCKS_COMMAND_RESOLVE,
                           address := "example.com".toList } }
      { sockshere := 1, socks := {}, inbuf := [], rend_r := 0, rend_received := 0,
        attach := attach_outcome.not_yet }
      { conn := {} }).1 1 2 3 4 (by decide) (by decide) (by decide) (by decide) (by decide)
      (by decide),
   (C33_resolved_feeds_cache retry_env 1500 client_dns_init {}
      { sockshere := 1,
        socks := { socks_version := 5, command := SOCKS_COMMAND_RESOLVE,
                   address := "example.com".toList },
        inbuf := [], rend_r := 0, rend_received := 0, attach := attach_outcome.not_yet }
      { conn := {},
        dns := { client_dns_size := 1,
                 client_dns_map := [("example.com".toList,
                   { addr := 16909060, expires := 1900, n_failures := 0 })] } }).2.2
      { addr := 16909060, expires := 1900, n_failures := 0 }
      rfl rfl (by decide) (by decide) rfl (by decide) (by decide) (by decide) (by decide)
      (by decide)⟩

end Tor
